import Mathlib

/-!
# Touchpad component (`components/features/touchpad/touchpad.c`)

A shallow embedding of the signal-processing and event layer of the touchpad
driver: the per-channel state machine run by `touch_pad_read_cb`, the matrix
resolver (`tp_matrix_push_cb`, `tp_matrix_release_cb`), the slider position
algorithm (`tp_slide_pos_cb`), the sample filter of the processing task, and the
registration functions (`iot_tp_create`, `iot_tp_delete`, `iot_tp_add_cb`,
`iot_tp_matrix_create`, `iot_tp_matrix_add_cb`, `iot_tp_slide_create`).

Conventions of the embedding.

* `float` values are exact rationals (`ℚ`): rounding to binary32 is not
  represented.  Where the driver can divide by zero (the computation of
  `diff_rate` with a zero baseline, and that of `pos_scale` for a slider of one
  channel), the quotient goes through `FVal`, which adds the IEEE results of such
  a division (`+inf`, `-inf`, `NaN`).
* Where the outcome of a `float` comparison or truncation enters a statement, the
  statement is made for the inputs that keep away from the level by a relative
  margin of `2^-16` (section "Rounding margin"): on these the exact value and the
  binary32 value that the code computes fall on the same side.
* `uint16_t` / `uint32_t` / `uint8_t` fields are `Nat`; every arithmetic step
  that can wrap in C carries its explicit `% 2^w`.
* Function pointers and `void *` arguments are `Nat` identifiers, `0` is `NULL`.
* Calls into user code and into the timer service are not executed: each one
  is recorded, in program order, in the list of `Effect`s (`MatrixEffect`s for a
  matrix group) that the embedded function returns next to the new state.
* The file is embedded for the build in which the slider, the repeat
  ("serial") trigger, the custom-duration callbacks and the tap event are all
  compiled in.
* A handle (`tp_handle_t`, `tp_matrix_handle_t`) is given as the record it points
  to, `none` being `NULL`; a function that writes through a handle returns the
  record after the call.  The channel table `tp_group` is a list with one slot
  per pad number.
* What the platform answers (task and mutex creation, the readings of
  `touch_pad_read`, the results of the `calloc` calls that the source checks) is
  a parameter of the embedded function.  The `calloc` of line 719, whose result
  the source uses unchecked, is taken to return memory.
-/

namespace Touchpad

/-! ## Constants (lines 50-74) -/

/-- Constant `TOUCHPAD_MEAS_PERIOD_MS` -/
def TOUCHPAD_MEAS_PERIOD_MS : Nat := 20

/-- Constant `TOUCHPAD_STATE_SWITCH_DEBOUNCE` -/
def TOUCHPAD_STATE_SWITCH_DEBOUNCE : Nat := 80

/-- Constant `TOUCHPAD_BASELINE_RESET_COUNT_THRESHOLD` -/
def TOUCHPAD_BASELINE_RESET_COUNT_THRESHOLD : Nat := 5

/-- Constant `TOUCHPAD_BASELINE_UPDATE_COUNT_THRESHOLD` -/
def TOUCHPAD_BASELINE_UPDATE_COUNT_THRESHOLD : Nat := 800

/-- Constant `TOUCHPAD_TOUCH_LOW_SENSE_THRESHOLD`, `(float)0.03` -/
def TOUCHPAD_TOUCH_LOW_SENSE_THRESHOLD : ℚ := 3 / 100

/-- Constant `TOUCHPAD_TOUCH_THRESHOLD_PERCENT`, `(float)0.75` -/
def TOUCHPAD_TOUCH_THRESHOLD_PERCENT : ℚ := 75 / 100

/-- Constant `TOUCHPAD_NOISE_THRESHOLD_PERCENT`, `(float)0.20` -/
def TOUCHPAD_NOISE_THRESHOLD_PERCENT : ℚ := 20 / 100

/-- Constant `TOUCHPAD_HYSTERESIS_THRESHOLD_PERCENT`, `(float)0.10` -/
def TOUCHPAD_HYSTERESIS_THRESHOLD_PERCENT : ℚ := 10 / 100

/-- Constant `TOUCHPAD_BASELINE_RESET_THRESHOLD_PERCENT`, `(float)0.20` -/
def TOUCHPAD_BASELINE_RESET_THRESHOLD_PERCENT : ℚ := 20 / 100

/-- Constant `TOUCHPAD_SLIDER_TRIGGER_THRESHOLD_PERCENT`, `(float)0.50` -/
def TOUCHPAD_SLIDER_TRIGGER_THRESHOLD_PERCENT : ℚ := 50 / 100

/-- Constant `SLDER_POS_FILTER_FACTOR_DEFAULT` -/
def SLDER_POS_FILTER_FACTOR_DEFAULT : Nat := 4

/-- Modelled from the spec: `sdkconfig.h` is not among the sources, so whether
`CONFIG_TOUCH_PAD_USE_CB_TAP_EVENT` is set is not visible there; the spec
(§4.2 step 3) has the tap event fired on release, i.e. the option switched on. -/
def CONFIG_TOUCH_PAD_USE_CB_TAP_EVENT : Bool := true

/-- Modelled from the spec: `CONFIG_TOUCH_PAD_USE_CB_SERIAL` (from the absent
`sdkconfig.h`); the spec (§4.2 step 3, §4.5) has the repeat trigger compiled in. -/
def CONFIG_TOUCH_PAD_USE_CB_SERIAL : Bool := true

/-- Modelled from the spec: `CONFIG_TOUCH_PAD_USE_CB_CUSTOM` (from the absent
`sdkconfig.h`); the spec (§4.2, §4.5) has the custom-duration timers compiled in. -/
def CONFIG_TOUCH_PAD_USE_CB_CUSTOM : Bool := true

/-- Modelled from the spec: `CONFIG_TOUCH_PAD_USE_SLIDER` (from the absent
`sdkconfig.h`); the spec (§4.2 step 4, §4.3) has the slider compiled in. -/
def CONFIG_TOUCH_PAD_USE_SLIDER : Bool := true

/-! ## Data model (lines 76-221) -/

/-- Enumeration `tp_status_t`. -/
inductive tp_status_t
  | TOUCHPAD_STATE_IDLE
  | TOUCHPAD_STATE_PUSH
  | TOUCHPAD_STATE_PRESS
  | TOUCHPAD_STATE_RELEASE
  deriving DecidableEq, Repr

/-- Enumeration `tp_type_t` (with `CONFIG_TOUCH_PAD_USE_SLIDER`) -/
inductive tp_type_t
  | TOUCHPAD_SINGLE_BUTTON
  | TOUCHPAD_MATRIX_BUTTON
  | TOUCHPAD_LINEAR_SLIDER
  | TOUCHPAD_DUPLEX_SLIDER
  | TOUCHPAD_WHEEL_SLIDER
  | TOUCHPAD_TYPE_MAX
  deriving DecidableEq, Repr

/-- The integer value of a `tp_type_t` enumerator. -/
def tp_type_t.toNat : tp_type_t → Nat
  | TOUCHPAD_SINGLE_BUTTON => 0
  | TOUCHPAD_MATRIX_BUTTON => 1
  | TOUCHPAD_LINEAR_SLIDER => 2
  | TOUCHPAD_DUPLEX_SLIDER => 3
  | TOUCHPAD_WHEEL_SLIDER => 4
  | TOUCHPAD_TYPE_MAX => 5

/-- Modelled from the spec: `tp_cb_type_t` is declared in the absent
`iot_touchpad.h`; the event kinds are those of the spec (§3: Push, Release,
Tap, Slide), under the names the source uses (`TOUCHPAD_CB_MAX` is their number). -/
inductive tp_cb_type_t
  | TOUCHPAD_CB_PUSH
  | TOUCHPAD_CB_RELEASE
  | TOUCHPAD_CB_TAP
  | TOUCHPAD_CB_SLIDE
  deriving DecidableEq, Repr

/-- Record `tp_cb_t`: a handler and its user argument. -/
structure tp_cb_t where
  cb : Nat
  arg : Nat
  deriving DecidableEq, Repr

/-- Record `tp_custom_cb_t` (one node of the `custom_cbs` list; `next_cb` is the list tail,
`tp_dev` the owner). -/
structure tp_custom_cb_t where
  cb : Nat
  arg : Nat
  interval_ms : Nat
  tmr : Option Nat
  deriving DecidableEq, Repr

/-- A `float` as the driver can produce it when it divides: an exact rational, or
one of the IEEE results of dividing by zero. -/
inductive FVal
  | num (q : ℚ)
  | pinf
  | ninf
  | nan
  deriving DecidableEq

/-- Comparison `x >= t` for a finite `t`. -/
def FVal.geQ : FVal → ℚ → Bool
  | num q, t => decide (t ≤ q)
  | pinf, _ => true
  | ninf, _ => false
  | nan, _ => false

/-- Comparison `x > t` for a finite `t`. -/
def FVal.gtQ : FVal → ℚ → Bool
  | num q, t => decide (t < q)
  | pinf, _ => true
  | ninf, _ => false
  | nan, _ => false

/-- Comparison `x <= t` for a finite `t`. -/
def FVal.leQ : FVal → ℚ → Bool
  | num q, t => decide (q ≤ t)
  | pinf, _ => false
  | ninf, _ => true
  | nan, _ => false

/-- Comparison `fabs(x) <= t` for a finite `t`. -/
def FVal.absLeQ : FVal → ℚ → Bool
  | num q, t => decide (|q| ≤ t)
  | pinf, _ => false
  | ninf, _ => false
  | nan, _ => false

/-- Comparison `fabs(x) < t` for a finite `t`. -/
def FVal.absLtQ : FVal → ℚ → Bool
  | num q, t => decide (|q| < t)
  | pinf, _ => false
  | ninf, _ => false
  | nan, _ => false

/-- Record `tp_dev_t`: one sensing channel. -/
structure tp_dev_t where
  touch_pad_num : Nat
  state : tp_status_t
  button_type : tp_type_t
  touchChange : ℚ
  diff_rate : FVal
  touch_thr : ℚ
  noise_thr : ℚ
  hysteresis_thr : ℚ
  baseline_reset_thr : ℚ
  slide_trigger_thr : ℚ
  baseline : Nat
  debounce_count : Nat
  debounce_th : Nat
  bl_reset_count : Nat
  bl_reset_count_th : Nat
  bl_update_count : Nat
  bl_update_count_th : Nat
  serial_tmr : Option Nat
  cb_group : tp_cb_type_t → Option tp_cb_t
  serial_cb : tp_cb_t
  serial_thres_sec : Nat
  serial_interval_ms : Nat
  sum_ms : Nat
  custom_cbs : List tp_custom_cb_t

/-- What a pass of the driver does to the outside world, in program order. -/
inductive Effect
  /-- the handler that `callback_exec` found in slot `t` is run -/
  | callback (t : tp_cb_type_t) (c : tp_cb_t)
  /-- the repeat handler is run: `tp_dev->serial_cb.cb(tp_dev->serial_cb.arg)` -/
  | serial_callback (c : tp_cb_t)
  /-- a custom-duration handler is run: `custom_cb->cb(custom_cb->arg)` -/
  | custom_callback (c : tp_cb_t)
  /-- a custom-duration timer is stopped and re-armed (`xTimerReset`) -/
  | tmr_reset (tmr : Nat)
  /-- a timer is stopped (`stop_timer`) -/
  | tmr_stop (tmr : Nat)
  /-- the periodic repeat timer is started -/
  | tmr_start (tmr : Option Nat)
  deriving DecidableEq

/-! ## The per-channel state machine (lines 399-604) -/

/-- Conversion of an integer to `int16_t` (two's complement wrap). -/
def toInt16 (n : Int) : Int := (n + 32768) % 65536 - 32768

/-- Line 485: `diff_data = (int16_t) baseline - (int16_t) raw_data[i]`, stored in an
`int16_t`. -/
def diff_data_of (baseline raw : Nat) : Int :=
  toInt16 (toInt16 (baseline : Int) - toInt16 (raw : Int))

/-- Line 486: `diff_rate = (float) diff_data / (float) baseline`. -/
def diff_rate_of (baseline raw : Nat) : FVal :=
  if baseline = 0 then
    (if 0 < diff_data_of baseline raw then FVal.pinf
     else if diff_data_of baseline raw < 0 then FVal.ninf
     else FVal.nan)
  else FVal.num ((diff_data_of baseline raw : ℚ) / (baseline : ℚ))

/-- Function `callback_exec` (lines 400-406). -/
def callback_exec (tp_dev : tp_dev_t) (cb_type : tp_cb_type_t) : List Effect :=
  match tp_dev.cb_group cb_type with
  | some cb_info => [Effect.callback cb_type cb_info]
  | none => []

/-- Function `tp_custom_reset_cb_tmrs` (lines 438-456). -/
def tp_custom_reset_cb_tmrs (tp_dev : tp_dev_t) : List Effect :=
  (tp_dev.custom_cbs.filterMap (fun c => c.tmr)).map Effect.tmr_reset

/-- Function `tp_custom_stop_cb_tmrs` (lines 459-468). -/
def tp_custom_stop_cb_tmrs (tp_dev : tp_dev_t) : List Effect :=
  (tp_dev.custom_cbs.filterMap (fun c => c.tmr)).map Effect.tmr_stop

/-- Function `tp_custom_timer_cb` (lines 425-435), run by the timer service: the channel is
forced to `Press`, then the handler runs. -/
def tp_custom_timer_cb (tp_dev : tp_dev_t) (custom_cb : tp_custom_cb_t) :
    tp_dev_t × List Effect :=
  ({ tp_dev with state := tp_status_t.TOUCHPAD_STATE_PRESS },
   [Effect.custom_callback ⟨custom_cb.cb, custom_cb.arg⟩])

/-- The body of the main loop of `touch_pad_read_cb` for one registered channel
(lines 483-581): the new channel record, the calls made, and whether the channel
was taken as `slide_trigger_dev` (lines 579-581). -/
def touch_pad_read_cb_chan (tp_dev : tp_dev_t) (raw filtered : Nat) :
    tp_dev_t × List Effect × Bool :=
  -- lines 485-486
  let d0 : tp_dev_t := { tp_dev with diff_rate := diff_rate_of tp_dev.baseline raw }
  let slide (d : tp_dev_t) : Bool :=
    CONFIG_TOUCH_PAD_USE_SLIDER && d.diff_rate.gtQ d.slide_trigger_thr
      && decide (tp_type_t.TOUCHPAD_LINEAR_SLIDER.toNat ≤ d.button_type.toNat)
  if d0.state = tp_status_t.TOUCHPAD_STATE_IDLE
      ∨ d0.state = tp_status_t.TOUCHPAD_STATE_RELEASE then
    -- line 489
    let d1 : tp_dev_t := { d0 with state := tp_status_t.TOUCHPAD_STATE_IDLE }
    if d1.diff_rate.absLeQ d1.noise_thr then
      -- lines 492-495
      let d2 : tp_dev_t :=
        { d1 with bl_reset_count := 0, debounce_count := 0,
                  bl_update_count := (d1.bl_update_count + 1) % 65536 }
      if d2.bl_update_count > d2.bl_update_count_th then
        let d3 : tp_dev_t := { d2 with bl_update_count := 0, baseline := filtered }
        (d3, [], slide d3)
      else (d2, [], slide d2)
    else
      -- line 501
      let d2 : tp_dev_t := { d1 with bl_update_count := 0 }
      if d2.diff_rate.geQ (d2.touch_thr + d2.hysteresis_thr) then
        -- lines 504-506
        let d3 : tp_dev_t :=
          { d2 with bl_reset_count := 0, debounce_count := (d2.debounce_count + 1) % 65536 }
        if d3.debounce_count ≥ d3.debounce_th
            ∨ d3.touchChange < TOUCHPAD_TOUCH_LOW_SENSE_THRESHOLD then
          let d4 : tp_dev_t :=
            { d3 with debounce_count := 0, state := tp_status_t.TOUCHPAD_STATE_PUSH }
          (d4, callback_exec d4 tp_cb_type_t.TOUCHPAD_CB_PUSH
                ++ (if CONFIG_TOUCH_PAD_USE_CB_CUSTOM then tp_custom_reset_cb_tmrs d4 else []),
           slide d4)
        else (d3, [], slide d3)
      else if d2.diff_rate.leQ (0 - d2.baseline_reset_thr) then
        -- lines 518-520
        let d3 : tp_dev_t :=
          { d2 with debounce_count := 0, bl_reset_count := (d2.bl_reset_count + 1) % 65536 }
        if d3.bl_reset_count > d3.bl_reset_count_th then
          let d4 : tp_dev_t := { d3 with bl_reset_count := 0, baseline := raw }
          (d4, [], slide d4)
        else (d3, [], slide d3)
      else
        -- lines 525-526
        let d3 : tp_dev_t := { d2 with debounce_count := 0, bl_reset_count := 0 }
        (d3, [], slide d3)
  else
    if d0.diff_rate.gtQ (d0.touch_thr - d0.hysteresis_thr) then
      -- line 533
      let d1 : tp_dev_t := { d0 with debounce_count := 0 }
      if CONFIG_TOUCH_PAD_USE_CB_SERIAL then
        -- line 536
        let d2 : tp_dev_t :=
          { d1 with sum_ms := (d1.sum_ms + TOUCHPAD_MEAS_PERIOD_MS) % 2 ^ 32 }
        if d2.serial_thres_sec > 0
            ∧ (d2.sum_ms + 2 ^ 32 - TOUCHPAD_MEAS_PERIOD_MS) % 2 ^ 32
                < (d2.serial_thres_sec * 1000) % 2 ^ 32
            ∧ d2.sum_ms ≥ (d2.serial_thres_sec * 1000) % 2 ^ 32 then
          let d3 : tp_dev_t := { d2 with state := tp_status_t.TOUCHPAD_STATE_PRESS }
          (d3, [Effect.serial_callback d3.serial_cb, Effect.tmr_start d3.serial_tmr], slide d3)
        else (d2, [], slide d2)
      else (d1, [], slide d1)
    else
      -- line 554
      let d1 : tp_dev_t := { d0 with debounce_count := (d0.debounce_count + 1) % 65536 }
      if d1.debounce_count ≥ d1.debounce_th
          ∨ d1.diff_rate.absLtQ d1.noise_thr
          ∨ d1.touchChange < TOUCHPAD_TOUCH_LOW_SENSE_THRESHOLD then
        -- lines 557-572
        let d2 : tp_dev_t := { d1 with debounce_count := 0 }
        let tap : List Effect :=
          if CONFIG_TOUCH_PAD_USE_CB_TAP_EVENT
              ∧ d2.state = tp_status_t.TOUCHPAD_STATE_PUSH then
            callback_exec d2 tp_cb_type_t.TOUCHPAD_CB_TAP
          else []
        let d3 : tp_dev_t :=
          if CONFIG_TOUCH_PAD_USE_CB_SERIAL then { d2 with sum_ms := 0 } else d2
        let d4 : tp_dev_t := { d3 with state := tp_status_t.TOUCHPAD_STATE_RELEASE }
        (d4,
         tap ++ callback_exec d4 tp_cb_type_t.TOUCHPAD_CB_RELEASE
           ++ (if CONFIG_TOUCH_PAD_USE_CB_CUSTOM then tp_custom_stop_cb_tmrs d4 else [])
           ++ (match d4.serial_tmr with
               | some tmr => [Effect.tmr_stop tmr]
               | none => []),
         slide d4)
      else (d1, [], slide d1)

/-- Function `touch_pad_read_cb` (lines 472-604) over the channel table `tp_group`: every
registered channel is run through the loop body in index order, the last channel
marked becomes `slide_trigger_dev`, and its Slide handler is run after the loop.
Returns the table after the pass and the calls made. -/
def touch_pad_read_cb (tp_group : List (Option tp_dev_t)) (raw_data filtered_data : List Nat) :
    List (Option tp_dev_t) × List Effect :=
  let step (acc : List (Option tp_dev_t) × List Effect × Option tp_dev_t)
      (x : Option tp_dev_t × Nat × Nat) : List (Option tp_dev_t) × List Effect × Option tp_dev_t :=
    match x.1 with
    | none => (acc.1 ++ [none], acc.2.1, acc.2.2)
    | some tp_dev =>
      let r := touch_pad_read_cb_chan tp_dev x.2.1 x.2.2
      (acc.1 ++ [some r.1], acc.2.1 ++ r.2.1, if r.2.2 then some r.1 else acc.2.2)
  let res := (tp_group.zip (raw_data.zip filtered_data)).foldl step ([], [], none)
  (res.1,
   res.2.1 ++ (match res.2.2 with
     | some slide_trigger_dev => callback_exec slide_trigger_dev tp_cb_type_t.TOUCHPAD_CB_SLIDE
     | none => []))

/-- A run of consecutive sampling cycles on one channel: the samples are pairs
`(raw, filtered)`; returns the final record and all calls made, in order. -/
def chan_run (tp_dev : tp_dev_t) : List (Nat × Nat) → tp_dev_t × List Effect
  | [] => (tp_dev, [])
  | s :: rest =>
    let r := touch_pad_read_cb_chan tp_dev s.1 s.2
    let r2 := chan_run r.1 rest
    (r2.1, r.2.1 ++ r2.2)

/-- The `diff_rate` values that a run of consecutive cycles computes, one per cycle. -/
def chan_run_rates (tp_dev : tp_dev_t) : List (Nat × Nat) → List FVal
  | [] => []
  | s :: rest =>
    let r := touch_pad_read_cb_chan tp_dev s.1 s.2
    r.1.diff_rate :: chan_run_rates r.1 rest

/-- The handler calls (`callback_exec`) among a list of effects, as the event
kinds in the order fired. -/
def fired (es : List Effect) : List tp_cb_type_t :=
  es.filterMap (fun e => match e with
    | Effect.callback t _ => some t
    | _ => none)

/-- The record that `calloc(1, sizeof(tp_dev_t))` returns (line 719): every field zero. -/
def tp_dev_calloc : tp_dev_t :=
  { touch_pad_num := 0, state := tp_status_t.TOUCHPAD_STATE_IDLE,
    button_type := tp_type_t.TOUCHPAD_SINGLE_BUTTON, touchChange := 0,
    diff_rate := FVal.num 0, touch_thr := 0, noise_thr := 0, hysteresis_thr := 0,
    baseline_reset_thr := 0, slide_trigger_thr := 0, baseline := 0, debounce_count := 0,
    debounce_th := 0, bl_reset_count := 0, bl_reset_count_th := 0, bl_update_count := 0,
    bl_update_count_th := 0, serial_tmr := none, cb_group := fun _ => none,
    serial_cb := ⟨0, 0⟩, serial_thres_sec := 0, serial_interval_ms := 0, sum_ms := 0,
    custom_cbs := [] }

/-- The channel record that `iot_tp_create` builds (lines 719-735) for channel
`touch_pad_num`, the given `sensitivity` and the averaged initial reading `tp_val`. -/
def iot_tp_create_dev (touch_pad_num : Nat) (sensitivity : ℚ) (tp_val : Nat) : tp_dev_t :=
  let touch_thr := sensitivity * TOUCHPAD_TOUCH_THRESHOLD_PERCENT
  { tp_dev_calloc with
    touch_pad_num := touch_pad_num
    sum_ms := 0
    serial_thres_sec := 0
    serial_interval_ms := 0
    state := tp_status_t.TOUCHPAD_STATE_IDLE
    baseline := tp_val
    touchChange := sensitivity
    touch_thr := touch_thr
    noise_thr := touch_thr * TOUCHPAD_NOISE_THRESHOLD_PERCENT
    hysteresis_thr := touch_thr * TOUCHPAD_HYSTERESIS_THRESHOLD_PERCENT
    baseline_reset_thr := touch_thr * TOUCHPAD_BASELINE_RESET_THRESHOLD_PERCENT
    debounce_th := TOUCHPAD_STATE_SWITCH_DEBOUNCE / TOUCHPAD_MEAS_PERIOD_MS
    bl_reset_count_th := TOUCHPAD_BASELINE_RESET_COUNT_THRESHOLD
    bl_update_count_th := TOUCHPAD_BASELINE_UPDATE_COUNT_THRESHOLD / TOUCHPAD_MEAS_PERIOD_MS }

/-- The channel `d` carries the detection parameters of `e`: the sensitivity, the
four thresholds derived from it and the three counter thresholds. -/
def SameSetup (d e : tp_dev_t) : Prop :=
  d.touchChange = e.touchChange ∧ d.touch_thr = e.touch_thr ∧ d.noise_thr = e.noise_thr
    ∧ d.hysteresis_thr = e.hysteresis_thr ∧ d.baseline_reset_thr = e.baseline_reset_thr
    ∧ d.debounce_th = e.debounce_th ∧ d.bl_reset_count_th = e.bl_reset_count_th
    ∧ d.bl_update_count_th = e.bl_update_count_th

/-- The channel is in an untouched state (`Idle` or `Release`). -/
def untouched (d : tp_dev_t) : Prop :=
  d.state = tp_status_t.TOUCHPAD_STATE_IDLE ∨ d.state = tp_status_t.TOUCHPAD_STATE_RELEASE

/-- The channel is in a touched state (`Push` or `Press`). -/
def touched (d : tp_dev_t) : Prop :=
  d.state = tp_status_t.TOUCHPAD_STATE_PUSH ∨ d.state = tp_status_t.TOUCHPAD_STATE_PRESS

instance instDecidableUntouched (d : tp_dev_t) : Decidable (untouched d) :=
  inferInstanceAs (Decidable (_ ∨ _))

instance instDecidableTouched (d : tp_dev_t) : Decidable (touched d) :=
  inferInstanceAs (Decidable (_ ∨ _))

/-- Whether an effect is a call into user code (a handler of any kind). -/
def Effect.isUserCall : Effect → Bool
  | Effect.callback _ _ => true
  | Effect.serial_callback _ => true
  | Effect.custom_callback _ => true
  | Effect.tmr_reset _ => false
  | Effect.tmr_stop _ => false
  | Effect.tmr_start _ => false

/-- The calls into user code among a list of effects, in order. -/
def user_calls (es : List Effect) : List Effect :=
  es.filter Effect.isUserCall

/-- The fields of a channel that no sampling cycle writes: `e` has those of `d`. -/
def Static (d e : tp_dev_t) : Prop :=
  e.touch_pad_num = d.touch_pad_num ∧ e.button_type = d.button_type
    ∧ e.touchChange = d.touchChange ∧ e.touch_thr = d.touch_thr ∧ e.noise_thr = d.noise_thr
    ∧ e.hysteresis_thr = d.hysteresis_thr ∧ e.baseline_reset_thr = d.baseline_reset_thr
    ∧ e.slide_trigger_thr = d.slide_trigger_thr ∧ e.debounce_th = d.debounce_th
    ∧ e.bl_reset_count_th = d.bl_reset_count_th ∧ e.bl_update_count_th = d.bl_update_count_th
    ∧ e.serial_tmr = d.serial_tmr ∧ e.cb_group = d.cb_group ∧ e.serial_cb = d.serial_cb
    ∧ e.serial_thres_sec = d.serial_thres_sec ∧ e.serial_interval_ms = d.serial_interval_ms
    ∧ e.custom_cbs = d.custom_cbs

/-- The channel has the detection parameters that `iot_tp_create` derives from the
channel's own sensitivity (lines 728-735). -/
def Created (d : tp_dev_t) : Prop :=
  SameSetup d (iot_tp_create_dev d.touch_pad_num d.touchChange d.baseline)

/-! ## The matrix resolver (lines 163-221, 1016-1206) -/

/-- Enumeration `tp_matrix_type_t`. -/
inductive tp_matrix_type_t
  | TOUCHPAD_MATRIX_ROW
  | TOUCHPAD_MATRIX_COLUMN
  | TOUCHPAD_MATRIX_TYPE_MAX
  deriving DecidableEq, Repr

/-- Record `tp_matrix_cb_t`: a matrix handler and its user argument. -/
structure tp_matrix_cb_t where
  cb : Nat
  arg : Nat
  deriving DecidableEq, Repr

/-- Record `tp_matrix_cus_cb_t` (one node of the matrix `custom_cbs` list). -/
structure tp_matrix_cus_cb_t where
  cb : Nat
  arg : Nat
  interval_ms : Nat
  tmr : Option Nat
  deriving DecidableEq, Repr

/-- Record `tp_matrix_t`.  The handle arrays `x_tps` / `y_tps` are embedded as the
channel records they point to at the time of the call (a handle is a pointer to
the channel record that `touch_pad_read_cb` updates); `matrix_args` is
represented by the `tp_matrix_arg_t` passed to each handler. -/
structure tp_matrix_t where
  x_tps : List tp_dev_t
  y_tps : List tp_dev_t
  cb_group : tp_cb_type_t → Option tp_matrix_cb_t
  custom_cbs : List tp_matrix_cus_cb_t
  serial_cb : tp_matrix_cb_t
  serial_thres_sec : Nat
  serial_interval_ms : Nat
  serial_tmr : Option Nat
  active_state : tp_status_t
  active_idx : Nat
  x_num : Nat
  y_num : Nat

/-- Record `tp_matrix_arg_t` (the `tp_matrix` back pointer is the matrix record
passed along with it). -/
structure tp_matrix_arg_t where
  tp_idx : Nat
  type : tp_matrix_type_t
  deriving DecidableEq, Repr

/-- Modelled from the spec: the handler type `tp_matrix_cb` is declared in the absent
`iot_touchpad.h`; by the spec (§6) a matrix handler receives its user context and
a resolved `(row, column)` pair.  The constructors are what a matrix function does
to the outside world, in program order. -/
inductive MatrixEffect
  /-- the handler in slot `t` of the group is run with `(x, y)` -/
  | callback (t : tp_cb_type_t) (c : tp_matrix_cb_t) (x y : Nat)
  /-- the repeat handler of the group is run with `(x, y)` -/
  | serial_callback (c : tp_matrix_cb_t) (x y : Nat)
  /-- a custom-duration handler of the group is run with `(x, y)` -/
  | custom_callback (c : tp_matrix_cb_t) (x y : Nat)
  /-- a custom-duration timer is stopped and re-armed -/
  | tmr_reset (tmr : Nat)
  /-- a timer is stopped -/
  | tmr_stop (tmr : Nat)
  /-- the repeat timer is given a new period in milliseconds, which starts it -/
  | tmr_change_period (tmr : Nat) (ms : Nat)
  deriving DecidableEq

/-- Modelled from the spec: `CONFIG_TOUCH_PAD_USE_ESP_TIMER` comes from the absent
`sdkconfig.h`; the spec (§4.4) has the repeat timer armed when a cell becomes
active, which is the build on FreeRTOS timers (`USE_ESP_TIMER` off). -/
def USE_ESP_TIMER : Bool := false

/-- Modelled from the spec: `CONFIG_TOUCH_PAD_USE_CB_TAP` (from the absent
`sdkconfig.h`); the spec (§4.4) has the matrix tap handler compiled in. -/
def CONFIG_TOUCH_PAD_USE_CB_TAP : Bool := true

/-- Function `matrix_reset_cb_tmrs` (lines 1018-1036). -/
def matrix_reset_cb_tmrs (tp_matrix : tp_matrix_t) : List MatrixEffect :=
  (tp_matrix.custom_cbs.filterMap (fun c => c.tmr)).map MatrixEffect.tmr_reset

/-- Function `matrix_stop_cb_tmrs` (lines 1039-1048). -/
def matrix_stop_cb_tmrs (tp_matrix : tp_matrix_t) : List MatrixEffect :=
  (tp_matrix.custom_cbs.filterMap (fun c => c.tmr)).map MatrixEffect.tmr_stop

/-- The scanning loops of `tp_matrix_push_cb` (lines 1063-1077 and 1080-1094) over the
indices `js` still to visit: `tps` is the scanned axis, `mk j` the cell index that
a pushed channel `j` stands for, `idx` the loop variable of the same name.
`none` is the `return` taken at the second pushed channel. -/
def matrix_scan (tps : List tp_dev_t) (mk : Nat → Int) : List Nat → Int → Option Int
  | [], idx => some idx
  | j :: js, idx =>
    if (tps.get? j).map (fun tp_dev => tp_dev.state)
        = some tp_status_t.TOUCHPAD_STATE_PUSH then
      if idx < 0 then matrix_scan tps mk js (mk j) else none
    else matrix_scan tps mk js idx

/-- Function `tp_matrix_push_cb` (lines 1051-1119).  The divisions of line 1105 are by
`y_num`, which `iot_tp_matrix_create` makes nonzero (line 1212). -/
def tp_matrix_push_cb (tp_matrix : tp_matrix_t) (matrix_arg : tp_matrix_arg_t) :
    tp_matrix_t × List MatrixEffect :=
  if tp_matrix.active_state ≠ tp_status_t.TOUCHPAD_STATE_IDLE then (tp_matrix, [])
  else
    let scan : Option Int :=
      match matrix_arg.type with
      | tp_matrix_type_t.TOUCHPAD_MATRIX_ROW =>
        matrix_scan tp_matrix.y_tps
          (fun j => (matrix_arg.tp_idx : Int) * (tp_matrix.y_num : Int) + (j : Int))
          (List.range tp_matrix.y_num) (-1)
      | tp_matrix_type_t.TOUCHPAD_MATRIX_COLUMN =>
        matrix_scan tp_matrix.x_tps
          (fun j => (j : Int) * (tp_matrix.y_num : Int) + (matrix_arg.tp_idx : Int))
          (List.range tp_matrix.x_num) (-1)
      | tp_matrix_type_t.TOUCHPAD_MATRIX_TYPE_MAX => some (-1)
    match scan with
    | none => (tp_matrix, [])
    | some idx =>
      if 0 ≤ idx then
        let m : tp_matrix_t :=
          { tp_matrix with active_state := tp_status_t.TOUCHPAD_STATE_PUSH
                           active_idx := (idx % 256).toNat }
        (m,
         (match m.cb_group tp_cb_type_t.TOUCHPAD_CB_PUSH with
          | some cb_info =>
            [MatrixEffect.callback tp_cb_type_t.TOUCHPAD_CB_PUSH cb_info
              (idx / (m.y_num : Int)).toNat (idx % (m.y_num : Int)).toNat]
          | none => [])
         ++ (if CONFIG_TOUCH_PAD_USE_CB_CUSTOM then matrix_reset_cb_tmrs m else [])
         ++ (if CONFIG_TOUCH_PAD_USE_CB_SERIAL then
               (match m.serial_tmr with
                | some tmr =>
                  if USE_ESP_TIMER then []
                  else [MatrixEffect.tmr_change_period tmr (m.serial_thres_sec * 1000 % 2 ^ 32)]
                | none => [])
             else []))
      else (tp_matrix, [])

/-- Function `tp_matrix_release_cb` (lines 1121-1148). -/
def tp_matrix_release_cb (tp_matrix : tp_matrix_t) (matrix_arg : tp_matrix_arg_t) :
    tp_matrix_t × List MatrixEffect :=
  if matrix_arg.type ≠ tp_matrix_type_t.TOUCHPAD_MATRIX_ROW
      ∧ matrix_arg.tp_idx ≠ tp_matrix.active_idx / tp_matrix.y_num then (tp_matrix, [])
  else if tp_matrix.active_state ≠ tp_status_t.TOUCHPAD_STATE_IDLE then
    let m : tp_matrix_t := { tp_matrix with active_state := tp_status_t.TOUCHPAD_STATE_IDLE }
    let idx := m.active_idx
    (m,
     (match m.cb_group tp_cb_type_t.TOUCHPAD_CB_RELEASE with
      | some cb_info =>
        [MatrixEffect.callback tp_cb_type_t.TOUCHPAD_CB_RELEASE cb_info
          (idx / m.y_num) (idx % m.y_num)]
      | none => [])
     ++ (if CONFIG_TOUCH_PAD_USE_CB_CUSTOM then matrix_stop_cb_tmrs m else [])
     ++ (if CONFIG_TOUCH_PAD_USE_CB_SERIAL then
           (match m.serial_tmr with
            | some tmr => [MatrixEffect.tmr_stop tmr]
            | none => [])
         else []))
  else (tp_matrix, [])

/-- Function `tp_matrix_tap_cb` (lines 1151-1167). -/
def tp_matrix_tap_cb (tp_matrix : tp_matrix_t) (matrix_arg : tp_matrix_arg_t) :
    tp_matrix_t × List MatrixEffect :=
  if matrix_arg.type ≠ tp_matrix_type_t.TOUCHPAD_MATRIX_ROW
      ∧ matrix_arg.tp_idx ≠ tp_matrix.active_idx / tp_matrix.y_num then (tp_matrix, [])
  else if tp_matrix.active_state = tp_status_t.TOUCHPAD_STATE_PUSH then
    let idx := tp_matrix.active_idx
    (tp_matrix,
     match tp_matrix.cb_group tp_cb_type_t.TOUCHPAD_CB_TAP with
     | some cb_info =>
       [MatrixEffect.callback tp_cb_type_t.TOUCHPAD_CB_TAP cb_info
         (idx / tp_matrix.y_num) (idx % tp_matrix.y_num)]
     | none => [])
  else (tp_matrix, [])

/-- Function `tp_matrix_cus_tmr_cb` (lines 1170-1184), run by the timer service for
the custom-duration entry `tp_matrix_cb` of the group. -/
def tp_matrix_cus_tmr_cb (tp_matrix : tp_matrix_t) (tp_matrix_cb : tp_matrix_cus_cb_t) :
    tp_matrix_t × List MatrixEffect :=
  if tp_matrix.active_state ≠ tp_status_t.TOUCHPAD_STATE_IDLE then
    let m : tp_matrix_t := { tp_matrix with active_state := tp_status_t.TOUCHPAD_STATE_PRESS }
    let idx := m.active_idx
    (m, [MatrixEffect.custom_callback ⟨tp_matrix_cb.cb, tp_matrix_cb.arg⟩
          (idx / m.y_num) (idx % m.y_num)])
  else (tp_matrix, [])

/-- Function `tp_matrix_serial_trigger_cb` (lines 1187-1205), run by the timer service. -/
def tp_matrix_serial_trigger_cb (tp_matrix : tp_matrix_t) : tp_matrix_t × List MatrixEffect :=
  if tp_matrix.active_state ≠ tp_status_t.TOUCHPAD_STATE_IDLE then
    let m : tp_matrix_t := { tp_matrix with active_state := tp_status_t.TOUCHPAD_STATE_PRESS }
    let idx := m.active_idx
    (m,
     [MatrixEffect.serial_callback m.serial_cb (idx / m.y_num) (idx % m.y_num)]
     ++ (match m.serial_tmr with
         | some tmr =>
           if USE_ESP_TIMER then []
           else [MatrixEffect.tmr_change_period tmr m.serial_interval_ms]
         | none => []))
  else (tp_matrix, [])

/-- What `iot_tp_matrix_create` guarantees of the group it returns (lines 1211-1212,
1216, 1222, 1237-1238): both dimensions are nonzero and below `TOUCH_PAD_MAX`, and
the handle arrays have `x_num` and `y_num` entries.  `TOUCH_PAD_MAX` is declared in
a header that is not among the sources, so it is the parameter `max`. -/
def MatrixWF (max : Nat) (m : tp_matrix_t) : Prop :=
  m.x_num ≠ 0 ∧ m.x_num < max ∧ m.y_num ≠ 0 ∧ m.y_num < max
    ∧ m.x_tps.length = m.x_num ∧ m.y_tps.length = m.y_num

/-- The handler calls among the effects of a matrix function, in order. -/
def matrix_calls (es : List MatrixEffect) : List MatrixEffect :=
  es.filter (fun e => match e with
    | MatrixEffect.callback _ _ _ _ => true
    | MatrixEffect.serial_callback _ _ _ => true
    | MatrixEffect.custom_callback _ _ _ => true
    | MatrixEffect.tmr_reset _ => false
    | MatrixEffect.tmr_stop _ => false
    | MatrixEffect.tmr_change_period _ _ => false)

/-- Channel `j` of the axis `tps` is in state `Push`. -/
def pushed_at (tps : List tp_dev_t) (j : Nat) : Prop :=
  (tps.get? j).map (fun tp_dev => tp_dev.state) = some tp_status_t.TOUCHPAD_STATE_PUSH

instance instDecidablePushedAt (tps : List tp_dev_t) (j : Nat) : Decidable (pushed_at tps j) :=
  inferInstanceAs (Decidable (_ = _))

instance instDecidableMatrixWF (max : Nat) (m : tp_matrix_t) : Decidable (MatrixWF max m) :=
  inferInstanceAs (Decidable (_ ∧ _))

/-! ## The slider (lines 137-146, 279-397) -/

/-- Record `tp_slide_t`.  The handle array `tp_handles` is embedded as the channel
records it points to at the time of the call; it has `tp_num` entries (line 955). -/
structure tp_slide_t where
  pos_scale : ℚ
  pos_range : ℚ
  tp_num : Nat
  slide_pos : Nat
  calc_val : List ℚ
  tp_handles : List tp_dev_t

/-- Function `_slider_filter_iir` (lines 281-289), on `uint32_t`: the product and the
sum of line 286 each wrap at 32 bits. -/
def _slider_filter_iir (in_now out_last k : Nat) : Nat :=
  if k = 0 then in_now
  else ((in_now + ((k - 1) * out_last) % 2 ^ 32) % 2 ^ 32) / k

/-- Conversion of a `float` to `uint32_t`: truncation toward zero; C leaves it
undefined (`none`) when the truncated value is not representable. -/
def float_to_uint32 (q : ℚ) : Option Nat :=
  if -1 < q ∧ q < 2 ^ 32 then some (Int.toNat ⌊q⌋) else none

/-- Whether the slider arithmetic stays within exact rationals: every channel has a
finite `diff_rate` and a nonzero `slide_trigger_thr` (the divisor of line 314).
Otherwise IEEE infinities or NaN arise, which the embedding of the slider does
not represent. -/
def slide_modelled (tp_slide : tp_slide_t) : Bool :=
  tp_slide.tp_handles.all (fun tp_dev =>
    (match tp_dev.diff_rate with
     | FVal.num _ => true
     | _ => false) && decide (tp_dev.slide_trigger_thr ≠ 0))

/-- The rational value of a finite `float`. -/
def FVal.toQ : FVal → ℚ
  | FVal.num q => q
  | _ => 0

/-- The variable `weight_sum` after the loop of lines 304-311. -/
def slide_weight_sum (tp_handles : List tp_dev_t) : ℚ :=
  tp_handles.foldl (fun weight_sum tp_dev => weight_sum + tp_dev.slide_trigger_thr) 0

/-- The value of `calc_val[i]` after line 310 for a channel: its `diff_rate` less its
`slide_trigger_thr`, zero when that is negative. -/
def slide_excess (tp_dev : tp_dev_t) : ℚ :=
  if tp_dev.diff_rate.toQ - tp_dev.slide_trigger_thr < 0 then 0
  else tp_dev.diff_rate.toQ - tp_dev.slide_trigger_thr

/-- The buffer `calc_val` after the loops of lines 304-315. -/
def slide_calc_val (tp_handles : List tp_dev_t) : List ℚ :=
  tp_handles.map (fun tp_dev =>
    slide_excess tp_dev * slide_weight_sum tp_handles / tp_dev.slide_trigger_thr)

/-- The variables `val_sum`, `max_idx` and `non0_cnt` of `tp_slide_pos_cb`. -/
structure slide_scan_t where
  val_sum : ℚ
  max_idx : Nat
  non0_cnt : Nat
  deriving DecidableEq

/-- Line 320: `calc_val[i - 2] + calc_val[i - 1] + calc_val[i]`. -/
def neb_sum (calc_val : List ℚ) (i : Nat) : ℚ :=
  calc_val.getD (i - 2) 0 + calc_val.getD (i - 1) 0 + calc_val.getD i 0

/-- Lines 326-329: the number of strictly positive values among
`calc_val[i - 2 .. i]` (a `uint8_t`). -/
def window_non0 (calc_val : List ℚ) (i : Nat) : Nat :=
  ((if 0 < calc_val.getD (i - 2) 0 then 1 else 0)
    + (if 0 < calc_val.getD (i - 1) 0 then 1 else 0)
    + (if 0 < calc_val.getD i 0 then 1 else 0)) % 256

/-- One iteration of the loop of lines 317-333. -/
def slide_scan_step (calc_val : List ℚ) (st : slide_scan_t) (i : Nat) : slide_scan_t :=
  if 2 ≤ i then
    if neb_sum calc_val i > st.val_sum then
      { val_sum := neb_sum calc_val i, max_idx := i - 1, non0_cnt := window_non0 calc_val i }
    else st
  else st

/-- The loop of lines 317-333 over `i = 0 .. tp_num - 1`. -/
def slide_scan (calc_val : List ℚ) (tp_num : Nat) : slide_scan_t :=
  (List.range tp_num).foldl (slide_scan_step calc_val) ⟨0, 0, 0⟩

/-- Lines 334-378: the value of `slide_pos_temp` that the scan result leads to.
`max_idx - 1` is only evaluated when `non0_cnt > 0`, where `max_idx ≥ 1`. -/
def slide_resolve (tp_slide : tp_slide_t) (calc_val : List ℚ) (sc : slide_scan_t) :
    Option Nat :=
  let max_idx := sc.max_idx
  if sc.non0_cnt = 0 then some tp_slide.slide_pos
  else if sc.non0_cnt = 1 then
    let no_zero := ((calc_val.take tp_slide.tp_num).countP (fun v => 0 < v)) % 256
    if no_zero ≤ sc.non0_cnt then
      match [max_idx - 1, max_idx, max_idx + 1].find? (fun i => calc_val.getD i 0 ≠ 0) with
      | some i =>
        if (i : Int) = (tp_slide.tp_num : Int) - 1 then float_to_uint32 tp_slide.pos_range
        else float_to_uint32 ((i : ℚ) * tp_slide.pos_scale)
      | none => some tp_slide.slide_pos
    else some tp_slide.slide_pos
  else if sc.non0_cnt = 2 then
    if 0 = calc_val.getD (max_idx - 1) 0 then
      float_to_uint32
        ((((max_idx + 1 : Nat) : ℚ) * calc_val.getD (max_idx + 1) 0
            + (max_idx : ℚ) * calc_val.getD max_idx 0) * tp_slide.pos_scale / sc.val_sum)
    else if 0 = calc_val.getD (max_idx + 1) 0 then
      float_to_uint32
        ((((max_idx - 1 : Nat) : ℚ) * calc_val.getD (max_idx - 1) 0
            + (max_idx : ℚ) * calc_val.getD max_idx 0) * tp_slide.pos_scale / sc.val_sum)
    else some tp_slide.slide_pos
  else
    float_to_uint32
      ((((max_idx - 1 : Nat) : ℚ) * calc_val.getD (max_idx - 1) 0
          + (max_idx : ℚ) * calc_val.getD max_idx 0
          + ((max_idx + 1 : Nat) : ℚ) * calc_val.getD (max_idx + 1) 0)
        * tp_slide.pos_scale / sc.val_sum)

/-- The value of the local `slide_pos_temp` of `tp_slide_pos_cb` when line 379 is
reached (the resolved raw position, before smoothing); `none` outside the exact
rational model (`slide_modelled`) or where a conversion to `uint32_t` is undefined. -/
def slide_pos_temp (tp_slide : tp_slide_t) : Option Nat :=
  if slide_modelled tp_slide then
    slide_resolve tp_slide (slide_calc_val tp_slide.tp_handles)
      (slide_scan (slide_calc_val tp_slide.tp_handles) tp_slide.tp_num)
  else none

/-- Function `tp_slide_pos_cb` (lines 292-396): the slider after the call and the new
value of the function-static `slide_pos_last`. -/
def tp_slide_pos_cb (tp_slide : tp_slide_t) (slide_pos_last : Nat) :
    Option (tp_slide_t × Nat) :=
  match slide_pos_temp tp_slide with
  | none => none
  | some slide_pos_temp =>
    -- line 380
    let last1 := if slide_pos_last = 0 then (slide_pos_temp % 65536) * 16 else slide_pos_last
    -- line 381
    let last2 := _slider_filter_iir ((slide_pos_temp * 16) % 2 ^ 32) last1
      SLDER_POS_FILTER_FACTOR_DEFAULT
    -- line 382
    some ({ tp_slide with slide_pos := ((last2 + 8) % 2 ^ 32) / 16
                          calc_val := slide_calc_val tp_slide.tp_handles }, last2)

/-- What holds of the scan variables after the iterations `i < k` of the loop of
lines 317-333: `val_sum` bounds every window sum seen so far, and either no window
was selected yet, or the selected one is the lowest-indexed window of maximal sum,
with its sum and its number of positive values recorded. -/
def ScanInv (calc_val : List ℚ) (k : Nat) (st : slide_scan_t) : Prop :=
  (∀ i, 2 ≤ i → i < k → neb_sum calc_val i ≤ st.val_sum)
    ∧ ((st.val_sum = 0 ∧ st.max_idx = 0 ∧ st.non0_cnt = 0)
      ∨ (0 < st.val_sum ∧ 1 ≤ st.max_idx ∧ st.max_idx + 1 < k
          ∧ st.val_sum = neb_sum calc_val (st.max_idx + 1)
          ∧ st.non0_cnt = window_non0 calc_val (st.max_idx + 1)
          ∧ ∀ i, 2 ≤ i → i < st.max_idx + 1 → neb_sum calc_val i < st.val_sum))

/-- A channel as `iot_tp_create` makes it for pad 3 with sensitivity 0.10 and an
initial reading of 1000, with a Push, a Release and a Tap handler registered. -/
def example_dev : tp_dev_t :=
  { iot_tp_create_dev 3 (1 / 10) 1000 with
    cb_group := fun t => match t with
      | tp_cb_type_t.TOUCHPAD_CB_PUSH => some ⟨1, 0⟩
      | tp_cb_type_t.TOUCHPAD_CB_RELEASE => some ⟨2, 0⟩
      | tp_cb_type_t.TOUCHPAD_CB_TAP => some ⟨3, 0⟩
      | tp_cb_type_t.TOUCHPAD_CB_SLIDE => none }

/-- The channel `example_dev` while pushed. -/
def example_dev_pushed : tp_dev_t :=
  { example_dev with state := tp_status_t.TOUCHPAD_STATE_PUSH }

/-- A 2 x 2 matrix group whose row 1 and column 1 channels are pushed, no cell
active yet, with a Push, a Release and a Tap handler registered. -/
def example_matrix : tp_matrix_t :=
  { x_tps := [example_dev, example_dev_pushed]
    y_tps := [example_dev, example_dev_pushed]
    cb_group := fun t => match t with
      | tp_cb_type_t.TOUCHPAD_CB_PUSH => some ⟨11, 7⟩
      | tp_cb_type_t.TOUCHPAD_CB_RELEASE => some ⟨12, 7⟩
      | tp_cb_type_t.TOUCHPAD_CB_TAP => some ⟨13, 7⟩
      | tp_cb_type_t.TOUCHPAD_CB_SLIDE => none
    custom_cbs := []
    serial_cb := ⟨0, 0⟩
    serial_thres_sec := 0
    serial_interval_ms := 0
    serial_tmr := none
    active_state := tp_status_t.TOUCHPAD_STATE_IDLE
    active_idx := 0
    x_num := 2
    y_num := 2 }

/-- The group `example_matrix` with both column channels pushed. -/
def example_matrix_multi : tp_matrix_t :=
  { example_matrix with y_tps := [example_dev_pushed, example_dev_pushed] }

/-- The group `example_matrix` after cell (1, 1) became active. -/
def example_matrix_active : tp_matrix_t :=
  { example_matrix with active_state := tp_status_t.TOUCHPAD_STATE_PUSH, active_idx := 3 }

/-- A slider channel: `example_dev` with the slide trigger threshold that
`iot_tp_slide_create` derives (0.5 · 0.075) and the given `diff_rate`. -/
def example_slide_dev (q : ℚ) : tp_dev_t :=
  { example_dev with
    diff_rate := FVal.num q
    slide_trigger_thr := 3 / 80
    button_type := tp_type_t.TOUCHPAD_LINEAR_SLIDER }

/-- The same slider with the middle and the last channel touched: the normalised
excess values are `[0, 0.06, 0.04]`. -/
def example_slide_two : tp_slide_t :=
  { pos_scale := 10, pos_range := 20, tp_num := 3, slide_pos := 255, calc_val := [0, 0, 0]
    tp_handles :=
      [example_slide_dev 0, example_slide_dev (23 / 400), example_slide_dev (61 / 1200)] }

/-! ## The sample filter (lines 72-74, 606-646) -/

/-- Constant `TOUCHPAD_FILTER_FACTOR_DEFAULT` -/
def TOUCHPAD_FILTER_FACTOR_DEFAULT : Nat := 4

/-- Constant `TOUCHPAD_SHIFT_DEFAULT` -/
def TOUCHPAD_SHIFT_DEFAULT : Nat := 4

/-- Constant `TOUCHPAD_SHIFT_ROUND_DEFAULT` -/
def TOUCHPAD_SHIFT_ROUND_DEFAULT : Nat := 8

/-- Function `touch_filter_iir` (lines 606-614), on `uint32_t`: the product and the sum
of line 611 each wrap at 32 bits. -/
def touch_filter_iir (in_now out_last k : Nat) : Nat :=
  if k = 0 then in_now
  else ((in_now + ((k - 1) * out_last) % 2 ^ 32) % 2 ^ 32) / k

/-- The filter step of `Thread` for one registered channel (lines 636-639): from the
raw sample and the channel's entry of the static `filtered_temp`, the new entry of
`filtered_temp` and the value stored in the `uint16_t` buffer `filtered`. -/
def Thread_filter_chan (raw filtered_temp : Nat) : Nat × Nat :=
  -- line 636
  let ft1 := if filtered_temp = 0 then (raw * 2 ^ TOUCHPAD_SHIFT_DEFAULT) % 2 ^ 32
             else filtered_temp
  -- lines 637-638
  let ft2 := touch_filter_iir ((raw * 2 ^ TOUCHPAD_SHIFT_DEFAULT) % 2 ^ 32) ft1
    TOUCHPAD_FILTER_FACTOR_DEFAULT
  -- line 639
  (ft2, (((ft2 + TOUCHPAD_SHIFT_ROUND_DEFAULT) % 2 ^ 32) / 2 ^ TOUCHPAD_SHIFT_DEFAULT) % 65536)

/-- The entry of `filtered_temp` after `n` cycles of `Thread` with the constant raw
sample `x`, starting from `f`. -/
def Thread_filter_run (x : Nat) (n f : Nat) : Nat :=
  Nat.iterate (fun g => (Thread_filter_chan x g).1) n f

open tp_status_t tp_cb_type_t

open tp_status_t tp_cb_type_t

/-- The edges of the channel state machine that a sampling cycle can take: from
`Idle` or `Release` to `Idle` or `Push`; from `Push` to `Push`, `Press` or
`Release`; from `Press` to `Press` or `Release`. -/
def cycle_edge : tp_status_t → tp_status_t → Bool
  | TOUCHPAD_STATE_IDLE, TOUCHPAD_STATE_IDLE => true
  | TOUCHPAD_STATE_IDLE, TOUCHPAD_STATE_PUSH => true
  | TOUCHPAD_STATE_RELEASE, TOUCHPAD_STATE_IDLE => true
  | TOUCHPAD_STATE_RELEASE, TOUCHPAD_STATE_PUSH => true
  | TOUCHPAD_STATE_PUSH, TOUCHPAD_STATE_PUSH => true
  | TOUCHPAD_STATE_PUSH, TOUCHPAD_STATE_PRESS => true
  | TOUCHPAD_STATE_PUSH, TOUCHPAD_STATE_RELEASE => true
  | TOUCHPAD_STATE_PRESS, TOUCHPAD_STATE_PRESS => true
  | TOUCHPAD_STATE_PRESS, TOUCHPAD_STATE_RELEASE => true
  | _, _ => false

open tp_status_t tp_cb_type_t

/-! ## Registration and removal (lines 225-229, 649-823, 1208-1365) -/

/-- The two values of `esp_err_t` that the driver returns. -/
inductive esp_err_t
  | ESP_OK
  | ESP_FAIL
  deriving DecidableEq, Repr

/-- Function `iot_tp_add_cb` (lines 807-823).  The handle is given as the channel
record it points to (`none` is `NULL`), and the result carries the record after
the call.  Every enumerator of `tp_cb_type_t` is below `TOUCHPAD_CB_MAX`, so the
check of line 811 passes; `calloc_ok` says whether the `calloc` of line 817
returns memory. -/
def iot_tp_add_cb (tp_handle : Option tp_dev_t) (cb_type : tp_cb_type_t) (cb arg : Nat)
    (calloc_ok : Bool) : esp_err_t × Option tp_dev_t :=
  match tp_handle with
  | none => (esp_err_t.ESP_FAIL, none)
  | some tp_dev =>
    if cb = 0 then (esp_err_t.ESP_FAIL, some tp_dev)
    else
      match tp_dev.cb_group cb_type with
      | some _ => (esp_err_t.ESP_FAIL, some tp_dev)
      | none =>
        if calloc_ok then
          (esp_err_t.ESP_OK,
           some { tp_dev with
             cb_group := fun t => if t = cb_type then some ⟨cb, arg⟩ else tp_dev.cb_group t })
        else (esp_err_t.ESP_FAIL, some tp_dev)

/-- The file-scope state of the driver that registration reads and writes:
`g_init_flag` (line 225) and the channel table `tp_group` (line 226), one slot per
pad number. -/
structure tp_driver_t where
  g_init_flag : Bool
  tp_group : List (Option tp_dev_t)

/-- What the platform answers during a call of `iot_tp_create`: whether the task
creation of lines 658-666 and the mutex creation of lines 669-670 succeed, and
the value that the `k`-th `touch_pad_read` of lines 711-715 stores for a pad. -/
structure tp_platform_t where
  task_ok : Bool
  mux_ok : Bool
  touch_pad_read : Nat → Nat → Nat

/-- Lines 711-716: the average of the three initial readings (`avg` is a
`uint32_t`, `tp_val` a `uint16_t`). -/
def initial_value (env : tp_platform_t) (touch_pad_num : Nat) : Nat :=
  let avg := ((env.touch_pad_read touch_pad_num 0) % 65536
    + (env.touch_pad_read touch_pad_num 1) % 65536
    + (env.touch_pad_read touch_pad_num 2) % 65536) % 2 ^ 32
  (avg / 3) % 65536

/-- Function `iot_tp_create` (lines 649-768) for a table of `max = TOUCH_PAD_MAX`
slots: the handle returned, as the record it points to (`none` is `NULL`), and
the driver state after the call.  The configuration of the hardware (lines
672-687, 702-710) is not represented. -/
def iot_tp_create (max : Nat) (env : tp_platform_t) (st : tp_driver_t)
    (touch_pad_num : Nat) (sensitivity : ℚ) : Option tp_dev_t × tp_driver_t :=
  -- lines 654-670
  if st.g_init_flag = false ∧ env.task_ok = false then (none, st)
  else if st.g_init_flag = false ∧ env.mux_ok = false then (none, st)
  else
    let st1 : tp_driver_t := { st with g_init_flag := true }
    -- lines 689-690
    if ¬ touch_pad_num < max then (none, st1)
    else if ¬ sensitivity > 0 then (none, st1)
    else
      -- lines 696-700
      match st1.tp_group.getD touch_pad_num none with
      | some _ => (none, st1)
      | none =>
        -- lines 711-746
        let tp_dev := iot_tp_create_dev touch_pad_num sensitivity (initial_value env touch_pad_num)
        (some tp_dev, { st1 with tp_group := st1.tp_group.set touch_pad_num (some tp_dev) })

/-- What `iot_tp_delete` gives back to the platform, in program order. -/
inductive Freed
  /-- the entry of `cb_group` for an event kind is freed (line 778) -/
  | free_cb (t : tp_cb_type_t) (c : tp_cb_t)
  /-- the function `delete_timer` is called on a timer handle -/
  | delete_timer (tmr : Option Nat)
  /-- a node of the list `custom_cbs` is freed (line 788) -/
  | free_custom_cb (c : tp_custom_cb_t)
  /-- the channel record is freed (line 801) -/
  | free_dev (touch_pad_num : Nat)
  deriving DecidableEq

/-- Function `iot_tp_delete` (lines 771-804).  The handle is given as the channel
record it points to (`none` is `NULL`); the result is the return value, the driver
state, the record as it is when it is freed, and what was released. -/
def iot_tp_delete (st : tp_driver_t) (tp_handle : Option tp_dev_t) :
    esp_err_t × tp_driver_t × Option tp_dev_t × List Freed :=
  match tp_handle with
  | none => (esp_err_t.ESP_FAIL, st, none, [])
  | some tp_dev =>
    -- line 775
    let st1 : tp_driver_t := { st with tp_group := st.tp_group.set tp_dev.touch_pad_num none }
    -- lines 776-781
    let r1 : List Freed :=
      [TOUCHPAD_CB_PUSH, TOUCHPAD_CB_RELEASE, TOUCHPAD_CB_TAP, TOUCHPAD_CB_SLIDE].filterMap
        (fun t => (tp_dev.cb_group t).map (fun c => Freed.free_cb t c))
    let d1 : tp_dev_t := { tp_dev with cb_group := fun _ => none }
    -- lines 783-793
    let r2 : List Freed :=
      if CONFIG_TOUCH_PAD_USE_CB_CUSTOM then
        d1.custom_cbs.foldr (fun c rest =>
          Freed.delete_timer c.tmr :: Freed.free_custom_cb { c with tmr := none } :: rest) []
      else []
    let d2 : tp_dev_t := if CONFIG_TOUCH_PAD_USE_CB_CUSTOM then { d1 with custom_cbs := [] } else d1
    -- lines 795-800
    let r3 : List Freed :=
      if CONFIG_TOUCH_PAD_USE_CB_SERIAL then
        (match d2.serial_tmr with
         | some tmr => [Freed.delete_timer (some tmr)]
         | none => [])
      else []
    let d3 : tp_dev_t := if CONFIG_TOUCH_PAD_USE_CB_SERIAL then { d2 with serial_tmr := none } else d2
    -- lines 802-803
    (esp_err_t.ESP_OK, st1, some d3, r1 ++ r2 ++ r3 ++ [Freed.free_dev d3.touch_pad_num])

open tp_status_t tp_cb_type_t

/-- A platform on which task and mutex creation succeed and every pad reads 1000. -/
def example_platform : tp_platform_t :=
  { task_ok := true, mux_ok := true, touch_pad_read := fun _ _ => 1000 }

/-- The driver before the first call: not initialised, a table of ten empty slots. -/
def example_driver : tp_driver_t :=
  { g_init_flag := false, tp_group := List.replicate 10 none }

open tp_status_t tp_cb_type_t

/-- A platform on which every pad reads 0. -/
def example_platform_zero : tp_platform_t :=
  { task_ok := true, mux_ok := true, touch_pad_read := fun _ _ => 0 }

/-- The channel `example_dev` with its update count at the threshold. -/
def example_dev_due : tp_dev_t :=
  { example_dev with bl_update_count := 40 }

open tp_status_t tp_cb_type_t

/-- Identifier standing for the address of the function `tp_matrix_push_cb`. -/
def FN_tp_matrix_push_cb : Nat := 1

/-- Identifier standing for the address of the function `tp_matrix_release_cb`. -/
def FN_tp_matrix_release_cb : Nat := 2

/-- Identifier standing for the address of the function `tp_matrix_tap_cb`. -/
def FN_tp_matrix_tap_cb : Nat := 3

/-- What the allocator answers during a call of `iot_tp_matrix_create`: whether the
`calloc` of line 1213 (the group), of line 1216 (`x_tps`), of line 1222
(`y_tps`), of line 1229 (`matrix_args`) and those inside the calls of
`iot_tp_add_cb` return memory, and the address of the array `matrix_args`. -/
structure tp_matrix_alloc_t where
  matrix_ok : Bool
  x_tps_ok : Bool
  y_tps_ok : Bool
  args_ok : Bool
  cb_ok : Bool
  matrix_args : Nat

/-- The three registrations of lines 1250-1254 (and 1268-1272) on a channel that was
just created, with the address `arg` of its `tp_matrix_arg_t`; the return values
of `iot_tp_add_cb` are not looked at. -/
def matrix_hook (tp_dev : tp_dev_t) (arg : Nat) (cb_ok : Bool) : tp_dev_t :=
  let h1 := (iot_tp_add_cb (some tp_dev) TOUCHPAD_CB_PUSH FN_tp_matrix_push_cb arg cb_ok).2
  let h2 := (iot_tp_add_cb h1 TOUCHPAD_CB_RELEASE FN_tp_matrix_release_cb arg cb_ok).2
  let h3 :=
    if CONFIG_TOUCH_PAD_USE_CB_TAP then
      (iot_tp_add_cb h2 TOUCHPAD_CB_TAP FN_tp_matrix_tap_cb arg cb_ok).2
    else h2
  h3.getD tp_dev

/-- One of the two creation loops of `iot_tp_matrix_create` (lines 1239-1255 and
1256-1273) over the pad numbers and sensitivities still to visit, `k` being the
index into `matrix_args`: the handles created (the entries of the handle array
that are not `NULL`), whether the loop ran to its end (`false` is the
`goto CREATE_ERR`), and the driver state.  A channel record is reached through
its handle and through its table slot alike, so the registrations show in both. -/
def matrix_create_axis (max : Nat) (env : tp_platform_t) (al : tp_matrix_alloc_t) :
    List (Nat × ℚ) → Nat → tp_driver_t → List tp_dev_t × Bool × tp_driver_t
  | [], _, st => ([], true, st)
  | (pad, sens) :: rest, k, st =>
    match iot_tp_create max env st pad sens with
    | (none, st1) => ([], false, st1)
    | (some tp_dev, st1) =>
      let hooked := matrix_hook tp_dev (al.matrix_args + k) al.cb_ok
      let st2 : tp_driver_t :=
        { st1 with tp_group := st1.tp_group.set tp_dev.touch_pad_num (some hooked) }
      let r := matrix_create_axis max env al rest (k + 1) st2
      (hooked :: r.1, r.2.1, r.2.2)

/-- One of the two loops after the label `CREATE_ERR` (lines 1280-1285 and
1286-1291): `iot_tp_delete` on every handle of the array that is not `NULL`. -/
def matrix_create_rollback (st : tp_driver_t) (handles : List tp_dev_t) : tp_driver_t :=
  handles.foldl (fun st tp_dev => (iot_tp_delete st (some tp_dev)).2.1) st

/-- Lines 1274-1298 of `iot_tp_matrix_create`: what follows the column loop, given
the handles `x_handles` that the row loop created and the result `ry` of the
column loop. -/
def matrix_create_after_columns (x_num y_num : Nat) (x_handles : List tp_dev_t)
    (ry : List tp_dev_t × Bool × tp_driver_t) : Option tp_matrix_t × tp_driver_t :=
  if ry.2.1 = false then
    -- lines 1278-1297
    (none, matrix_create_rollback (matrix_create_rollback ry.2.2 x_handles) ry.1)
  else
    -- lines 1274-1275
    (some { x_tps := x_handles, y_tps := ry.1, cb_group := fun _ => none, custom_cbs := []
            serial_cb := ⟨0, 0⟩, serial_thres_sec := 0, serial_interval_ms := 0
            serial_tmr := none, active_state := TOUCHPAD_STATE_IDLE, active_idx := 0
            x_num := x_num, y_num := y_num },
     ry.2.2)

/-- Lines 1256-1298 of `iot_tp_matrix_create`: what follows the row loop, given its
result `rx`. -/
def matrix_create_after_rows (max : Nat) (env : tp_platform_t) (al : tp_matrix_alloc_t)
    (x_num y_num : Nat) (y_tps : List Nat) (sens : List ℚ)
    (rx : List tp_dev_t × Bool × tp_driver_t) : Option tp_matrix_t × tp_driver_t :=
  if rx.2.1 = false then
    -- lines 1278-1297, every entry of `y_tps` still being `NULL`
    (none, matrix_create_rollback (matrix_create_rollback rx.2.2 rx.1) [])
  else
    -- lines 1256-1273
    matrix_create_after_columns x_num y_num rx.1
      (matrix_create_axis max env al
        ((List.range y_num).map (fun i => (y_tps.getD i 0, sens.getD (x_num + i) 0)))
        x_num rx.2.2)

/-- Function `iot_tp_matrix_create` (lines 1208-1298): the group returned (`none` is
`NULL`) and the driver state after the call.  The arrays `x_tps`, `y_tps` and
`p_sensitivity` are read at the indices below `x_num`, `y_num` and
`x_num + y_num`. -/
def iot_tp_matrix_create (max : Nat) (env : tp_platform_t) (al : tp_matrix_alloc_t)
    (st : tp_driver_t) (x_num y_num : Nat) (x_tps y_tps : List Nat)
    (p_sensitivity : Option (List ℚ)) : Option tp_matrix_t × tp_driver_t :=
  -- lines 1211-1212
  if ¬ (x_num ≠ 0 ∧ x_num < max) then (none, st)
  else if ¬ (y_num ≠ 0 ∧ y_num < max) then (none, st)
  -- lines 1213-1214
  else if al.matrix_ok = false then (none, st)
  else
    match p_sensitivity with
    -- line 1215
    | none => (none, st)
    | some sens =>
      -- lines 1216-1235
      if al.x_tps_ok = false then (none, st)
      else if al.y_tps_ok = false then (none, st)
      else if al.args_ok = false then (none, st)
      else
        -- lines 1239-1255
        matrix_create_after_rows max env al x_num y_num y_tps sens
          (matrix_create_axis max env al
            ((List.range x_num).map (fun i => (x_tps.getD i 0, sens.getD i 0))) 0 st)

/-- An allocator that always returns memory. -/
def example_alloc : tp_matrix_alloc_t :=
  { matrix_ok := true, x_tps_ok := true, y_tps_ok := true, args_ok := true, cb_ok := true
    matrix_args := 100 }

/-- The driver with pad 5 registered: the state after a first `iot_tp_create`. -/
def example_driver_one : tp_driver_t :=
  (iot_tp_create 10 example_platform example_driver 5 (1 / 10)).2

/-- The channel `example_dev` with a baseline of 40000, above the `int16_t` range. -/
def example_dev_high : tp_dev_t :=
  { example_dev with baseline := 40000 }

/-- The channel `example_dev` in state `Press`. -/
def example_dev_pressed : tp_dev_t :=
  { example_dev with state := tp_status_t.TOUCHPAD_STATE_PRESS }

/-- The calls that the loop body of a pass makes for slot `x` (a table entry with
its raw and filtered sample). -/
def chan_effects (x : Option tp_dev_t × Nat × Nat) : List Effect :=
  match x.1 with
  | none => []
  | some tp_dev => (touch_pad_read_cb_chan tp_dev x.2.1 x.2.2).2.1

/-- The record that the loop body of a pass assigns to `slide_trigger_dev` for slot
`x` (lines 579-581), if it assigns one. -/
def chan_marked (x : Option tp_dev_t × Nat × Nat) : Option tp_dev_t :=
  match x.1 with
  | none => none
  | some tp_dev =>
    if (touch_pad_read_cb_chan tp_dev x.2.1 x.2.2).2.2 then
      some (touch_pad_read_cb_chan tp_dev x.2.1 x.2.2).1
    else none

/-- The channels that a pass of `touch_pad_read_cb` marks as slide-trigger source
(lines 579-581), in index order, each as the record after its cycle. -/
def slide_marked (tp_group : List (Option tp_dev_t)) (raw_data filtered_data : List Nat) :
    List tp_dev_t :=
  (tp_group.zip (raw_data.zip filtered_data)).filterMap chan_marked

/-- The calls that the main loop of a pass makes (lines 481-596), in index order. -/
def loop_effects (tp_group : List (Option tp_dev_t)) (raw_data filtered_data : List Nat) :
    List Effect :=
  ((tp_group.zip (raw_data.zip filtered_data)).map chan_effects).foldr (fun a b => a ++ b) []

/-- A slider channel: `example_dev` without button handlers, as a slider element
with the slide trigger threshold 0.0375 and a Slide handler with argument `arg`. -/
def example_slide_chan (arg : Nat) : tp_dev_t :=
  { example_dev with
    button_type := tp_type_t.TOUCHPAD_LINEAR_SLIDER
    slide_trigger_thr := 3 / 80
    cb_group := fun t => match t with
      | tp_cb_type_t.TOUCHPAD_CB_SLIDE => some ⟨7, arg⟩
      | _ => none }

/-- The indices `0 .. n - 1` of a loop `for (int i = 0; i < n; i++)`. -/
def loop_indices (n : Nat) : List Int :=
  List.map (fun (i : Nat) => (i : Int)) (List.range n)

/-- The indices at which the window loop of `tp_slide_pos_cb` (lines 317-333) reads
`calc_val`, in program order: in iteration `i ≥ 2` the three reads of line 320
and, when the window is selected, the three reads of lines 327-329.  The scan
variables at the start of iteration `i` are `slide_scan calc_val i`. -/
def scan_accesses (calc_val : List ℚ) (tp_num : Nat) : List Int :=
  ((List.range tp_num).map (fun (i : Nat) =>
    if 2 ≤ i then
      [(i : Int) - 2, (i : Int) - 1, (i : Int)]
        ++ (if neb_sum calc_val i > (slide_scan calc_val i).val_sum then
              [(i : Int) - 2, (i : Int) - 1, (i : Int)]
            else [])
    else [])).foldr (fun a b => a ++ b) []

/-- The indices at which lines 334-378 of `tp_slide_pos_cb` read `calc_val`, in
program order, for the scan result `sc`; `max_idx - 1` is the integer below
`max_idx`, also for `max_idx = 0`. -/
def resolve_accesses (tp_num : Nat) (calc_val : List ℚ) (sc : slide_scan_t) : List Int :=
  let m : Int := (sc.max_idx : Int)
  if sc.non0_cnt = 0 then []
  else if sc.non0_cnt = 1 then
    -- lines 339-344, then the loop of lines 348-357 up to its `break`
    loop_indices tp_num
      ++ (if ((calc_val.take tp_num).countP (fun v => 0 < v)) % 256 ≤ sc.non0_cnt then
            (if calc_val.getD (sc.max_idx - 1) 0 ≠ 0 then [m - 1]
             else if calc_val.getD sc.max_idx 0 ≠ 0 then [m - 1, m]
             else [m - 1, m, m + 1])
          else [])
  else if sc.non0_cnt = 2 then
    -- lines 360-372
    if 0 = calc_val.getD (sc.max_idx - 1) 0 then [m - 1, m + 1, m]
    else if 0 = calc_val.getD (sc.max_idx + 1) 0 then [m - 1, m + 1, m - 1, m]
    else [m - 1, m + 1]
  else
    -- lines 375-376
    [m - 1, m, m + 1]

/-- Every index at which `tp_slide_pos_cb` reads or writes the buffer `calc_val`, in
program order: the two loops of lines 304-315, the window loop and lines
334-378. -/
def slide_accesses (tp_slide : tp_slide_t) : List Int :=
  loop_indices tp_slide.tp_num ++ loop_indices tp_slide.tp_num
    ++ scan_accesses (slide_calc_val tp_slide.tp_handles) tp_slide.tp_num
    ++ resolve_accesses tp_slide.tp_num (slide_calc_val tp_slide.tp_handles)
        (slide_scan (slide_calc_val tp_slide.tp_handles) tp_slide.tp_num)

/-! ## Creation of a slider (lines 940-985) -/

/-- Constant `SLIDE_POS_INF` (line 223). -/
def SLIDE_POS_INF : Nat := (1 <<< 8) - 1

/-- Identifier standing for the address of the function `tp_slide_pos_cb`. -/
def FN_tp_slide_pos_cb : Nat := 4

/-- What the allocator answers during a call of `iot_tp_slide_create`: whether the
`calloc` of line 946 (the slider), of line 955 (`tp_handles`) and those inside the
calls of `iot_tp_add_cb` return memory, and the address of the slider record.  The
`calloc` of line 954 (`calc_val`), whose result the source does not check, is taken
to return memory. -/
structure tp_slide_alloc_t where
  slide_ok : Bool
  handles_ok : Bool
  cb_ok : Bool
  tp_slide : Nat

/-- The quotient of line 951, `(float) pos_range / (num - 1)`, the divisor being an
`int`: for `num = 1` a division by zero. -/
def slide_pos_scale (pos_range num : Nat) : FVal :=
  if num = 1 then (if pos_range = 0 then FVal.nan else FVal.pinf)
  else FVal.num ((pos_range : ℚ) / ((num : ℚ) - 1))

/-- The first loop of `iot_tp_slide_create` (lines 960-972) over the pad numbers and
sensitivities still to visit: a pad whose table slot is taken is reused, another
one is created with `iot_tp_create`.  After the loop the handle of index `i` points
to the record in the slot of `tps[i]` (line 962, or line 746 of `iot_tp_create`).
The result is the driver state, or `none` when a handle is `NULL`, which the
second loop dereferences (line 977). -/
def slide_create_attach (max : Nat) (env : tp_platform_t) :
    List (Nat × ℚ) → tp_driver_t → Option tp_driver_t
  | [], st => some st
  | (pad, sens) :: rest, st =>
    match st.tp_group.getD pad none with
    | some _ => slide_create_attach max env rest st
    | none =>
      match iot_tp_create max env st pad sens with
      | (none, _) => none
      | (some _, st1) => slide_create_attach max env rest st1

/-- Lines 977-981 on one channel: the type and the slide trigger threshold are set,
then the slider callback is registered; the return value of `iot_tp_add_cb` is not
looked at. -/
def slide_hook (tp_dev : tp_dev_t) (arg : Nat) (cb_ok : Bool) : tp_dev_t :=
  let d1 : tp_dev_t :=
    { tp_dev with
      button_type := tp_type_t.TOUCHPAD_LINEAR_SLIDER
      slide_trigger_thr := tp_dev.touch_thr * TOUCHPAD_SLIDER_TRIGGER_THRESHOLD_PERCENT }
  (iot_tp_add_cb (some d1) TOUCHPAD_CB_SLIDE FN_tp_slide_pos_cb arg cb_ok).2.getD d1

/-- The second loop of `iot_tp_slide_create` (lines 975-983) over the pad numbers
still to visit; it writes through the handles, that is, to the records in the
table slots of these pads.  The result is `none` when a slot is empty (a `NULL`
handle). -/
def slide_create_hook (al : tp_slide_alloc_t) : List Nat → tp_driver_t → Option tp_driver_t
  | [], st => some st
  | pad :: rest, st =>
    match st.tp_group.getD pad none with
    | none => none
    | some tp_dev =>
      slide_create_hook al rest
        { st with
          tp_group := st.tp_group.set pad (some (slide_hook tp_dev al.tp_slide al.cb_ok)) }

/-- Function `iot_tp_slide_create` (lines 940-985) for the `uint8_t` values `num` and
`pos_range`; the arrays `tps` and `p_sensitivity` are read at the indices below
`num`.  The result is the slider returned (`none` is `NULL`), its handles being
given as the records they point to at the return, and the driver state; the outer
`none` is a call that dereferences a `NULL` handle.  The field `pos_scale` of the
embedding is rational: for `num = 1`, where line 951 stores an infinity, it holds
the `toQ` of it (no function of the file reads `pos_scale` of a slider with fewer
than three channels, the window loop selecting nothing there). -/
def iot_tp_slide_create (max : Nat) (env : tp_platform_t) (al : tp_slide_alloc_t)
    (st : tp_driver_t) (num : Nat) (tps : Option (List Nat)) (pos_range : Nat)
    (p_sensitivity : Option (List ℚ)) : Option (Option tp_slide_t × tp_driver_t) :=
  match tps with
  -- line 943
  | none => some (none, st)
  | some tps =>
    -- line 944
    if ¬ pos_range ≥ num then some (none, st)
    -- lines 946-947
    else if al.slide_ok = false then some (none, st)
    else
      match p_sensitivity with
      -- line 948
      | none => some (none, st)
      | some sens =>
        -- lines 955-959
        if al.handles_ok = false then some (none, st)
        else
          let pads := (List.range num).map (fun i => tps.getD i 0)
          -- lines 960-972
          match slide_create_attach max env
              ((List.range num).map (fun i => (tps.getD i 0, sens.getD i 0))) st with
          | none => none
          | some st1 =>
            -- lines 974-983
            match slide_create_hook al pads st1 with
            | none => none
            | some st2 =>
              some (some { pos_scale := (slide_pos_scale pos_range num).toQ
                           pos_range := (pos_range : ℚ)
                           tp_num := num
                           slide_pos := SLIDE_POS_INF
                           calc_val := List.replicate num 0
                           tp_handles := pads.filterMap (fun pad => st2.tp_group.getD pad none) },
                    st2)

/-- An allocator that always returns memory, the slider record being at address 50. -/
def example_slide_alloc : tp_slide_alloc_t :=
  { slide_ok := true, handles_ok := true, cb_ok := true, tp_slide := 50 }

/-- The slider that `iot_tp_slide_create` returns for the pads 3 and 4 on the empty
table. -/
def example_slide_new : tp_slide_t :=
  { pos_scale := (slide_pos_scale 20 2).toQ
    pos_range := ((20 : Nat) : ℚ)
    tp_num := 2
    slide_pos := SLIDE_POS_INF
    calc_val := [0, 0]
    tp_handles :=
      [slide_hook (iot_tp_create_dev 3 (1 / 10) 1000) 50 true,
       slide_hook (iot_tp_create_dev 4 (1 / 10) 1000) 50 true] }

/-- The driver state after that call. -/
def example_driver_slide : tp_driver_t :=
  { g_init_flag := true
    tp_group :=
      (example_driver.tp_group.set 3
        (some (slide_hook (iot_tp_create_dev 3 (1 / 10) 1000) 50 true))).set 4
        (some (slide_hook (iot_tp_create_dev 4 (1 / 10) 1000) 50 true)) }

/-- The group `example_matrix_active` with no cell active any more. -/
def example_matrix_idle : tp_matrix_t :=
  { example_matrix_active with active_state := tp_status_t.TOUCHPAD_STATE_IDLE }

/-- The counters of a channel are within their thresholds: `debounce_count` below
`debounce_th`, `bl_reset_count` and `bl_update_count` at most theirs. -/
def CountersInv (d : tp_dev_t) : Prop :=
  d.debounce_count < d.debounce_th ∧ d.bl_reset_count ≤ d.bl_reset_count_th
    ∧ d.bl_update_count ≤ d.bl_update_count_th

instance instDecidableCountersInv (d : tp_dev_t) : Decidable (CountersInv d) :=
  inferInstanceAs (Decidable (_ ∧ _))

/-- The channel `example_dev` in state `Release`, as a release leaves it. -/
def example_dev_released : tp_dev_t :=
  { example_dev with state := tp_status_t.TOUCHPAD_STATE_RELEASE }

/-- A slider of two channels, both touched well above their slide trigger
threshold. -/
def example_slide_pair : tp_slide_t :=
  { pos_scale := 20, pos_range := 20, tp_num := 2, slide_pos := 255, calc_val := [0, 0]
    tp_handles := [example_slide_dev (1 / 2), example_slide_dev (1 / 2)] }

/-- Whether lines 334-378 of `tp_slide_pos_cb` assign `slide_pos_temp` for the scan
result `sc`: one nonzero value in the window that is the only one of the group
(and that the loop of lines 348-357 finds), two nonzero values with an outer one
zero, or three. -/
def slide_assigns (tp_slide : tp_slide_t) (calc_val : List ℚ) (sc : slide_scan_t) : Bool :=
  let max_idx := sc.max_idx
  if sc.non0_cnt = 0 then false
  else if sc.non0_cnt = 1 then
    let no_zero := ((calc_val.take tp_slide.tp_num).countP (fun v => 0 < v)) % 256
    if no_zero ≤ sc.non0_cnt then
      ([max_idx - 1, max_idx, max_idx + 1].find? (fun i => calc_val.getD i 0 ≠ 0)).isSome
    else false
  else if sc.non0_cnt = 2 then
    if 0 = calc_val.getD (max_idx - 1) 0 then true
    else if 0 = calc_val.getD (max_idx + 1) 0 then true
    else false
  else true

open tp_status_t tp_cb_type_t

theorem chan_rate (d : tp_dev_t) (raw f : Nat) :
    (touch_pad_read_cb_chan d raw f).1.diff_rate = diff_rate_of d.baseline raw := by
  unfold touch_pad_read_cb_chan
  simp only []
  split_ifs <;> rfl


theorem Static.trans {a b c : tp_dev_t} (h1 : Static a b) (h2 : Static b c) : Static a c := by
  simp only [Static] at *
  obtain ⟨h1a, h1b, h1c, h1d, h1e, h1f, h1g, h1h, h1i, h1j, h1k, h1l, h1m, h1n, h1o, h1p, h1q⟩ := h1
  obtain ⟨h2a, h2b, h2c, h2d, h2e, h2f, h2g, h2h, h2i, h2j, h2k, h2l, h2m, h2n, h2o, h2p, h2q⟩ := h2
  refine ⟨?_, ?_, ?_, ?_, ?_, ?_, ?_, ?_, ?_, ?_, ?_, ?_, ?_, ?_, ?_, ?_, ?_⟩ <;>
    simp only [*]

theorem step_static (d : tp_dev_t) (raw f : Nat) :
    Static d (touch_pad_read_cb_chan d raw f).1 := by
  unfold touch_pad_read_cb_chan Static
  simp only []
  split_ifs <;> simp

theorem absLeQ_false_of_geQ (x : FVal) (n t : ℚ) (hn : n < t) (h : x.geQ t = true) :
    x.absLeQ n = false := by
  cases x <;> simp_all [FVal.geQ, FVal.absLeQ]
  exact lt_of_lt_of_le (lt_of_lt_of_le hn h) (le_abs_self _)

/-- An untouched channel, a cycle at or above the touch level, debounce not yet
complete: the cycle only counts. -/
theorem step_high_count (d : tp_dev_t) (raw f : Nat) (hu : untouched d)
    (hn : d.noise_thr < d.touch_thr + d.hysteresis_thr)
    (hh : (diff_rate_of d.baseline raw).geQ (d.touch_thr + d.hysteresis_thr) = true)
    (hs : TOUCHPAD_TOUCH_LOW_SENSE_THRESHOLD ≤ d.touchChange)
    (hc : d.debounce_count + 1 < d.debounce_th) (hth : d.debounce_th ≤ 65535) :
    (touch_pad_read_cb_chan d raw f).1
        = { d with diff_rate := diff_rate_of d.baseline raw
                   state := TOUCHPAD_STATE_IDLE
                   bl_update_count := 0
                   bl_reset_count := 0
                   debounce_count := d.debounce_count + 1 }
      ∧ (touch_pad_read_cb_chan d raw f).2.1 = [] := by
  have hq := absLeQ_false_of_geQ _ _ _ hn hh
  have hmod : (d.debounce_count + 1) % 65536 = d.debounce_count + 1 :=
    Nat.mod_eq_of_lt (by omega)
  have hu2 : d.state = TOUCHPAD_STATE_IDLE ∨ d.state = TOUCHPAD_STATE_RELEASE := hu
  unfold touch_pad_read_cb_chan
  simp only [hu2, hq, hh, hmod, if_true]
  simp [not_le.mpr hc, not_lt.mpr hs]

/-- An untouched channel, a cycle at or above the touch level, and the debounce
condition of line 506 met: the channel is pushed. -/
theorem step_high_push (d : tp_dev_t) (raw f : Nat) (hu : untouched d)
    (hn : d.noise_thr < d.touch_thr + d.hysteresis_thr)
    (hh : (diff_rate_of d.baseline raw).geQ (d.touch_thr + d.hysteresis_thr) = true)
    (hc : d.debounce_th ≤ (d.debounce_count + 1) % 65536
      ∨ d.touchChange < TOUCHPAD_TOUCH_LOW_SENSE_THRESHOLD) :
    (touch_pad_read_cb_chan d raw f).1
        = { d with diff_rate := diff_rate_of d.baseline raw
                   state := TOUCHPAD_STATE_PUSH
                   bl_update_count := 0
                   bl_reset_count := 0
                   debounce_count := 0 }
      ∧ (touch_pad_read_cb_chan d raw f).2.1
        = callback_exec d TOUCHPAD_CB_PUSH ++ tp_custom_reset_cb_tmrs d := by
  have hq := absLeQ_false_of_geQ _ _ _ hn hh
  have hu2 : d.state = TOUCHPAD_STATE_IDLE ∨ d.state = TOUCHPAD_STATE_RELEASE := hu
  unfold touch_pad_read_cb_chan
  simp only [hu2, hq, hh, if_true]
  simp [hc, callback_exec, tp_custom_reset_cb_tmrs, CONFIG_TOUCH_PAD_USE_CB_CUSTOM]

/-- An untouched channel and a cycle inside the noise band: the channel stays
idle, nothing is called. -/
theorem step_quiet (d : tp_dev_t) (raw f : Nat) (hu : untouched d)
    (hq : (diff_rate_of d.baseline raw).absLeQ d.noise_thr = true) :
    (touch_pad_read_cb_chan d raw f).1.state = TOUCHPAD_STATE_IDLE
      ∧ (touch_pad_read_cb_chan d raw f).1.debounce_count = 0
      ∧ (touch_pad_read_cb_chan d raw f).1.bl_reset_count = 0
      ∧ (touch_pad_read_cb_chan d raw f).2.1 = [] := by
  have hu2 : d.state = TOUCHPAD_STATE_IDLE ∨ d.state = TOUCHPAD_STATE_RELEASE := hu
  unfold touch_pad_read_cb_chan
  simp only [hu2, hq, if_true]
  split_ifs <;> simp

theorem touched_not_untouched {d : tp_dev_t} (ht : touched d) :
    ¬ (d.state = TOUCHPAD_STATE_IDLE ∨ d.state = TOUCHPAD_STATE_RELEASE) := by
  rcases ht with h | h <;> simp [h]

/-- A touched channel without repeat trigger, a cycle above the release level: the
channel is held, only the debounce count and the held time change. -/
theorem step_hold (d : tp_dev_t) (raw f : Nat) (ht : touched d)
    (hser : d.serial_thres_sec = 0)
    (hh : (diff_rate_of d.baseline raw).gtQ (d.touch_thr - d.hysteresis_thr) = true) :
    (touch_pad_read_cb_chan d raw f).1
        = { d with diff_rate := diff_rate_of d.baseline raw
                   debounce_count := 0
                   sum_ms := (d.sum_ms + TOUCHPAD_MEAS_PERIOD_MS) % 2 ^ 32 }
      ∧ (touch_pad_read_cb_chan d raw f).2.1 = [] := by
  have hu2 := touched_not_untouched ht
  unfold touch_pad_read_cb_chan
  simp only [hu2, hh, if_true, if_false]
  simp [hser, CONFIG_TOUCH_PAD_USE_CB_SERIAL]

/-- The calls made when a channel is released (lines 557-572). -/
theorem step_release (d : tp_dev_t) (raw f : Nat) (ht : touched d)
    (hh : (diff_rate_of d.baseline raw).gtQ (d.touch_thr - d.hysteresis_thr) = false)
    (hc : d.debounce_th ≤ (d.debounce_count + 1) % 65536
      ∨ (diff_rate_of d.baseline raw).absLtQ d.noise_thr = true
      ∨ d.touchChange < TOUCHPAD_TOUCH_LOW_SENSE_THRESHOLD) :
    (touch_pad_read_cb_chan d raw f).1
        = { d with diff_rate := diff_rate_of d.baseline raw
                   debounce_count := 0
                   sum_ms := 0
                   state := TOUCHPAD_STATE_RELEASE }
      ∧ (touch_pad_read_cb_chan d raw f).2.1
        = (if d.state = TOUCHPAD_STATE_PUSH then callback_exec d TOUCHPAD_CB_TAP else [])
            ++ callback_exec d TOUCHPAD_CB_RELEASE ++ tp_custom_stop_cb_tmrs d
            ++ (match d.serial_tmr with
                | some tmr => [Effect.tmr_stop tmr]
                | none => []) := by
  have hu2 := touched_not_untouched ht
  unfold touch_pad_read_cb_chan
  simp only [hu2, hh, if_true, if_false]
  simp [hc, callback_exec, tp_custom_stop_cb_tmrs, CONFIG_TOUCH_PAD_USE_CB_CUSTOM,
    CONFIG_TOUCH_PAD_USE_CB_SERIAL, CONFIG_TOUCH_PAD_USE_CB_TAP_EVENT]

/-- A touched channel, a cycle at or below the release level, and none of the three
release conditions of lines 554-556 met: the cycle only counts. -/
theorem step_release_wait (d : tp_dev_t) (raw f : Nat) (ht : touched d)
    (hh : (diff_rate_of d.baseline raw).gtQ (d.touch_thr - d.hysteresis_thr) = false)
    (hc1 : (d.debounce_count + 1) % 65536 < d.debounce_th)
    (hc2 : (diff_rate_of d.baseline raw).absLtQ d.noise_thr = false)
    (hc3 : TOUCHPAD_TOUCH_LOW_SENSE_THRESHOLD ≤ d.touchChange) :
    (touch_pad_read_cb_chan d raw f).1
        = { d with diff_rate := diff_rate_of d.baseline raw
                   debounce_count := (d.debounce_count + 1) % 65536 }
      ∧ (touch_pad_read_cb_chan d raw f).2.1 = [] := by
  have hu2 := touched_not_untouched ht
  unfold touch_pad_read_cb_chan
  simp only [hu2, hh, if_true, if_false]
  simp [not_le.mpr hc1, hc2, not_lt.mpr hc3]


theorem user_calls_append (a b : List Effect) :
    user_calls (a ++ b) = user_calls a ++ user_calls b := by
  simp [user_calls]

theorem user_calls_callback_exec (d : tp_dev_t) (t : tp_cb_type_t) :
    user_calls (callback_exec d t) = callback_exec d t := by
  unfold callback_exec user_calls
  cases d.cb_group t <;> simp [Effect.isUserCall]

theorem user_calls_reset (d : tp_dev_t) : user_calls (tp_custom_reset_cb_tmrs d) = [] := by
  unfold user_calls tp_custom_reset_cb_tmrs
  rw [List.filter_eq_nil_iff]
  intro a ha
  obtain ⟨x, -, rfl⟩ := List.mem_map.mp ha
  simp [Effect.isUserCall]

theorem user_calls_stop (d : tp_dev_t) : user_calls (tp_custom_stop_cb_tmrs d) = [] := by
  unfold user_calls tp_custom_stop_cb_tmrs
  rw [List.filter_eq_nil_iff]
  intro a ha
  obtain ⟨x, -, rfl⟩ := List.mem_map.mp ha
  simp [Effect.isUserCall]

/-- What `Created` says, field by field. -/
theorem created_fields {d : tp_dev_t} (h : Created d) :
    d.touch_thr = d.touchChange * (75 / 100) ∧ d.noise_thr = d.touchChange * (75 / 100) * (20 / 100)
      ∧ d.hysteresis_thr = d.touchChange * (75 / 100) * (10 / 100)
      ∧ d.baseline_reset_thr = d.touchChange * (75 / 100) * (20 / 100)
      ∧ d.debounce_th = 4 ∧ d.bl_reset_count_th = 5 ∧ d.bl_update_count_th = 40 := by
  obtain ⟨-, h2, h3, h4, h5, h6, h7, h8⟩ := h
  simp only [iot_tp_create_dev, TOUCHPAD_TOUCH_THRESHOLD_PERCENT, TOUCHPAD_NOISE_THRESHOLD_PERCENT,
    TOUCHPAD_HYSTERESIS_THRESHOLD_PERCENT, TOUCHPAD_BASELINE_RESET_THRESHOLD_PERCENT,
    TOUCHPAD_STATE_SWITCH_DEBOUNCE, TOUCHPAD_MEAS_PERIOD_MS,
    TOUCHPAD_BASELINE_RESET_COUNT_THRESHOLD, TOUCHPAD_BASELINE_UPDATE_COUNT_THRESHOLD] at h2 h3 h4 h5 h6 h7 h8
  exact ⟨h2, h3, h4, h5, h6, h7, h8⟩

theorem created_of_static {d e : tp_dev_t} (h : Created d) (hs : Static d e) : Created e := by
  obtain ⟨-, -, h3, h4, h5, h6, h7, -, h9, h10, h11, -⟩ := hs
  obtain ⟨c1, c2, c3, c4, c5, c6, c7, c8⟩ := h
  simp only [iot_tp_create_dev] at c1 c2 c3 c4 c5 c6 c7 c8
  refine ⟨rfl, ?_, ?_, ?_, ?_, ?_, ?_, ?_⟩ <;> simp only [iot_tp_create_dev, *]


theorem created_noise_lt {d : tp_dev_t} (h : Created d)
    (hs : TOUCHPAD_TOUCH_LOW_SENSE_THRESHOLD ≤ d.touchChange) :
    d.noise_thr < d.touch_thr + d.hysteresis_thr := by
  obtain ⟨c1, c2, c3, -⟩ := created_fields h
  unfold TOUCHPAD_TOUCH_LOW_SENSE_THRESHOLD at hs
  rw [c1, c2, c3]
  linarith

theorem fired_append (a b : List Effect) : fired (a ++ b) = fired a ++ fired b := by
  simp [fired]

/-- A touched channel and a cycle above the release level: the channel stays
touched (possibly moving to `Press`), the debounce count is cleared, the baseline
is kept and no handler of `cb_group` is run. -/
theorem step_hold_gen (d : tp_dev_t) (raw f : Nat) (ht : touched d)
    (hh : (diff_rate_of d.baseline raw).gtQ (d.touch_thr - d.hysteresis_thr) = true) :
    touched (touch_pad_read_cb_chan d raw f).1
      ∧ (touch_pad_read_cb_chan d raw f).1.debounce_count = 0
      ∧ (touch_pad_read_cb_chan d raw f).1.baseline = d.baseline
      ∧ fired (touch_pad_read_cb_chan d raw f).2.1 = [] := by
  have hu2 := touched_not_untouched ht
  unfold touch_pad_read_cb_chan
  simp only [hu2, hh, if_true, if_false]
  split_ifs <;> simp [touched, fired] <;> exact ht

theorem callback_exec_congr {d e : tp_dev_t} (h : e.cb_group = d.cb_group)
    (t : tp_cb_type_t) : callback_exec e t = callback_exec d t := by
  simp [callback_exec, h]

theorem rates_cons {d : tp_dev_t} {ins : List (Nat × Nat)} {x : FVal} {xs : List FVal}
    (h : chan_run_rates d ins = x :: xs) :
    ∃ s rest, ins = s :: rest ∧ diff_rate_of d.baseline s.1 = x
      ∧ chan_run_rates (touch_pad_read_cb_chan d s.1 s.2).1 rest = xs := by
  cases ins with
  | nil => simp [chan_run_rates] at h
  | cons s rest =>
    simp only [chan_run_rates, List.cons.injEq] at h
    exact ⟨s, rest, rfl, by rw [← h.1, chan_rate], h.2⟩

theorem rates_nil {d : tp_dev_t} {ins : List (Nat × Nat)} (h : chan_run_rates d ins = []) :
    ins = [] := by
  cases ins with
  | nil => rfl
  | cons s rest => simp [chan_run_rates] at h

/-- An untouched channel whose cycles all compute the same `diff_rate`, inside the
noise band, stays untouched and calls nothing. -/
theorem quiet_run (k : Nat) :
    ∀ (ins : List (Nat × Nat)) (d : tp_dev_t) (lo : FVal), untouched d →
      lo.absLeQ d.noise_thr = true →
      chan_run_rates d ins = List.replicate k lo →
      (chan_run d ins).2 = [] := by
  induction k with
  | zero =>
    intro ins d lo _ _ hr
    have hnil : ins = [] := rates_nil (d := d) (by simpa using hr)
    subst hnil
    rfl
  | succ k ih =>
    intro ins d lo hu hq hr
    rw [List.replicate_succ] at hr
    obtain ⟨s, rest, rfl, h1, h2⟩ := rates_cons hr
    obtain ⟨q1, -, -, q4⟩ := step_quiet d s.1 s.2 hu (by rw [h1]; exact hq)
    obtain ⟨-, -, -, -, t5, -⟩ := step_static d s.1 s.2
    have := ih rest (touch_pad_read_cb_chan d s.1 s.2).1 lo (Or.inl q1) (by rw [t5]; exact hq) h2
    simp only [chan_run, q4, this, List.append_nil]

/-- A pushed channel without repeat trigger that is held for `n` cycles and then
sees `k + 1` cycles inside the noise band: the calls into user code are the Tap
handler followed by the Release handler, once each. -/
theorem hold_release_run (n k : Nat) :
    ∀ (ins : List (Nat × Nat)) (d : tp_dev_t) (hi lo : FVal),
      d.state = TOUCHPAD_STATE_PUSH → d.serial_thres_sec = 0 →
      hi.gtQ (d.touch_thr - d.hysteresis_thr) = true →
      lo.gtQ (d.touch_thr - d.hysteresis_thr) = false →
      lo.absLtQ d.noise_thr = true → lo.absLeQ d.noise_thr = true →
      chan_run_rates d ins = List.replicate n hi ++ List.replicate (k + 1) lo →
      user_calls (chan_run d ins).2
        = callback_exec d TOUCHPAD_CB_TAP ++ callback_exec d TOUCHPAD_CB_RELEASE := by
  induction n with
  | zero =>
    intro ins d hi lo hst _ _ hlo hlt hle hr
    rw [List.replicate_zero, List.nil_append, List.replicate_succ] at hr
    obtain ⟨s, rest, rfl, h1, h2⟩ := rates_cons hr
    obtain ⟨r1, r2⟩ := step_release d s.1 s.2 (Or.inl hst) (by rw [h1]; exact hlo)
      (Or.inr (Or.inl (by rw [h1]; exact hlt)))
    obtain ⟨-, -, -, -, t5, -⟩ := step_static d s.1 s.2
    have hq := quiet_run k rest (touch_pad_read_cb_chan d s.1 s.2).1 lo
      (Or.inr (by rw [r1])) (by rw [t5]; exact hle) h2
    simp only [chan_run, hq, r2, List.append_nil, hst, if_true, user_calls_append,
      user_calls_callback_exec, user_calls_stop]
    cases d.serial_tmr <;> simp [user_calls, Effect.isUserCall]
  | succ n ih =>
    intro ins d hi lo hst hser hhi hlo hlt hle hr
    rw [List.replicate_succ, List.cons_append] at hr
    obtain ⟨s, rest, rfl, h1, h2⟩ := rates_cons hr
    obtain ⟨r1, r2⟩ := step_hold d s.1 s.2 (Or.inl hst) hser (by rw [h1]; exact hhi)
    obtain ⟨-, -, -, t4, t5, t6, -, -, -, -, -, -, t13, -, t15, -⟩ := step_static d s.1 s.2
    have := ih rest (touch_pad_read_cb_chan d s.1 s.2).1 hi lo (by rw [r1]; exact hst)
      (by rw [t15]; exact hser) (by rw [t4, t6]; exact hhi) (by rw [t4, t6]; exact hlo)
      (by rw [t5]; exact hlt) (by rw [t5]; exact hle) h2
    simp only [chan_run, r2, List.nil_append, this, callback_exec_congr t13]

/-- An untouched channel that needs `n + 1` more cycles to complete the debounce,
sees `n + 1 + m` cycles at a rate above the touch level and then `k + 1` cycles
inside the noise band: the calls into user code are the Push, the Tap and the
Release handler, in that order, once each. -/
theorem tap_run (n m k : Nat) :
    ∀ (ins : List (Nat × Nat)) (d : tp_dev_t) (hi lo : FVal),
      untouched d → d.serial_thres_sec = 0 →
      d.noise_thr < d.touch_thr + d.hysteresis_thr →
      TOUCHPAD_TOUCH_LOW_SENSE_THRESHOLD ≤ d.touchChange → d.debounce_th ≤ 65535 →
      d.debounce_count + n + 1 = d.debounce_th →
      hi.geQ (d.touch_thr + d.hysteresis_thr) = true →
      hi.gtQ (d.touch_thr - d.hysteresis_thr) = true →
      lo.gtQ (d.touch_thr - d.hysteresis_thr) = false →
      lo.absLtQ d.noise_thr = true → lo.absLeQ d.noise_thr = true →
      chan_run_rates d ins = List.replicate (n + 1 + m) hi ++ List.replicate (k + 1) lo →
      user_calls (chan_run d ins).2
        = callback_exec d TOUCHPAD_CB_PUSH
            ++ (callback_exec d TOUCHPAD_CB_TAP ++ callback_exec d TOUCHPAD_CB_RELEASE) := by
  induction n with
  | zero =>
    intro ins d hi lo hu hser hn hs hth hcnt hge hgt hlo hlt hle hr
    rw [show 0 + 1 + m = m + 1 by omega, List.replicate_succ, List.cons_append] at hr
    obtain ⟨s, rest, rfl, h1, h2⟩ := rates_cons hr
    obtain ⟨r1, r2⟩ := step_high_push d s.1 s.2 hu hn (by rw [h1]; exact hge)
      (Or.inl (by rw [Nat.mod_eq_of_lt (by omega)]; omega))
    obtain ⟨-, -, -, t4, t5, t6, -, -, -, -, -, -, t13, -, t15, -⟩ := step_static d s.1 s.2
    have := hold_release_run m k rest (touch_pad_read_cb_chan d s.1 s.2).1 hi lo
      (by rw [r1]) (by rw [t15]; exact hser) (by rw [t4, t6]; exact hgt)
      (by rw [t4, t6]; exact hlo) (by rw [t5]; exact hlt) (by rw [t5]; exact hle) h2
    simp only [chan_run, r2, user_calls_append, this, user_calls_callback_exec, user_calls_reset,
      List.append_nil, callback_exec_congr t13]
  | succ n ih =>
    intro ins d hi lo hu hser hn hs hth hcnt hge hgt hlo hlt hle hr
    rw [show n + 1 + 1 + m = (n + 1 + m) + 1 by omega, List.replicate_succ,
      List.cons_append] at hr
    obtain ⟨s, rest, rfl, h1, h2⟩ := rates_cons hr
    obtain ⟨r1, r2⟩ := step_high_count d s.1 s.2 hu hn (by rw [h1]; exact hge) hs
      (by omega) hth
    obtain ⟨-, -, t3, t4, t5, t6, -, -, t9, -, -, -, t13, -, t15, -⟩ := step_static d s.1 s.2
    have e8 : (touch_pad_read_cb_chan d s.1 s.2).1.debounce_count = d.debounce_count + 1 := by
      rw [r1]
    have := ih rest (touch_pad_read_cb_chan d s.1 s.2).1 hi lo (Or.inl (by rw [r1]))
      (by rw [t15]; exact hser) (by rw [t4, t5, t6]; exact hn) (by rw [t3]; exact hs)
      (by rw [t9]; exact hth) (by rw [t9, e8]; omega) (by rw [t4, t6]; exact hge)
      (by rw [t4, t6]; exact hgt) (by rw [t4, t6]; exact hlo) (by rw [t5]; exact hlt)
      (by rw [t5]; exact hle) h2
    simp only [chan_run, r2, List.nil_append, this, callback_exec_congr t13]

/-- C1: a channel with the parameters `iot_tp_create` derives from sensitivity 0.10,
no repeat trigger configured, a Push, a Tap and a Release handler registered,
starting `Idle` with all counters zero: over any run of sampling cycles whose
`diff_rate` is 0.09 for `m ≥ debounce_th` cycles and then 0.00 for
`k ≥ debounce_th` cycles, the calls into user code are exactly the Push handler,
then the Tap handler, then the Release handler. -/
theorem C1_push_tap_release (d : tp_dev_t) (ins : List (Nat × Nat)) (m k : Nat)
    (hp ht hr : tp_cb_t)
    (hcr : Created d) (hsens : d.touchChange = 1 / 10)
    (hser : d.serial_thres_sec = 0)
    (hst : d.state = TOUCHPAD_STATE_IDLE)
    (hcnt : d.debounce_count = 0 ∧ d.bl_reset_count = 0 ∧ d.bl_update_count = 0)
    (hcp : d.cb_group TOUCHPAD_CB_PUSH = some hp)
    (hct : d.cb_group TOUCHPAD_CB_TAP = some ht)
    (hcrel : d.cb_group TOUCHPAD_CB_RELEASE = some hr)
    (hm : d.debounce_th ≤ m) (hk : d.debounce_th ≤ k)
    (hrates : chan_run_rates d ins
      = List.replicate m (FVal.num (9 / 100)) ++ List.replicate k (FVal.num 0)) :
    user_calls (chan_run d ins).2
      = [Effect.callback TOUCHPAD_CB_PUSH hp, Effect.callback TOUCHPAD_CB_TAP ht,
         Effect.callback TOUCHPAD_CB_RELEASE hr] := by
  obtain ⟨c1, c2, c3, -, c5, -, -⟩ := created_fields hcr
  have hs : TOUCHPAD_TOUCH_LOW_SENSE_THRESHOLD ≤ d.touchChange := by
    rw [hsens]; norm_num [TOUCHPAD_TOUCH_LOW_SENSE_THRESHOLD]
  have hn := created_noise_lt hcr hs
  rw [hsens] at c1 c2 c3
  obtain ⟨m2, rfl⟩ : ∃ m2, m = 3 + 1 + m2 := ⟨m - 4, by omega⟩
  obtain ⟨k2, rfl⟩ : ∃ k2, k = k2 + 1 := ⟨k - 1, by omega⟩
  have := tap_run 3 m2 k2 ins d (FVal.num (9 / 100)) (FVal.num 0) (Or.inl hst) hser hn hs
    (by omega) (by omega)
    (by rw [c1, c3]; norm_num [FVal.geQ])
    (by rw [c1, c3]; norm_num [FVal.gtQ])
    (by rw [c1, c3]; norm_num [FVal.gtQ])
    (by rw [c2]; norm_num [FVal.absLtQ])
    (by rw [c2]; norm_num [FVal.absLeQ])
    hrates
  rw [this]
  simp [callback_exec, hcp, hct, hcrel]

theorem example_dev_created : Created example_dev := by
  simp [Created, SameSetup, example_dev, iot_tp_create_dev]

theorem example_rate_high :
    diff_rate_of 1000 900 = FVal.num (1 / 10) := by
  norm_num [diff_rate_of, diff_data_of, toInt16]

theorem example_rate_zero :
    diff_rate_of 1000 1000 = FVal.num 0 := by
  norm_num [diff_rate_of, diff_data_of, toInt16]

theorem rates_cons_eq {d d2 : tp_dev_t} {s : Nat × Nat} {rest : List (Nat × Nat)}
    {r : FVal} {rs : List FVal}
    (h : (touch_pad_read_cb_chan d s.1 s.2).1 = d2) (hr : d2.diff_rate = r)
    (ht : chan_run_rates d2 rest = rs) :
    chan_run_rates d (s :: rest) = r :: rs := by
  subst h hr ht
  rfl

/-- The `diff_rate` values of the run used as witness of C1: four cycles at 0.09,
then four cycles at 0.00. -/
theorem example_run_rates :
    chan_run_rates example_dev
        [(910, 1000), (910, 1000), (910, 1000), (910, 1000),
         (1000, 1000), (1000, 1000), (1000, 1000), (1000, 1000)]
      = List.replicate 4 (FVal.num (9 / 100)) ++ List.replicate 4 (FVal.num 0) := by
  have f1 : (touch_pad_read_cb_chan (example_dev : tp_dev_t) 910 1000).1
      = { example_dev with diff_rate := FVal.num (9 / 100), debounce_count := 1 } := by
    simp [touch_pad_read_cb_chan, example_dev, iot_tp_create_dev, tp_dev_calloc,
      diff_rate_of, diff_data_of, toInt16, FVal.geQ, FVal.gtQ, FVal.leQ, FVal.absLeQ,
      FVal.absLtQ, TOUCHPAD_TOUCH_THRESHOLD_PERCENT, TOUCHPAD_NOISE_THRESHOLD_PERCENT,
      TOUCHPAD_HYSTERESIS_THRESHOLD_PERCENT, TOUCHPAD_BASELINE_RESET_THRESHOLD_PERCENT,
      TOUCHPAD_STATE_SWITCH_DEBOUNCE, TOUCHPAD_MEAS_PERIOD_MS,
      TOUCHPAD_BASELINE_RESET_COUNT_THRESHOLD, TOUCHPAD_BASELINE_UPDATE_COUNT_THRESHOLD,
      TOUCHPAD_TOUCH_LOW_SENSE_THRESHOLD, CONFIG_TOUCH_PAD_USE_CB_SERIAL, abs_of_pos]
    try norm_num
  have f2 : (touch_pad_read_cb_chan ({ example_dev with diff_rate := FVal.num (9 / 100), debounce_count := 1 } : tp_dev_t) 910 1000).1
      = { example_dev with diff_rate := FVal.num (9 / 100), debounce_count := 2 } := by
    simp [touch_pad_read_cb_chan, example_dev, iot_tp_create_dev, tp_dev_calloc,
      diff_rate_of, diff_data_of, toInt16, FVal.geQ, FVal.gtQ, FVal.leQ, FVal.absLeQ,
      FVal.absLtQ, TOUCHPAD_TOUCH_THRESHOLD_PERCENT, TOUCHPAD_NOISE_THRESHOLD_PERCENT,
      TOUCHPAD_HYSTERESIS_THRESHOLD_PERCENT, TOUCHPAD_BASELINE_RESET_THRESHOLD_PERCENT,
      TOUCHPAD_STATE_SWITCH_DEBOUNCE, TOUCHPAD_MEAS_PERIOD_MS,
      TOUCHPAD_BASELINE_RESET_COUNT_THRESHOLD, TOUCHPAD_BASELINE_UPDATE_COUNT_THRESHOLD,
      TOUCHPAD_TOUCH_LOW_SENSE_THRESHOLD, CONFIG_TOUCH_PAD_USE_CB_SERIAL, abs_of_pos]
    try norm_num
  have f3 : (touch_pad_read_cb_chan ({ example_dev with diff_rate := FVal.num (9 / 100), debounce_count := 2 } : tp_dev_t) 910 1000).1
      = { example_dev with diff_rate := FVal.num (9 / 100), debounce_count := 3 } := by
    simp [touch_pad_read_cb_chan, example_dev, iot_tp_create_dev, tp_dev_calloc,
      diff_rate_of, diff_data_of, toInt16, FVal.geQ, FVal.gtQ, FVal.leQ, FVal.absLeQ,
      FVal.absLtQ, TOUCHPAD_TOUCH_THRESHOLD_PERCENT, TOUCHPAD_NOISE_THRESHOLD_PERCENT,
      TOUCHPAD_HYSTERESIS_THRESHOLD_PERCENT, TOUCHPAD_BASELINE_RESET_THRESHOLD_PERCENT,
      TOUCHPAD_STATE_SWITCH_DEBOUNCE, TOUCHPAD_MEAS_PERIOD_MS,
      TOUCHPAD_BASELINE_RESET_COUNT_THRESHOLD, TOUCHPAD_BASELINE_UPDATE_COUNT_THRESHOLD,
      TOUCHPAD_TOUCH_LOW_SENSE_THRESHOLD, CONFIG_TOUCH_PAD_USE_CB_SERIAL, abs_of_pos]
    try norm_num
  have f4 : (touch_pad_read_cb_chan ({ example_dev with diff_rate := FVal.num (9 / 100), debounce_count := 3 } : tp_dev_t) 910 1000).1
      = { example_dev with diff_rate := FVal.num (9 / 100), state := TOUCHPAD_STATE_PUSH } := by
    simp [touch_pad_read_cb_chan, example_dev, iot_tp_create_dev, tp_dev_calloc,
      diff_rate_of, diff_data_of, toInt16, FVal.geQ, FVal.gtQ, FVal.leQ, FVal.absLeQ,
      FVal.absLtQ, TOUCHPAD_TOUCH_THRESHOLD_PERCENT, TOUCHPAD_NOISE_THRESHOLD_PERCENT,
      TOUCHPAD_HYSTERESIS_THRESHOLD_PERCENT, TOUCHPAD_BASELINE_RESET_THRESHOLD_PERCENT,
      TOUCHPAD_STATE_SWITCH_DEBOUNCE, TOUCHPAD_MEAS_PERIOD_MS,
      TOUCHPAD_BASELINE_RESET_COUNT_THRESHOLD, TOUCHPAD_BASELINE_UPDATE_COUNT_THRESHOLD,
      TOUCHPAD_TOUCH_LOW_SENSE_THRESHOLD, CONFIG_TOUCH_PAD_USE_CB_SERIAL, abs_of_pos]
    try norm_num
  have f5 : (touch_pad_read_cb_chan ({ example_dev with diff_rate := FVal.num (9 / 100), state := TOUCHPAD_STATE_PUSH } : tp_dev_t) 1000 1000).1
      = { example_dev with diff_rate := FVal.num 0, state := TOUCHPAD_STATE_RELEASE } := by
    simp [touch_pad_read_cb_chan, example_dev, iot_tp_create_dev, tp_dev_calloc,
      diff_rate_of, diff_data_of, toInt16, FVal.geQ, FVal.gtQ, FVal.leQ, FVal.absLeQ,
      FVal.absLtQ, TOUCHPAD_TOUCH_THRESHOLD_PERCENT, TOUCHPAD_NOISE_THRESHOLD_PERCENT,
      TOUCHPAD_HYSTERESIS_THRESHOLD_PERCENT, TOUCHPAD_BASELINE_RESET_THRESHOLD_PERCENT,
      TOUCHPAD_STATE_SWITCH_DEBOUNCE, TOUCHPAD_MEAS_PERIOD_MS,
      TOUCHPAD_BASELINE_RESET_COUNT_THRESHOLD, TOUCHPAD_BASELINE_UPDATE_COUNT_THRESHOLD,
      TOUCHPAD_TOUCH_LOW_SENSE_THRESHOLD, CONFIG_TOUCH_PAD_USE_CB_SERIAL, abs_of_pos]
    try norm_num
  have f6 : (touch_pad_read_cb_chan ({ example_dev with diff_rate := FVal.num 0, state := TOUCHPAD_STATE_RELEASE } : tp_dev_t) 1000 1000).1
      = { example_dev with diff_rate := FVal.num 0, bl_update_count := 1 } := by
    simp [touch_pad_read_cb_chan, example_dev, iot_tp_create_dev, tp_dev_calloc,
      diff_rate_of, diff_data_of, toInt16, FVal.geQ, FVal.gtQ, FVal.leQ, FVal.absLeQ,
      FVal.absLtQ, TOUCHPAD_TOUCH_THRESHOLD_PERCENT, TOUCHPAD_NOISE_THRESHOLD_PERCENT,
      TOUCHPAD_HYSTERESIS_THRESHOLD_PERCENT, TOUCHPAD_BASELINE_RESET_THRESHOLD_PERCENT,
      TOUCHPAD_STATE_SWITCH_DEBOUNCE, TOUCHPAD_MEAS_PERIOD_MS,
      TOUCHPAD_BASELINE_RESET_COUNT_THRESHOLD, TOUCHPAD_BASELINE_UPDATE_COUNT_THRESHOLD,
      TOUCHPAD_TOUCH_LOW_SENSE_THRESHOLD, CONFIG_TOUCH_PAD_USE_CB_SERIAL, abs_of_pos]
    try norm_num
  have f7 : (touch_pad_read_cb_chan ({ example_dev with diff_rate := FVal.num 0, bl_update_count := 1 } : tp_dev_t) 1000 1000).1
      = { example_dev with diff_rate := FVal.num 0, bl_update_count := 2 } := by
    simp [touch_pad_read_cb_chan, example_dev, iot_tp_create_dev, tp_dev_calloc,
      diff_rate_of, diff_data_of, toInt16, FVal.geQ, FVal.gtQ, FVal.leQ, FVal.absLeQ,
      FVal.absLtQ, TOUCHPAD_TOUCH_THRESHOLD_PERCENT, TOUCHPAD_NOISE_THRESHOLD_PERCENT,
      TOUCHPAD_HYSTERESIS_THRESHOLD_PERCENT, TOUCHPAD_BASELINE_RESET_THRESHOLD_PERCENT,
      TOUCHPAD_STATE_SWITCH_DEBOUNCE, TOUCHPAD_MEAS_PERIOD_MS,
      TOUCHPAD_BASELINE_RESET_COUNT_THRESHOLD, TOUCHPAD_BASELINE_UPDATE_COUNT_THRESHOLD,
      TOUCHPAD_TOUCH_LOW_SENSE_THRESHOLD, CONFIG_TOUCH_PAD_USE_CB_SERIAL, abs_of_pos]
    try norm_num
  have f8 : (touch_pad_read_cb_chan ({ example_dev with diff_rate := FVal.num 0, bl_update_count := 2 } : tp_dev_t) 1000 1000).1
      = { example_dev with diff_rate := FVal.num 0, bl_update_count := 3 } := by
    simp [touch_pad_read_cb_chan, example_dev, iot_tp_create_dev, tp_dev_calloc,
      diff_rate_of, diff_data_of, toInt16, FVal.geQ, FVal.gtQ, FVal.leQ, FVal.absLeQ,
      FVal.absLtQ, TOUCHPAD_TOUCH_THRESHOLD_PERCENT, TOUCHPAD_NOISE_THRESHOLD_PERCENT,
      TOUCHPAD_HYSTERESIS_THRESHOLD_PERCENT, TOUCHPAD_BASELINE_RESET_THRESHOLD_PERCENT,
      TOUCHPAD_STATE_SWITCH_DEBOUNCE, TOUCHPAD_MEAS_PERIOD_MS,
      TOUCHPAD_BASELINE_RESET_COUNT_THRESHOLD, TOUCHPAD_BASELINE_UPDATE_COUNT_THRESHOLD,
      TOUCHPAD_TOUCH_LOW_SENSE_THRESHOLD, CONFIG_TOUCH_PAD_USE_CB_SERIAL, abs_of_pos]
    try norm_num
  exact rates_cons_eq f1 rfl (rates_cons_eq f2 rfl (rates_cons_eq f3 rfl (rates_cons_eq f4 rfl
    (rates_cons_eq f5 rfl (rates_cons_eq f6 rfl (rates_cons_eq f7 rfl
      (rates_cons_eq f8 rfl rfl)))))))

/-- Witness of C1: the example channel, four cycles at 0.09, four cycles at 0.00. -/
theorem C1_push_tap_release_witness :
    user_calls (chan_run example_dev
        [(910, 1000), (910, 1000), (910, 1000), (910, 1000),
         (1000, 1000), (1000, 1000), (1000, 1000), (1000, 1000)]).2
      = [Effect.callback TOUCHPAD_CB_PUSH ⟨1, 0⟩, Effect.callback TOUCHPAD_CB_TAP ⟨3, 0⟩,
         Effect.callback TOUCHPAD_CB_RELEASE ⟨2, 0⟩] :=
  C1_push_tap_release example_dev _ 4 4 ⟨1, 0⟩ ⟨3, 0⟩ ⟨2, 0⟩ example_dev_created rfl rfl rfl
    ⟨rfl, rfl, rfl⟩ rfl rfl rfl (by decide) (by decide) example_run_rates

/-! ### Matrix resolver -/

theorem scan_none_pushed (tps : List tp_dev_t) (mk : Nat → Int) (js : List Nat) :
    ∀ idx : Int, (∀ j ∈ js, ¬ pushed_at tps j) → matrix_scan tps mk js idx = some idx := by
  induction js with
  | nil => intro idx _; rfl
  | cons j js ih =>
    intro idx h
    have hj : ¬ pushed_at tps j := h j (List.mem_cons_self _ _)
    unfold pushed_at at hj
    simp only [matrix_scan, hj, if_false]
    exact ih idx (fun k hk => h k (List.mem_cons_of_mem _ hk))

theorem scan_pos_pushed (tps : List tp_dev_t) (mk : Nat → Int) (js : List Nat) :
    ∀ idx : Int, 0 ≤ idx → (∃ c ∈ js, pushed_at tps c) → matrix_scan tps mk js idx = none := by
  induction js with
  | nil => intro idx _ h; obtain ⟨c, hc, -⟩ := h; simp at hc
  | cons j js ih =>
    intro idx hidx h
    by_cases hj : pushed_at tps j
    · have hj2 := hj
      unfold pushed_at at hj2
      simp only [matrix_scan, hj2, if_true, not_lt.mpr hidx, if_false]
    · have hj2 := hj
      unfold pushed_at at hj2
      simp only [matrix_scan, hj2, if_false]
      obtain ⟨c, hc, hp⟩ := h
      rcases List.mem_cons.mp hc with rfl | hc2
      · exact absurd hp hj
      · exact ih idx hidx ⟨c, hc2, hp⟩

/-- Exactly one pushed channel `c` among the scanned indices: the scan ends with the
cell index of `c`. -/
theorem scan_one (tps : List tp_dev_t) (mk : Nat → Int) (c : Nat) (js : List Nat) :
    ∀ idx : Int, idx < 0 → js.Nodup → c ∈ js → pushed_at tps c →
      (∀ j ∈ js, j ≠ c → ¬ pushed_at tps j) →
      matrix_scan tps mk js idx = some (mk c) := by
  induction js with
  | nil => intro idx _ _ hc; simp at hc
  | cons j js ih =>
    intro idx hidx hnd hc hp hother
    obtain ⟨hnotin, hnd2⟩ := List.nodup_cons.mp hnd
    by_cases hjc : j = c
    · subst hjc
      have hp2 := hp
      unfold pushed_at at hp2
      simp only [matrix_scan, hp2, if_true, hidx]
      exact scan_none_pushed tps mk js (mk j)
        (fun k hk => hother k (List.mem_cons_of_mem _ hk) (fun h => hnotin (h ▸ hk)))
    · have hj : ¬ pushed_at tps j := hother j (List.mem_cons_self _ _) hjc
      unfold pushed_at at hj
      simp only [matrix_scan, hj, if_false]
      rcases List.mem_cons.mp hc with rfl | hc2
      · exact absurd rfl hjc
      · exact ih idx hidx hnd2 hc2 hp (fun k hk => hother k (List.mem_cons_of_mem _ hk))

/-- Two different pushed channels among the scanned indices: the scan returns early. -/
theorem scan_two (tps : List tp_dev_t) (mk : Nat → Int) (hmk : ∀ j, 0 ≤ mk j)
    (c1 c2 : Nat) (hne : c1 ≠ c2) (h1 : pushed_at tps c1) (h2 : pushed_at tps c2)
    (js : List Nat) :
    ∀ idx : Int, c1 ∈ js → c2 ∈ js → matrix_scan tps mk js idx = none := by
  induction js with
  | nil => intro idx hc; simp at hc
  | cons j js ih =>
    intro idx hc1 hc2
    by_cases hj : pushed_at tps j
    · have hj2 := hj
      unfold pushed_at at hj2
      simp only [matrix_scan, hj2, if_true]
      split_ifs with hidx
      · by_cases hjc : j = c1
        · subst hjc
          rcases List.mem_cons.mp hc2 with h | h
          · exact absurd h.symm hne
          · exact scan_pos_pushed tps mk js _ (hmk _) ⟨c2, h, h2⟩
        · rcases List.mem_cons.mp hc1 with h | h
          · exact absurd h.symm hjc
          · exact scan_pos_pushed tps mk js _ (hmk _) ⟨c1, h, h1⟩
      · rfl
    · have hj2 := hj
      unfold pushed_at at hj2
      simp only [matrix_scan, hj2, if_false]
      have m1 : c1 ∈ js := by
        rcases List.mem_cons.mp hc1 with h | h
        · exact absurd (h ▸ h1) hj
        · exact h
      have m2 : c2 ∈ js := by
        rcases List.mem_cons.mp hc2 with h | h
        · exact absurd (h ▸ h2) hj
        · exact h
      exact ih idx m1 m2

theorem push_cb_active (m : tp_matrix_t) (arg : tp_matrix_arg_t)
    (h : m.active_state ≠ TOUCHPAD_STATE_IDLE) : tp_matrix_push_cb m arg = (m, []) := by
  simp [tp_matrix_push_cb, h]

/-- C5: when `tp_matrix_push_cb` runs for a row while two different column channels
are in state `Push`, or for a column while two different row channels are in state
`Push`, it returns the group unchanged (in particular `active_state` and
`active_idx`) and calls nothing; and so does any number of repetitions of it. -/
theorem C5_multi_touch_no_activation (m : tp_matrix_t) (arg : tp_matrix_arg_t) (c1 c2 n : Nat)
    (hne : c1 ≠ c2)
    (h : (arg.type = tp_matrix_type_t.TOUCHPAD_MATRIX_ROW ∧ c1 < m.y_num ∧ c2 < m.y_num
            ∧ pushed_at m.y_tps c1 ∧ pushed_at m.y_tps c2)
        ∨ (arg.type = tp_matrix_type_t.TOUCHPAD_MATRIX_COLUMN ∧ c1 < m.x_num ∧ c2 < m.x_num
            ∧ pushed_at m.x_tps c1 ∧ pushed_at m.x_tps c2)) :
    tp_matrix_push_cb m arg = (m, [])
      ∧ Nat.iterate (fun x => (tp_matrix_push_cb x arg).1) n m = m := by
  have key : tp_matrix_push_cb m arg = (m, []) := by
    by_cases hact : m.active_state ≠ TOUCHPAD_STATE_IDLE
    · exact push_cb_active m arg hact
    · rcases h with ⟨ht, l1, l2, p1, p2⟩ | ⟨ht, l1, l2, p1, p2⟩
      · have hs := scan_two m.y_tps
          (fun j => (arg.tp_idx : Int) * (m.y_num : Int) + (j : Int))
          (fun j => by positivity) c1 c2 hne p1 p2 (List.range m.y_num) (-1)
          (List.mem_range.mpr l1) (List.mem_range.mpr l2)
        simp only [tp_matrix_push_cb, hact, if_false, ht, hs]
      · have hs := scan_two m.x_tps
          (fun j => (j : Int) * (m.y_num : Int) + (arg.tp_idx : Int))
          (fun j => by positivity) c1 c2 hne p1 p2 (List.range m.x_num) (-1)
          (List.mem_range.mpr l1) (List.mem_range.mpr l2)
        simp only [tp_matrix_push_cb, hact, if_false, ht, hs]
  refine ⟨key, ?_⟩
  induction n with
  | zero => rfl
  | succ n ih => rw [Function.iterate_succ_apply, key]; exact ih

theorem cell_arith (r c y : Nat) (hc : c < y) :
    (0 : Int) ≤ (r : Int) * (y : Int) + (c : Int)
      ∧ (((r : Int) * (y : Int) + (c : Int)) / (y : Int)).toNat = r
      ∧ (((r : Int) * (y : Int) + (c : Int)) % (y : Int)).toNat = c
      ∧ (r * y + c < 256 → (((r : Int) * (y : Int) + (c : Int)) % 256).toNat = r * y + c) := by
  have e : (r : Int) * (y : Int) + (c : Int) = ((r * y + c : Nat) : Int) := by push_cast; ring
  have hy : 0 < y := by omega
  have hdiv : (r * y + c) / y = r := by
    rw [Nat.add_comm, Nat.add_mul_div_right _ _ hy, Nat.div_eq_of_lt hc, Nat.zero_add]
  have hmod : (r * y + c) % y = c := by
    rw [Nat.add_comm, Nat.add_mul_mod_self_right, Nat.mod_eq_of_lt hc]
  refine ⟨by rw [e]; exact Int.natCast_nonneg _, ?_, ?_, ?_⟩
  · rw [e, ← Int.natCast_div, Int.toNat_natCast, hdiv]
  · rw [e, ← Int.natCast_mod, Int.toNat_natCast, hmod]
  · intro hlt
    rw [e, show (256 : Int) = ((256 : Nat) : Int) from rfl, ← Int.natCast_mod, Int.toNat_natCast,
      Nat.mod_eq_of_lt hlt]

theorem cell_bound (max x_num y_num r c : Nat) (hmax : max ≤ 17) (hx : x_num < max)
    (hy : y_num < max) (hr : r < x_num) (hc : c < y_num) : r * y_num + c < 256 := by
  have h1 : r ≤ 15 := by omega
  have h2 : y_num ≤ 16 := by omega
  have h3 : r * y_num ≤ 15 * 16 := Nat.mul_le_mul h1 h2
  omega

/-- The scan result when exactly one channel of the scanned axis is pushed: for a row
argument `r` the one pushed column `c`, for a column argument `c` the one pushed
row `r`; in both cases the cell index `r * y_num + c`. -/
theorem push_scan_one (m : tp_matrix_t) (arg : tp_matrix_arg_t) (r c : Nat)
    (hr : r < m.x_num) (hc : c < m.y_num)
    (hcase : (arg = ⟨r, tp_matrix_type_t.TOUCHPAD_MATRIX_ROW⟩ ∧ pushed_at m.y_tps c
              ∧ ∀ j, j < m.y_num → j ≠ c → ¬ pushed_at m.y_tps j)
          ∨ (arg = ⟨c, tp_matrix_type_t.TOUCHPAD_MATRIX_COLUMN⟩ ∧ pushed_at m.x_tps r
              ∧ ∀ j, j < m.x_num → j ≠ r → ¬ pushed_at m.x_tps j))
    (hidle : m.active_state = TOUCHPAD_STATE_IDLE) :
    tp_matrix_push_cb m arg
      = ({ m with active_state := TOUCHPAD_STATE_PUSH
                  active_idx := ((((r : Int) * (m.y_num : Int) + (c : Int)) % 256).toNat) },
         (match m.cb_group TOUCHPAD_CB_PUSH with
          | some cb_info =>
            [MatrixEffect.callback TOUCHPAD_CB_PUSH cb_info
              (((r : Int) * (m.y_num : Int) + (c : Int)) / (m.y_num : Int)).toNat
              (((r : Int) * (m.y_num : Int) + (c : Int)) % (m.y_num : Int)).toNat]
          | none => [])
         ++ matrix_reset_cb_tmrs m
         ++ (match m.serial_tmr with
             | some tmr => [MatrixEffect.tmr_change_period tmr (m.serial_thres_sec * 1000 % 2 ^ 32)]
             | none => [])) := by
  have hpos := (cell_arith r c m.y_num hc).1
  rcases hcase with ⟨rfl, hp, ho⟩ | ⟨rfl, hp, ho⟩
  · have hs := scan_one m.y_tps (fun j => (r : Int) * (m.y_num : Int) + (j : Int)) c
      (List.range m.y_num) (-1) (by decide) (List.nodup_range _) (List.mem_range.mpr hc) hp
      (fun j hj => ho j (List.mem_range.mp hj))
    simp only [tp_matrix_push_cb, hidle, ne_eq, not_true_eq_false, if_false, hs, hpos, if_true,
      matrix_reset_cb_tmrs, CONFIG_TOUCH_PAD_USE_CB_CUSTOM, CONFIG_TOUCH_PAD_USE_CB_SERIAL,
      USE_ESP_TIMER, Bool.false_eq_true]
  · have hs := scan_one m.x_tps (fun j => (j : Int) * (m.y_num : Int) + (c : Int)) r
      (List.range m.x_num) (-1) (by decide) (List.nodup_range _) (List.mem_range.mpr hr) hp
      (fun j hj => ho j (List.mem_range.mp hj))
    simp only [tp_matrix_push_cb, hidle, ne_eq, not_true_eq_false, if_false, hs, hpos, if_true,
      matrix_reset_cb_tmrs, CONFIG_TOUCH_PAD_USE_CB_CUSTOM, CONFIG_TOUCH_PAD_USE_CB_SERIAL,
      USE_ESP_TIMER, Bool.false_eq_true]

theorem matrix_calls_append (a b : List MatrixEffect) :
    matrix_calls (a ++ b) = matrix_calls a ++ matrix_calls b := by
  simp [matrix_calls]

theorem matrix_calls_reset (m : tp_matrix_t) : matrix_calls (matrix_reset_cb_tmrs m) = [] := by
  unfold matrix_calls matrix_reset_cb_tmrs
  rw [List.filter_eq_nil_iff]
  intro a ha
  obtain ⟨x, -, rfl⟩ := List.mem_map.mp ha
  simp

theorem matrix_calls_stop (m : tp_matrix_t) : matrix_calls (matrix_stop_cb_tmrs m) = [] := by
  unfold matrix_calls matrix_stop_cb_tmrs
  rw [List.filter_eq_nil_iff]
  intro a ha
  obtain ⟨x, -, rfl⟩ := List.mem_map.mp ha
  simp

/-- A group as `iot_tp_matrix_create` makes it, no cell active, exactly one channel of
the scanned axis pushed: the cell becomes active and the Push handler is run with it. -/
theorem push_activates (max : Nat) (m : tp_matrix_t) (arg : tp_matrix_arg_t) (r c : Nat)
    (hmax : max ≤ 17) (hwf : MatrixWF max m)
    (hr : r < m.x_num) (hc : c < m.y_num)
    (hcase : (arg = ⟨r, tp_matrix_type_t.TOUCHPAD_MATRIX_ROW⟩ ∧ pushed_at m.y_tps c
              ∧ ∀ j, j < m.y_num → j ≠ c → ¬ pushed_at m.y_tps j)
          ∨ (arg = ⟨c, tp_matrix_type_t.TOUCHPAD_MATRIX_COLUMN⟩ ∧ pushed_at m.x_tps r
              ∧ ∀ j, j < m.x_num → j ≠ r → ¬ pushed_at m.x_tps j))
    (hidle : m.active_state = TOUCHPAD_STATE_IDLE) :
    (tp_matrix_push_cb m arg).1
        = { m with active_state := TOUCHPAD_STATE_PUSH, active_idx := r * m.y_num + c }
      ∧ matrix_calls (tp_matrix_push_cb m arg).2
        = (match m.cb_group TOUCHPAD_CB_PUSH with
           | some cb_info => [MatrixEffect.callback TOUCHPAD_CB_PUSH cb_info r c]
           | none => []) := by
  obtain ⟨-, a2, a3, a4⟩ := cell_arith r c m.y_num hc
  obtain ⟨-, w2, -, w4, -, -⟩ := hwf
  have hb := a4 (cell_bound max m.x_num m.y_num r c hmax w2 w4 hr hc)
  rw [push_scan_one m arg r c hr hc hcase hidle, a2, a3, hb]
  refine ⟨rfl, ?_⟩
  simp only [matrix_calls_append, matrix_calls_reset, List.append_nil]
  cases m.cb_group TOUCHPAD_CB_PUSH <;> cases m.serial_tmr <;> simp [matrix_calls]

/-- C4: for a matrix group as `iot_tp_matrix_create` makes it (dimensions nonzero and
below `TOUCH_PAD_MAX`, itself at most 17 so that every cell index fits the 8-bit
`active_idx`) with no active cell and a Push handler registered: when
`tp_matrix_push_cb` runs for row `r` and exactly one column channel `c` is in state
`Push`, or runs for column `c` and exactly one row channel `r` is in state `Push`,
then `active_state` becomes `Push`, `active_idx` becomes `r * y_num + c` and the
calls into user code are exactly one call of the Push handler with `(r, c)`. -/
theorem C4_single_push_activates (max : Nat) (m : tp_matrix_t) (arg : tp_matrix_arg_t)
    (r c : Nat) (h : tp_matrix_cb_t)
    (hmax : max ≤ 17) (hwf : MatrixWF max m)
    (hidle : m.active_state = TOUCHPAD_STATE_IDLE)
    (hcb : m.cb_group TOUCHPAD_CB_PUSH = some h)
    (hr : r < m.x_num) (hc : c < m.y_num)
    (hcase : (arg = ⟨r, tp_matrix_type_t.TOUCHPAD_MATRIX_ROW⟩ ∧ pushed_at m.y_tps c
              ∧ ∀ j, j < m.y_num → j ≠ c → ¬ pushed_at m.y_tps j)
          ∨ (arg = ⟨c, tp_matrix_type_t.TOUCHPAD_MATRIX_COLUMN⟩ ∧ pushed_at m.x_tps r
              ∧ ∀ j, j < m.x_num → j ≠ r → ¬ pushed_at m.x_tps j)) :
    (tp_matrix_push_cb m arg).1.active_state = TOUCHPAD_STATE_PUSH
      ∧ (tp_matrix_push_cb m arg).1.active_idx = r * m.y_num + c
      ∧ matrix_calls (tp_matrix_push_cb m arg).2
        = [MatrixEffect.callback TOUCHPAD_CB_PUSH h r c] := by
  obtain ⟨p1, p2⟩ := push_activates max m arg r c hmax hwf hr hc hcase hidle
  refine ⟨by rw [p1], by rw [p1], ?_⟩
  rw [p2, hcb]

/-- C6: for a matrix group with an active cell (`active_state` is `Push` or `Press`),
`tp_matrix_push_cb` for any row or column returns the group unchanged and calls
nothing; the tap handler and the two timer handlers leave `active_idx` alone and
never put `active_state` back to `Idle`, so that only `tp_matrix_release_cb` does;
and whenever `tp_matrix_push_cb` changes a group or calls anything, that group had
`active_state = Idle`. -/
theorem C6_active_cell_refuses_push (m : tp_matrix_t) (arg : tp_matrix_arg_t)
    (cus : tp_matrix_cus_cb_t)
    (hact : m.active_state = TOUCHPAD_STATE_PUSH ∨ m.active_state = TOUCHPAD_STATE_PRESS) :
    tp_matrix_push_cb m arg = (m, [])
      ∧ (tp_matrix_tap_cb m arg).1 = m
      ∧ ((tp_matrix_cus_tmr_cb m cus).1.active_state = TOUCHPAD_STATE_PRESS
          ∧ (tp_matrix_cus_tmr_cb m cus).1.active_idx = m.active_idx)
      ∧ ((tp_matrix_serial_trigger_cb m).1.active_state = TOUCHPAD_STATE_PRESS
          ∧ (tp_matrix_serial_trigger_cb m).1.active_idx = m.active_idx)
      ∧ (∀ (m0 : tp_matrix_t) (arg0 : tp_matrix_arg_t),
          tp_matrix_push_cb m0 arg0 ≠ (m0, []) → m0.active_state = TOUCHPAD_STATE_IDLE) := by
  have hne : m.active_state ≠ TOUCHPAD_STATE_IDLE := by
    rcases hact with h | h <;> simp [h]
  refine ⟨push_cb_active m arg hne, ?_, ?_, ?_, ?_⟩
  · unfold tp_matrix_tap_cb
    split_ifs <;> rfl
  · simp [tp_matrix_cus_tmr_cb, hne]
  · simp [tp_matrix_serial_trigger_cb, hne]
  · intro m0 arg0 h0
    by_contra hc
    exact h0 (push_cb_active m0 arg0 hc)

/-- C7: for a matrix group as `iot_tp_matrix_create` makes it (dimensions nonzero and
below `TOUCH_PAD_MAX`, itself at most 17) and a cell `(r, c)` with `r < x_num`,
`c < y_num` activated by `tp_matrix_push_cb` (from row `r` with column `c` the only
pushed column, or from column `c` with row `r` the only pushed row): in any later
state `m2` of the group that still stores that `active_idx` and is still active,
decoding `active_idx` by division and remainder by `y_num` gives back `r` and `c`,
and a row-originated `tp_matrix_release_cb` calls the Release handler with exactly
`(r, c)`. -/
theorem C7_release_reports_pushed_cell (max : Nat) (m m2 : tp_matrix_t)
    (arg arg2 : tp_matrix_arg_t) (r c : Nat) (hrel : tp_matrix_cb_t)
    (hmax : max ≤ 17) (hwf : MatrixWF max m)
    (hidle : m.active_state = TOUCHPAD_STATE_IDLE)
    (hcb : m.cb_group TOUCHPAD_CB_RELEASE = some hrel)
    (hr : r < m.x_num) (hc : c < m.y_num)
    (hcase : (arg = ⟨r, tp_matrix_type_t.TOUCHPAD_MATRIX_ROW⟩ ∧ pushed_at m.y_tps c
              ∧ ∀ j, j < m.y_num → j ≠ c → ¬ pushed_at m.y_tps j)
          ∨ (arg = ⟨c, tp_matrix_type_t.TOUCHPAD_MATRIX_COLUMN⟩ ∧ pushed_at m.x_tps r
              ∧ ∀ j, j < m.x_num → j ≠ r → ¬ pushed_at m.x_tps j))
    (h2idx : m2.active_idx = (tp_matrix_push_cb m arg).1.active_idx)
    (h2y : m2.y_num = m.y_num) (h2cb : m2.cb_group = m.cb_group)
    (h2act : m2.active_state ≠ TOUCHPAD_STATE_IDLE)
    (harg2 : arg2.type = tp_matrix_type_t.TOUCHPAD_MATRIX_ROW) :
    m2.active_idx / m2.y_num = r ∧ m2.active_idx % m2.y_num = c
      ∧ (tp_matrix_release_cb m2 arg2).1.active_state = TOUCHPAD_STATE_IDLE
      ∧ matrix_calls (tp_matrix_release_cb m2 arg2).2
        = [MatrixEffect.callback TOUCHPAD_CB_RELEASE hrel r c] := by
  obtain ⟨p1, -⟩ := push_activates max m arg r c hmax hwf hr hc hcase hidle
  have hidx : m2.active_idx = r * m.y_num + c := by rw [h2idx, p1]
  have hy : 0 < m.y_num := by omega
  have hdiv : m2.active_idx / m2.y_num = r := by
    rw [hidx, h2y, Nat.add_comm, Nat.add_mul_div_right _ _ hy, Nat.div_eq_of_lt hc, Nat.zero_add]
  have hmod : m2.active_idx % m2.y_num = c := by
    rw [hidx, h2y, Nat.add_comm, Nat.add_mul_mod_self_right, Nat.mod_eq_of_lt hc]
  refine ⟨hdiv, hmod, ?_, ?_⟩
  · simp [tp_matrix_release_cb, harg2, h2act]
  · simp only [tp_matrix_release_cb, harg2, ne_eq, not_true_eq_false, false_and, if_false, h2act,
      not_false_eq_true, if_true, h2cb, hcb, hdiv, hmod, matrix_calls_append, matrix_calls_stop,
      CONFIG_TOUCH_PAD_USE_CB_CUSTOM, CONFIG_TOUCH_PAD_USE_CB_SERIAL, List.append_nil]
    cases m2.serial_tmr <;> simp [matrix_calls]

theorem example_matrix_wf : MatrixWF 10 example_matrix := by
  simp [MatrixWF, example_matrix]

theorem example_matrix_case :
    ((⟨1, tp_matrix_type_t.TOUCHPAD_MATRIX_ROW⟩ : tp_matrix_arg_t)
        = ⟨1, tp_matrix_type_t.TOUCHPAD_MATRIX_ROW⟩ ∧ pushed_at example_matrix.y_tps 1
        ∧ ∀ j, j < example_matrix.y_num → j ≠ 1 → ¬ pushed_at example_matrix.y_tps j)
      ∨ ((⟨1, tp_matrix_type_t.TOUCHPAD_MATRIX_ROW⟩ : tp_matrix_arg_t)
        = ⟨1, tp_matrix_type_t.TOUCHPAD_MATRIX_COLUMN⟩ ∧ pushed_at example_matrix.x_tps 1
        ∧ ∀ j, j < example_matrix.x_num → j ≠ 1 → ¬ pushed_at example_matrix.x_tps j) := by
  refine Or.inl ⟨rfl, ?_, ?_⟩
  · simp [pushed_at, example_matrix, example_dev_pushed]
  · intro j hj hne
    have hj2 : j < 2 := hj
    have h0 : j = 0 := by omega
    subst h0
    simp [pushed_at, example_matrix, example_dev, iot_tp_create_dev]

/-- Witness of C4: row 1 of the example group is pushed while column 1 is the only
pushed column. -/
theorem C4_single_push_activates_witness :
    (tp_matrix_push_cb example_matrix ⟨1, tp_matrix_type_t.TOUCHPAD_MATRIX_ROW⟩).1.active_idx = 3
      ∧ matrix_calls
          (tp_matrix_push_cb example_matrix ⟨1, tp_matrix_type_t.TOUCHPAD_MATRIX_ROW⟩).2
        = [MatrixEffect.callback TOUCHPAD_CB_PUSH ⟨11, 7⟩ 1 1] :=
  let h := C4_single_push_activates 10 example_matrix
    ⟨1, tp_matrix_type_t.TOUCHPAD_MATRIX_ROW⟩ 1 1 ⟨11, 7⟩ (by decide) example_matrix_wf rfl rfl
    (by decide) (by decide) example_matrix_case
  ⟨h.2.1, h.2.2⟩

/-- Witness of C5: row 0 of the example group pushed while both columns are pushed,
three times over. -/
theorem C5_multi_touch_no_activation_witness :
    tp_matrix_push_cb example_matrix_multi ⟨0, tp_matrix_type_t.TOUCHPAD_MATRIX_ROW⟩
        = (example_matrix_multi, [])
      ∧ Nat.iterate
          (fun x => (tp_matrix_push_cb x ⟨0, tp_matrix_type_t.TOUCHPAD_MATRIX_ROW⟩).1) 3
          example_matrix_multi = example_matrix_multi :=
  C5_multi_touch_no_activation example_matrix_multi
    ⟨0, tp_matrix_type_t.TOUCHPAD_MATRIX_ROW⟩ 0 1 3 (by decide)
    (Or.inl ⟨rfl, by decide, by decide,
      by simp [pushed_at, example_matrix_multi, example_dev_pushed],
      by simp [pushed_at, example_matrix_multi, example_dev_pushed]⟩)

/-- Witness of C6: the example group with cell (1, 1) active refuses the push of row 0. -/
theorem C6_active_cell_refuses_push_witness :
    tp_matrix_push_cb example_matrix_active ⟨0, tp_matrix_type_t.TOUCHPAD_MATRIX_ROW⟩
      = (example_matrix_active, []) :=
  (C6_active_cell_refuses_push example_matrix_active
    ⟨0, tp_matrix_type_t.TOUCHPAD_MATRIX_ROW⟩ ⟨0, 0, 0, none⟩ (Or.inl rfl)).1

/-- Witness of C7: cell (1, 1) of the example group is activated from row 1 and
released from row 0. -/
theorem C7_release_reports_pushed_cell_witness :
    matrix_calls (tp_matrix_release_cb
        (tp_matrix_push_cb example_matrix ⟨1, tp_matrix_type_t.TOUCHPAD_MATRIX_ROW⟩).1
        ⟨0, tp_matrix_type_t.TOUCHPAD_MATRIX_ROW⟩).2
      = [MatrixEffect.callback TOUCHPAD_CB_RELEASE ⟨12, 7⟩ 1 1] :=
  (C7_release_reports_pushed_cell 10 example_matrix
    (tp_matrix_push_cb example_matrix ⟨1, tp_matrix_type_t.TOUCHPAD_MATRIX_ROW⟩).1
    ⟨1, tp_matrix_type_t.TOUCHPAD_MATRIX_ROW⟩ ⟨0, tp_matrix_type_t.TOUCHPAD_MATRIX_ROW⟩ 1 1
    ⟨12, 7⟩ (by decide) example_matrix_wf rfl rfl (by decide) (by decide) example_matrix_case
    rfl
    (by rw [(push_activates 10 example_matrix _ 1 1 (by decide) example_matrix_wf (by decide)
      (by decide) example_matrix_case rfl).1])
    (by rw [(push_activates 10 example_matrix _ 1 1 (by decide) example_matrix_wf (by decide)
      (by decide) example_matrix_case rfl).1])
    (by rw [(push_activates 10 example_matrix _ 1 1 (by decide) example_matrix_wf (by decide)
      (by decide) example_matrix_case rfl).1]; simp)
    rfl).2.2.2

/-- C8 (the code at the failing input): in the example group with cell (1, 1) active
(`active_idx = 3`, `y_num = 2`), the release handler called for column 1 passes the
guard of lines 1127-1128, because the column index 1 equals the active row index
`3 / 2 = 1`: the cell is cleared and the Release handler is called with `(1, 1)`.
Called for column 0 it returns at the guard. -/
theorem C8_column_release_clears_cell :
    example_matrix_active.active_state = TOUCHPAD_STATE_PUSH
      ∧ (tp_matrix_release_cb example_matrix_active
          ⟨1, tp_matrix_type_t.TOUCHPAD_MATRIX_COLUMN⟩).1.active_state = TOUCHPAD_STATE_IDLE
      ∧ matrix_calls (tp_matrix_release_cb example_matrix_active
          ⟨1, tp_matrix_type_t.TOUCHPAD_MATRIX_COLUMN⟩).2
        = [MatrixEffect.callback TOUCHPAD_CB_RELEASE ⟨12, 7⟩ 1 1]
      ∧ tp_matrix_release_cb example_matrix_active
          ⟨0, tp_matrix_type_t.TOUCHPAD_MATRIX_COLUMN⟩ = (example_matrix_active, []) := by
  refine ⟨rfl, ?_, ?_, ?_⟩ <;>
    simp [tp_matrix_release_cb, example_matrix_active, example_matrix, matrix_calls,
      matrix_stop_cb_tmrs, CONFIG_TOUCH_PAD_USE_CB_CUSTOM, CONFIG_TOUCH_PAD_USE_CB_SERIAL]

/-! ### Slider -/

theorem scan_inv (cv : List ℚ) (k : Nat) :
    ScanInv cv k ((List.range k).foldl (slide_scan_step cv) ⟨0, 0, 0⟩) := by
  induction k with
  | zero =>
    refine ⟨fun i _ hi => absurd hi (Nat.not_lt_zero i), Or.inl ⟨rfl, rfl, rfl⟩⟩
  | succ k ih =>
    rw [List.range_succ, List.foldl_append]
    generalize (List.range k).foldl (slide_scan_step cv) ⟨0, 0, 0⟩ = st at ih
    obtain ⟨hmax, hsel⟩ := ih
    have hnn : 0 ≤ st.val_sum := by
      rcases hsel with ⟨h, -, -⟩ | ⟨h, -⟩
      · exact le_of_eq h.symm
      · exact le_of_lt h
    simp only [List.foldl_cons, List.foldl_nil, slide_scan_step]
    by_cases hk : 2 ≤ k
    · by_cases hgt : neb_sum cv k > st.val_sum
      · simp only [hk, hgt, if_true]
        refine ⟨?_, Or.inr ⟨lt_of_le_of_lt hnn hgt, by show 1 ≤ k - 1; omega,
          by show k - 1 + 1 < k + 1; omega, ?_, ?_, ?_⟩⟩
        · intro i hi hik
          rcases Nat.lt_succ_iff_lt_or_eq.mp hik with h | h
          · exact le_trans (hmax i hi h) (le_of_lt hgt)
          · rw [h]
        · simp only [show k - 1 + 1 = k by omega]
        · simp only [show k - 1 + 1 = k by omega]
        · intro i hi hik
          simp only [show k - 1 + 1 = k by omega] at hik
          exact lt_of_le_of_lt (hmax i hi hik) hgt
      · simp only [hk, hgt, if_true, if_false]
        refine ⟨?_, ?_⟩
        · intro i hi hik
          rcases Nat.lt_succ_iff_lt_or_eq.mp hik with h | h
          · exact hmax i hi h
          · rw [h]; exact not_lt.mp hgt
        · rcases hsel with h | ⟨h1, h2, h3, h4, h5, h6⟩
          · exact Or.inl h
          · exact Or.inr ⟨h1, h2, by omega, h4, h5, h6⟩
    · simp only [hk, if_false]
      refine ⟨fun i hi hik => by omega, ?_⟩
      rcases hsel with h | ⟨h1, h2, h3, h4, h5, h6⟩
      · exact Or.inl h
      · exact Or.inr ⟨h1, h2, by omega, h4, h5, h6⟩

theorem slide_scan_inv (cv : List ℚ) (n : Nat) : ScanInv cv n (slide_scan cv n) :=
  scan_inv cv n

theorem weight_sum_foldl_pos (hs : List tp_dev_t) :
    ∀ acc : ℚ, (∀ d ∈ hs, 0 < d.slide_trigger_thr) →
      acc ≤ hs.foldl (fun weight_sum tp_dev => weight_sum + tp_dev.slide_trigger_thr) acc
        ∧ (hs ≠ [] →
          acc < hs.foldl (fun weight_sum tp_dev => weight_sum + tp_dev.slide_trigger_thr) acc) := by
  induction hs with
  | nil => intro acc _; exact ⟨le_refl _, fun h => absurd rfl h⟩
  | cons d rest ih =>
    intro acc h
    have hd : 0 < d.slide_trigger_thr := h d (List.mem_cons_self _ _)
    obtain ⟨i1, -⟩ := ih (acc + d.slide_trigger_thr) (fun e he => h e (List.mem_cons_of_mem _ he))
    simp only [List.foldl_cons]
    exact ⟨by linarith, fun _ => by linarith⟩

theorem slide_weight_sum_pos (hs : List tp_dev_t) (hne : hs ≠ [])
    (hpos : ∀ d ∈ hs, 0 < d.slide_trigger_thr) : 0 < slide_weight_sum hs :=
  (weight_sum_foldl_pos hs 0 hpos).2 hne

theorem slide_excess_nonneg (d : tp_dev_t) : 0 ≤ slide_excess d := by
  unfold slide_excess
  split_ifs with h
  · exact le_refl _
  · exact not_lt.mp h

/-- The entry `i` of the normalised buffer, for a channel `d` at index `i`. -/
theorem calc_val_getD (hs : List tp_dev_t) (i : Nat) (d : tp_dev_t)
    (hd : hs.get? i = some d) :
    (slide_calc_val hs).getD i 0
      = slide_excess d * slide_weight_sum hs / d.slide_trigger_thr := by
  simp only [slide_calc_val, List.getD_eq_getElem?_getD, List.getElem?_map]
  rw [List.get?_eq_getElem?] at hd
  rw [hd]
  rfl

theorem calc_val_getD_none (hs : List tp_dev_t) (i : Nat) (hd : hs.get? i = none) :
    (slide_calc_val hs).getD i 0 = 0 := by
  simp only [slide_calc_val, List.getD_eq_getElem?_getD, List.getElem?_map]
  rw [List.get?_eq_getElem?] at hd
  rw [hd]
  rfl

theorem calc_val_nonneg (hs : List tp_dev_t) (hpos : ∀ d ∈ hs, 0 < d.slide_trigger_thr)
    (i : Nat) : 0 ≤ (slide_calc_val hs).getD i 0 := by
  cases hd : hs.get? i with
  | none => rw [calc_val_getD_none hs i hd]
  | some d =>
    rw [calc_val_getD hs i d hd]
    have hmem : d ∈ hs := List.get?_mem hd
    have hw : 0 < slide_weight_sum hs :=
      slide_weight_sum_pos hs (List.ne_nil_of_mem hmem) hpos
    exact div_nonneg (mul_nonneg (slide_excess_nonneg d) (le_of_lt hw)) (le_of_lt (hpos d hmem))

theorem float_to_uint32_nonneg (q : ℚ) (h0 : 0 ≤ q) (h1 : q < 2 ^ 32) :
    float_to_uint32 q = some (Int.toNat ⌊q⌋) := by
  unfold float_to_uint32
  rw [if_pos ⟨by linarith, h1⟩]

theorem example_two_modelled : slide_modelled example_slide_two = true := by
  simp [slide_modelled, example_slide_two, example_slide_dev]

theorem example_two_cv :
    slide_calc_val example_slide_two.tp_handles = [0, 3 / 50, 1 / 25] := by
  norm_num [slide_calc_val, slide_weight_sum, slide_excess, FVal.toQ, example_slide_two,
    example_slide_dev]

theorem example_two_scan :
    slide_scan [0, 3 / 50, 1 / 25] 3 = ⟨1 / 10, 1, 2⟩ := by
  norm_num [slide_scan, List.range_succ, slide_scan_step, neb_sum, window_non0]

/-! ### Filter -/

theorem filter_iir_eq (in_now out_last k : Nat) :
    touch_filter_iir in_now out_last k
      = if k = 0 then in_now else ((in_now + (k - 1) * out_last) % 2 ^ 32) / k := by
  unfold touch_filter_iir
  split_ifs
  · rfl
  · rw [Nat.add_mod_mod]

theorem slider_filter_iir_eq (in_now out_last k : Nat) :
    _slider_filter_iir in_now out_last k
      = if k = 0 then in_now else ((in_now + (k - 1) * out_last) % 2 ^ 32) / k := by
  unfold _slider_filter_iir
  split_ifs
  · rfl
  · rw [Nat.add_mod_mod]

/-- C12: `touch_filter_iir`, and likewise `_slider_filter_iir`, returns `in_now` when
`k = 0` and otherwise the integer quotient
`((in_now + (k − 1)·out_last) mod 2^32) / k`, for all arguments (in particular for all
32-bit unsigned ones). -/
theorem C12_filter_iir_value (in_now out_last k : Nat) :
    (touch_filter_iir in_now out_last k
        = if k = 0 then in_now else ((in_now + (k - 1) * out_last) % 2 ^ 32) / k)
      ∧ (_slider_filter_iir in_now out_last k
        = if k = 0 then in_now else ((in_now + (k - 1) * out_last) % 2 ^ 32) / k)
      ∧ touch_filter_iir in_now out_last 0 = in_now
      ∧ _slider_filter_iir in_now out_last 0 = in_now :=
  ⟨filter_iir_eq _ _ _, slider_filter_iir_eq _ _ _, by simp [touch_filter_iir],
    by simp [_slider_filter_iir]⟩

/-- The filter step on a state within the 20-bit range of a shifted 16-bit sample:
no wrap occurs, and a zero state is seeded with the shifted sample. -/
theorem filter_step_val (x f : Nat) (hx : x < 65536) (hf : f ≤ 65535 * 16) :
    (Thread_filter_chan x f).1 = (if f = 0 then 16 * x else (16 * x + 3 * f) / 4)
      ∧ (Thread_filter_chan x f).2 = ((Thread_filter_chan x f).1 + 8) / 16 % 65536
      ∧ (Thread_filter_chan x f).1 ≤ 65535 * 16 := by
  have key : (Thread_filter_chan x f).1 = (if f = 0 then 16 * x else (16 * x + 3 * f) / 4) := by
    unfold Thread_filter_chan
    simp only [filter_iir_eq, TOUCHPAD_SHIFT_DEFAULT, TOUCHPAD_FILTER_FACTOR_DEFAULT]
    have m1 : x * 2 ^ 4 % 2 ^ 32 = 16 * x := by
      rw [Nat.mod_eq_of_lt (by omega)]; omega
    rw [m1]
    simp only [show (4 : Nat) ≠ 0 by decide, if_false, show 4 - 1 = 3 from rfl]
    by_cases h0 : f = 0
    · simp only [h0, if_true]
      rw [Nat.mod_eq_of_lt (by omega)]; omega
    · simp only [h0, if_false]
      rw [Nat.mod_eq_of_lt (by omega)]
  have hle : (Thread_filter_chan x f).1 ≤ 65535 * 16 := by
    rw [key]; split_ifs <;> omega
  refine ⟨key, ?_, hle⟩
  generalize hg : (Thread_filter_chan x f).1 = g at hle
  have : (Thread_filter_chan x f).2 = ((g + 8) % 2 ^ 32) / 2 ^ 4 % 65536 := by
    rw [← hg]; rfl
  have hm : (g + 8) % 2 ^ 32 = g + 8 := Nat.mod_eq_of_lt (by omega)
  rw [this, hm]
  norm_num

/-- The states from which the exposed value is the input: `16x − 8 ≤ f ≤ 16x + 7`. -/
theorem filter_near_exposed (x f : Nat) (hx : x < 65536) (hf : f ≤ 65535 * 16)
    (h1 : 16 * x ≤ f + 8) (h2 : f ≤ 16 * x + 7) :
    (Thread_filter_chan x f).2 = x
      ∧ 16 * x ≤ (Thread_filter_chan x f).1 + 8 ∧ (Thread_filter_chan x f).1 ≤ 16 * x + 7 := by
  obtain ⟨e1, e2, -⟩ := filter_step_val x f hx hf
  have hg : 16 * x ≤ (Thread_filter_chan x f).1 + 8 ∧ (Thread_filter_chan x f).1 ≤ 16 * x + 7 := by
    rw [e1]; split_ifs with h0 <;> omega
  refine ⟨?_, hg⟩
  rw [e2]
  generalize (Thread_filter_chan x f).1 = g at hg
  omega

/-- From any state in range, some number of cycles with the constant input `x` leads
into the band `16x − 8 ≤ f ≤ 16x + 7`. -/
theorem filter_reaches (x : Nat) (hx : x < 65536) :
    ∀ (k f : Nat), f ≤ 65535 * 16 → (if f ≤ 16 * x then 16 * x - f else f - 16 * x) ≤ k →
      ∃ N, Thread_filter_run x N f ≤ 65535 * 16
        ∧ 16 * x ≤ Thread_filter_run x N f + 8 ∧ Thread_filter_run x N f ≤ 16 * x + 7 := by
  intro k
  induction k with
  | zero =>
    intro f hf hk
    refine ⟨0, hf, ?_, ?_⟩ <;> (simp only [Thread_filter_run, Function.iterate_zero, id_eq]; split_ifs at hk <;> omega)
  | succ k ih =>
    intro f hf hk
    by_cases hnear : 16 * x ≤ f + 8 ∧ f ≤ 16 * x + 7
    · exact ⟨0, hf, hnear.1, hnear.2⟩
    · obtain ⟨e1, -, e3⟩ := filter_step_val x f hx hf
      have hdist : (if (Thread_filter_chan x f).1 ≤ 16 * x then 16 * x - (Thread_filter_chan x f).1
          else (Thread_filter_chan x f).1 - 16 * x) ≤ k := by
        rw [e1]
        split_ifs at hk ⊢ <;> omega
      obtain ⟨N, n1, n2, n3⟩ := ih (Thread_filter_chan x f).1 e3 hdist
      refine ⟨N + 1, ?_, ?_, ?_⟩ <;>
        (simp only [Thread_filter_run, Function.iterate_succ_apply] at n1 n2 n3 ⊢; assumption)

/-- Once in the band, the state stays there and the exposed value is `x`. -/
theorem filter_stays (x : Nat) (hx : x < 65536) :
    ∀ (n f : Nat), f ≤ 65535 * 16 → 16 * x ≤ f + 8 → f ≤ 16 * x + 7 →
      Thread_filter_run x n f ≤ 65535 * 16
        ∧ 16 * x ≤ Thread_filter_run x n f + 8 ∧ Thread_filter_run x n f ≤ 16 * x + 7 := by
  intro n
  induction n with
  | zero => intro f hf h1 h2; exact ⟨hf, h1, h2⟩
  | succ n ih =>
    intro f hf h1 h2
    obtain ⟨-, a2, a3⟩ := filter_near_exposed x f hx hf h1 h2
    obtain ⟨-, -, e3⟩ := filter_step_val x f hx hf
    have := ih (Thread_filter_chan x f).1 e3 a2 a3
    simpa only [Thread_filter_run, Function.iterate_succ_apply] using this

theorem filter_run_add (x m n f : Nat) :
    Thread_filter_run x (m + n) f = Thread_filter_run x m (Thread_filter_run x n f) := by
  simp only [Thread_filter_run, Function.iterate_add_apply]

/-- C13: for every 16-bit raw value `x` and every prior filter state `f ≤ 65535·16`,
there is a number `N` of cycles of the filter step of `Thread` with the constant
input `x` after which the exposed filtered value (the one computed in the next
cycle, and in every later one) equals `x`. -/
theorem C13_filter_converges (x f : Nat) (hx : x < 65536) (hf : f ≤ 65535 * 16) :
    ∃ N, ∀ n, N ≤ n → (Thread_filter_chan x (Thread_filter_run x n f)).2 = x := by
  obtain ⟨N, n1, n2, n3⟩ := filter_reaches x hx
    (if f ≤ 16 * x then 16 * x - f else f - 16 * x) f hf (le_refl _)
  refine ⟨N, fun n hn => ?_⟩
  obtain ⟨m, rfl⟩ : ∃ m, n = m + N := ⟨n - N, by omega⟩
  rw [filter_run_add]
  obtain ⟨s1, s2, s3⟩ := filter_stays x hx m (Thread_filter_run x N f) n1 n2 n3
  exact (filter_near_exposed x _ hx s1 s2 s3).1

/-- Witness of C13: raw value 1000 and the filter state left by a long run at 65535. -/
theorem C13_filter_converges_witness :
    ∃ N, ∀ n, N ≤ n → (Thread_filter_chan 1000 (Thread_filter_run 1000 n (65535 * 16))).2 = 1000 :=
  C13_filter_converges 1000 (65535 * 16) (by decide) (by decide)

theorem scan_all_zero (cv : List ℚ) (h : ∀ i, cv.getD i 0 = 0) (n : Nat) :
    slide_scan cv n = ⟨0, 0, 0⟩ := by
  unfold slide_scan
  induction n with
  | zero => rfl
  | succ n ih =>
    rw [List.range_succ, List.foldl_append, ih]
    simp only [List.foldl_cons, List.foldl_nil, slide_scan_step, neb_sum, h]
    norm_num

theorem calc_val_zero (hs : List tp_dev_t)
    (hzero : ∀ d ∈ hs, d.diff_rate.toQ ≤ d.slide_trigger_thr) (i : Nat) :
    (slide_calc_val hs).getD i 0 = 0 := by
  cases hd : hs.get? i with
  | none => exact calc_val_getD_none hs i hd
  | some d =>
    rw [calc_val_getD hs i d hd]
    have h0 : slide_excess d = 0 := by
      have := hzero d (List.get?_mem hd)
      unfold slide_excess
      split_ifs with h
      · rfl
      · linarith
    rw [h0]
    simp

/-- With no channel above its slide trigger threshold the raw position is the
position the slider already reports. -/
theorem slide_pos_temp_quiet (s : tp_slide_t) (hmod : slide_modelled s = true)
    (hzero : ∀ d ∈ s.tp_handles, d.diff_rate.toQ ≤ d.slide_trigger_thr) :
    slide_pos_temp s = some s.slide_pos := by
  unfold slide_pos_temp
  rw [if_pos hmod, scan_all_zero _ (calc_val_zero s.tp_handles hzero)]
  simp [slide_resolve]

/-- Lines 380-382 when the raw position `p` equals the position that the smoothing
state `last` rounds to, or the state is still unseeded. -/
theorem smooth_fixed (p last : Nat)
    (hlast : (last = 0 ∧ p < 65536) ∨ (last < 2 ^ 30 ∧ (last + 8) / 16 = p)) :
    (((_slider_filter_iir ((p * 16) % 2 ^ 32)
        (if last = 0 then (p % 65536) * 16 else last) SLDER_POS_FILTER_FACTOR_DEFAULT) + 8)
        % 2 ^ 32) / 16 = p
      ∧ _slider_filter_iir ((p * 16) % 2 ^ 32)
        (if last = 0 then (p % 65536) * 16 else last) SLDER_POS_FILTER_FACTOR_DEFAULT < 2 ^ 30
      ∧ ((_slider_filter_iir ((p * 16) % 2 ^ 32)
        (if last = 0 then (p % 65536) * 16 else last) SLDER_POS_FILTER_FACTOR_DEFAULT) + 8) / 16
          = p := by
  rw [slider_filter_iir_eq]
  simp only [SLDER_POS_FILTER_FACTOR_DEFAULT, show (4 : Nat) ≠ 0 by decide, if_false,
    show 4 - 1 = 3 from rfl]
  rcases hlast with ⟨h0, hp⟩ | ⟨hl, hp⟩
  · subst h0
    simp only [if_true]
    norm_num
    omega
  · by_cases h0 : last = 0
    · subst h0
      have : p = 0 := by omega
      subst this
      simp
    · simp only [h0, if_false]
      norm_num at hl ⊢
      have h1 : p * 16 + 3 * last < 4294967296 := by omega
      rw [Nat.mod_eq_of_lt h1]
      have h2 : (p * 16 + 3 * last) / 4 + 8 < 4294967296 := by omega
      rw [Nat.mod_eq_of_lt h2]
      omega

/-- In exact arithmetic: when `tp_slide_pos_cb` runs on a slider with finite diff rates,
none of which exceeds its channel's `slide_trigger_thr` (all-zero excess vector),
and the smoothing state `slide_pos_last` is either still 0 (with `slide_pos` below
2^16) or rounds to the slider's position (`(slide_pos_last + 8) >> 4 = slide_pos`,
as after this slider's own previous call), then the call returns, `slide_pos` after
the call equals `slide_pos` before it, and the smoothing state again rounds to it. -/
theorem quiet_keeps_position (s : tp_slide_t) (slide_pos_last : Nat)
    (hmod : slide_modelled s = true)
    (hzero : ∀ d ∈ s.tp_handles, d.diff_rate.toQ ≤ d.slide_trigger_thr)
    (hlast : (slide_pos_last = 0 ∧ s.slide_pos < 65536)
      ∨ (slide_pos_last < 2 ^ 30 ∧ (slide_pos_last + 8) / 16 = s.slide_pos)) :
    ∃ s1 last1, tp_slide_pos_cb s slide_pos_last = some (s1, last1)
      ∧ s1.slide_pos = s.slide_pos
      ∧ last1 < 2 ^ 30 ∧ (last1 + 8) / 16 = s1.slide_pos := by
  obtain ⟨a1, a2, a3⟩ := smooth_fixed s.slide_pos slide_pos_last hlast
  unfold tp_slide_pos_cb
  rw [slide_pos_temp_quiet s hmod hzero]
  exact ⟨_, _, rfl, a1, a2, a3.trans a1.symm⟩

/-- An untouched channel and a cycle inside the noise band, the update count at its
threshold: the baseline becomes the filtered sample and the count restarts. -/
theorem step_quiet_update (d : tp_dev_t) (raw f : Nat) (hu : untouched d)
    (hq : (diff_rate_of d.baseline raw).absLeQ d.noise_thr = true)
    (hc : d.bl_update_count = d.bl_update_count_th) (hth : d.bl_update_count_th < 65535) :
    (touch_pad_read_cb_chan d raw f).1.baseline = f
      ∧ (touch_pad_read_cb_chan d raw f).1.bl_update_count = 0 := by
  have hu2 : d.state = TOUCHPAD_STATE_IDLE ∨ d.state = TOUCHPAD_STATE_RELEASE := hu
  have hm : (d.bl_update_count + 1) % 65536 = d.bl_update_count + 1 :=
    Nat.mod_eq_of_lt (by omega)
  unfold touch_pad_read_cb_chan
  simp only [hu2, hq, if_true, hm]
  rw [if_pos (by show d.bl_update_count + 1 > d.bl_update_count_th; omega)]
  exact ⟨rfl, rfl⟩

theorem foldl_fst_map {α β γ : Type} (step : List β × γ → α → List β × γ) (g : α → β)
    (h : ∀ acc x, (step acc x).1 = acc.1 ++ [g x]) (l : List α) :
    ∀ acc, (l.foldl step acc).1 = acc.1 ++ l.map g := by
  induction l with
  | nil => intro acc; simp
  | cons x rest ih =>
    intro acc
    rw [List.foldl_cons, ih, h]
    simp

/-- The table after a pass of `touch_pad_read_cb`: every registered channel has gone
through the loop body with its own samples, the empty slots stay empty. -/
theorem read_cb_table (t : List (Option tp_dev_t)) (raw filt : List Nat) :
    (touch_pad_read_cb t raw filt).1
      = (t.zip (raw.zip filt)).map
          (fun x => x.1.map (fun d => (touch_pad_read_cb_chan d x.2.1 x.2.2).1)) := by
  unfold touch_pad_read_cb
  simp only []
  rw [foldl_fst_map _ (fun x => x.1.map (fun d => (touch_pad_read_cb_chan d x.2.1 x.2.2).1))]
  · simp
  · intro acc x
    rcases x with ⟨_ | d, r, f⟩ <;> rfl

/-- Slot `i` of the table after a pass, for a table with a sample pair per slot. -/
theorem read_cb_slot (t : List (Option tp_dev_t)) (raw filt : List Nat) (i : Nat)
    (o : Option tp_dev_t) (r f : Nat)
    (ho : t[i]? = some o) (hr : raw[i]? = some r) (hf : filt[i]? = some f) :
    (touch_pad_read_cb t raw filt).1[i]?
      = some (o.map (fun d => (touch_pad_read_cb_chan d r f).1)) := by
  rw [read_cb_table, List.getElem?_map]
  have hz : (t.zip (raw.zip filt))[i]? = some (o, r, f) := by
    rw [List.getElem?_zip_eq_some]
    refine ⟨ho, ?_⟩
    rw [List.getElem?_zip_eq_some]
    exact ⟨hr, hf⟩
  rw [hz]
  rfl

/-- The state after one cycle is reached from the state before along an edge of
the machine. -/
theorem step_edge (d : tp_dev_t) (raw f : Nat) :
    cycle_edge d.state (touch_pad_read_cb_chan d raw f).1.state = true := by
  unfold touch_pad_read_cb_chan
  simp only []
  split_ifs with h1 <;> simp only [] <;>
    first
    | (rcases h1 with h1 | h1 <;> rw [h1] <;> rfl)
    | (cases hs : d.state <;> first | rfl | (rw [hs] at h1; simp at h1))

/-- C16: one per-cycle pass of `touch_pad_read_cb` moves the state of a channel only
along the machine's edges, for every channel record and every pair of samples:
from `Idle` or `Release` to `Idle` or `Push`, from `Push` to `Push`, `Press` or
`Release`, from `Press` to `Press` or `Release`; and so for every registered
channel of every table that is passed through `touch_pad_read_cb`. -/
theorem C16_state_moves_along_edges (d : tp_dev_t) (raw f : Nat) :
    (d.state = TOUCHPAD_STATE_IDLE ∨ d.state = TOUCHPAD_STATE_RELEASE →
        (touch_pad_read_cb_chan d raw f).1.state = TOUCHPAD_STATE_IDLE
          ∨ (touch_pad_read_cb_chan d raw f).1.state = TOUCHPAD_STATE_PUSH)
      ∧ (d.state = TOUCHPAD_STATE_PUSH →
        (touch_pad_read_cb_chan d raw f).1.state = TOUCHPAD_STATE_PUSH
          ∨ (touch_pad_read_cb_chan d raw f).1.state = TOUCHPAD_STATE_PRESS
          ∨ (touch_pad_read_cb_chan d raw f).1.state = TOUCHPAD_STATE_RELEASE)
      ∧ (d.state = TOUCHPAD_STATE_PRESS →
        (touch_pad_read_cb_chan d raw f).1.state = TOUCHPAD_STATE_PRESS
          ∨ (touch_pad_read_cb_chan d raw f).1.state = TOUCHPAD_STATE_RELEASE)
      ∧ cycle_edge d.state (touch_pad_read_cb_chan d raw f).1.state = true
      ∧ (∀ (t : List (Option tp_dev_t)) (raws filts : List Nat) (i : Nat),
          t[i]? = some (some d) → raws[i]? = some raw → filts[i]? = some f →
          ∃ e, (touch_pad_read_cb t raws filts).1[i]? = some (some e)
            ∧ cycle_edge d.state e.state = true) := by
  have h := step_edge d raw f
  refine ⟨?_, ?_, ?_, h, ?_⟩
  · intro hs
    rcases hs with hs | hs <;> rw [hs] at h <;>
      cases h2 : (touch_pad_read_cb_chan d raw f).1.state <;> simp_all [cycle_edge]
  · intro hs
    rw [hs] at h
    cases h2 : (touch_pad_read_cb_chan d raw f).1.state <;> simp_all [cycle_edge]
  · intro hs
    rw [hs] at h
    cases h2 : (touch_pad_read_cb_chan d raw f).1.state <;> simp_all [cycle_edge]
  · intro t raws filts i ht hr hf
    exact ⟨_, read_cb_slot t raws filts i (some d) raw f ht hr hf, h⟩

/-- Witness of C16: the pushed example channel in slot 3 of a table of four, with a
sample at its baseline, goes to `Release` (an edge from `Push`). -/
theorem C16_state_moves_along_edges_witness :
    ∃ e, (touch_pad_read_cb [none, none, none, some example_dev_pushed]
            [0, 0, 0, 1000] [0, 0, 0, 1000]).1[3]? = some (some e)
      ∧ cycle_edge example_dev_pushed.state e.state = true :=
  (C16_state_moves_along_edges example_dev_pushed 1000 1000).2.2.2.2
    [none, none, none, some example_dev_pushed] [0, 0, 0, 1000] [0, 0, 0, 1000] 3 rfl rfl rfl

theorem getD_none_iff (t : List (Option tp_dev_t)) (i : Nat) :
    (t.getD i none).isNone = true ↔ ¬ ∃ d, t[i]? = some (some d) := by
  rw [List.getD_eq_getElem?_getD]
  cases h : t[i]? with
  | none => simp
  | some o => cases o <;> simp

/-- The outcome of `iot_tp_create` once the one-time initialisation is through. -/
theorem create_eq (max : Nat) (env : tp_platform_t) (st : tp_driver_t) (id : Nat) (s : ℚ)
    (hinit : st.g_init_flag = true ∨ (env.task_ok = true ∧ env.mux_ok = true)) :
    iot_tp_create max env st id s
      = if id < max ∧ 0 < s ∧ (st.tp_group.getD id none).isNone = true then
          (some (iot_tp_create_dev id s (initial_value env id)),
           { g_init_flag := true
             tp_group := st.tp_group.set id
               (some (iot_tp_create_dev id s (initial_value env id))) })
        else (none, { st with g_init_flag := true }) := by
  have h1 : ¬ (st.g_init_flag = false ∧ env.task_ok = false) := by
    rcases hinit with h | ⟨h, -⟩ <;> simp [h]
  have h2 : ¬ (st.g_init_flag = false ∧ env.mux_ok = false) := by
    rcases hinit with h | ⟨-, h⟩ <;> simp [h]
  unfold iot_tp_create
  rw [if_neg h1, if_neg h2]
  simp only []
  by_cases c1 : id < max
  · by_cases c2 : 0 < s
    · cases c3 : st.tp_group.getD id none with
      | none => simp [c1, c2, c3]
      | some d => simp [c1, c2, c3]
    · simp [c1, c2]
  · simp [c1]

theorem create_dev_num (id : Nat) (s : ℚ) (v : Nat) :
    (iot_tp_create_dev id s v).touch_pad_num = id := rfl

theorem example_driver_free (i : Nat) : ¬ ∃ d, example_driver.tp_group[i]? = some (some d) := by
  rintro ⟨d, h⟩
  have h2 : (List.replicate 10 (none : Option tp_dev_t))[i]? = some (some d) := h
  rw [List.getElem?_replicate] at h2
  split_ifs at h2
  all_goals exact absurd h2 (by simp)

theorem custom_timers_deleted (l : List tp_custom_cb_t) (c : tp_custom_cb_t) (hc : c ∈ l) :
    Freed.delete_timer c.tmr ∈ l.foldr (fun c rest =>
      Freed.delete_timer c.tmr :: Freed.free_custom_cb { c with tmr := none } :: rest) [] := by
  induction l with
  | nil => exact absurd hc (List.not_mem_nil c)
  | cons x rest ih =>
    rw [List.foldr_cons]
    rcases List.mem_cons.mp hc with h | h
    · rw [h]; exact List.mem_cons_self _ _
    · exact List.mem_cons_of_mem _ (List.mem_cons_of_mem _ (ih h))

/-- What `iot_tp_delete` does for a handle that is not `NULL`. -/
theorem delete_some (st : tp_driver_t) (e : tp_dev_t) :
    (iot_tp_delete st (some e)).1 = esp_err_t.ESP_OK
      ∧ (iot_tp_delete st (some e)).2.1
          = { st with tp_group := st.tp_group.set e.touch_pad_num none }
      ∧ (iot_tp_delete st (some e)).2.2.1
          = some { e with cb_group := fun _ => none, custom_cbs := [], serial_tmr := none }
      ∧ (∀ t c, e.cb_group t = some c → Freed.free_cb t c ∈ (iot_tp_delete st (some e)).2.2.2)
      ∧ (∀ c ∈ e.custom_cbs, Freed.delete_timer c.tmr ∈ (iot_tp_delete st (some e)).2.2.2)
      ∧ (∀ tmr, e.serial_tmr = some tmr →
          Freed.delete_timer (some tmr) ∈ (iot_tp_delete st (some e)).2.2.2)
      ∧ Freed.free_dev e.touch_pad_num ∈ (iot_tp_delete st (some e)).2.2.2 := by
  refine ⟨rfl, rfl, rfl, ?_, ?_, ?_, ?_⟩
  · intro t c h
    simp only [iot_tp_delete, List.mem_append]
    refine Or.inl (Or.inl (Or.inl ?_))
    rw [List.mem_filterMap]
    refine ⟨t, ?_, by rw [h]; rfl⟩
    cases t <;> simp
  · intro c hc
    simp only [iot_tp_delete, List.mem_append, CONFIG_TOUCH_PAD_USE_CB_CUSTOM, if_true]
    exact Or.inl (Or.inl (Or.inr (custom_timers_deleted e.custom_cbs c hc)))
  · intro tmr h
    simp only [iot_tp_delete, List.mem_append, CONFIG_TOUCH_PAD_USE_CB_CUSTOM,
      CONFIG_TOUCH_PAD_USE_CB_SERIAL, if_true, h]
    exact Or.inl (Or.inr (List.mem_singleton.mpr rfl))
  · simp only [iot_tp_delete, List.mem_append]
    exact Or.inr (List.mem_singleton.mpr rfl)

theorem cleared_free (t : List (Option tp_dev_t)) (i : Nat) :
    ((t.set i none).getD i none).isNone = true := by
  rw [getD_none_iff]
  rintro ⟨d, h⟩
  rw [List.getElem?_set_self'] at h
  cases ht : t[i]? with
  | none => rw [ht] at h; simp at h
  | some o => rw [ht] at h; simp at h

/-- C19: for every pad number below `TOUCH_PAD_MAX` whose slot is empty and every
positive sensitivity, once the one-time initialisation is through: `iot_tp_create`
returns a channel and puts it in the slot of the pad number; and when
`iot_tp_delete` is later called on that handle (the channel record `e` of that pad
number, in whatever state its registrations have left it), it returns `ESP_OK`,
the slot is empty and the other slots are untouched, the record is freed with no
callback entry, no custom callback and no repeat timer left, every callback entry
was freed and every custom timer and the repeat timer went through
`delete_timer`, and a following `iot_tp_create` for the same pad number with a
positive sensitivity returns a channel again. -/
theorem C19_create_delete_create (max : Nat) (env : tp_platform_t) (st : tp_driver_t)
    (id : Nat) (s : ℚ)
    (hinit : st.g_init_flag = true ∨ (env.task_ok = true ∧ env.mux_ok = true))
    (hid : id < max) (hs : 0 < s) (hlen : st.tp_group.length = max)
    (hfree : ¬ ∃ d, st.tp_group[id]? = some (some d)) :
    ∃ d, (iot_tp_create max env st id s).1 = some d
      ∧ (iot_tp_create max env st id s).2.tp_group[id]? = some (some d)
      ∧ (iot_tp_create max env st id s).2.g_init_flag = true
      ∧ ∀ (e : tp_dev_t) (st2 : tp_driver_t), e.touch_pad_num = id →
          st2.g_init_flag = true →
          (iot_tp_delete st2 (some e)).1 = esp_err_t.ESP_OK
            ∧ (¬ ∃ d2, (iot_tp_delete st2 (some e)).2.1.tp_group[id]? = some (some d2))
            ∧ (∀ j, j ≠ id →
                (iot_tp_delete st2 (some e)).2.1.tp_group[j]? = st2.tp_group[j]?)
            ∧ (∃ f, (iot_tp_delete st2 (some e)).2.2.1 = some f
                ∧ (∀ t, f.cb_group t = none) ∧ f.custom_cbs = [] ∧ f.serial_tmr = none)
            ∧ (∀ t c, e.cb_group t = some c →
                Freed.free_cb t c ∈ (iot_tp_delete st2 (some e)).2.2.2)
            ∧ (∀ c ∈ e.custom_cbs,
                Freed.delete_timer c.tmr ∈ (iot_tp_delete st2 (some e)).2.2.2)
            ∧ (∀ tmr, e.serial_tmr = some tmr →
                Freed.delete_timer (some tmr) ∈ (iot_tp_delete st2 (some e)).2.2.2)
            ∧ ∀ (env2 : tp_platform_t) (s2 : ℚ), 0 < s2 →
                ∃ d3, (iot_tp_create max env2 (iot_tp_delete st2 (some e)).2.1 id s2).1 = some d3
                  ∧ d3.touch_pad_num = id := by
  have c : id < max ∧ 0 < s ∧ (st.tp_group.getD id none).isNone = true :=
    ⟨hid, hs, (getD_none_iff st.tp_group id).mpr hfree⟩
  rw [create_eq max env st id s hinit, if_pos c]
  refine ⟨_, rfl, ?_, rfl, ?_⟩
  · show (st.tp_group.set id _)[id]? = _
    rw [List.getElem?_set_self (by omega)]
  · intro e st2 he hg
    obtain ⟨d1, d2, d3, d4, d5, d6, -⟩ := delete_some st2 e
    rw [d2]
    refine ⟨d1, ?_, ?_, ⟨_, d3, fun _ => rfl, rfl, rfl⟩, d4, d5, d6, ?_⟩
    · rw [← getD_none_iff, he]
      exact cleared_free st2.tp_group id
    · intro j hj
      show (st2.tp_group.set e.touch_pad_num none)[j]? = _
      rw [he, List.getElem?_set_ne (Ne.symm hj)]
    · intro env2 s2 hs2
      have c2 : id < max ∧ 0 < s2
          ∧ (({ st2 with tp_group := st2.tp_group.set e.touch_pad_num none } : tp_driver_t
              ).tp_group.getD id none).isNone = true :=
        ⟨hid, hs2, by rw [he]; exact cleared_free st2.tp_group id⟩
      rw [create_eq max env2 { st2 with tp_group := st2.tp_group.set e.touch_pad_num none }
        id s2 (Or.inl hg), if_pos c2]
      exact ⟨_, rfl, rfl⟩

/-- Witness of C19: pad 3 is created on the empty table, deleted, and created again. -/
theorem C19_create_delete_create_witness :
    ∃ d, (iot_tp_create 10 example_platform example_driver 3 (1 / 10)).1 = some d
      ∧ ∃ d3, (iot_tp_create 10 example_platform
          (iot_tp_delete (iot_tp_create 10 example_platform example_driver 3 (1 / 10)).2
            (some d)).2.1 3 (1 / 5)).1 = some d3
        ∧ d3.touch_pad_num = 3 := by
  obtain ⟨d, h1, h2, h3, h4⟩ := C19_create_delete_create 10 example_platform example_driver 3
    (1 / 10) (Or.inr ⟨rfl, rfl⟩) (by decide) (by norm_num) rfl (example_driver_free 3)
  have hd : d.touch_pad_num = 3 := by
    rw [create_eq 10 example_platform example_driver 3 (1 / 10) (Or.inr ⟨rfl, rfl⟩)] at h1
    rw [if_pos ⟨by decide, by norm_num, rfl⟩] at h1
    simp only [Option.some.injEq] at h1
    rw [← h1]
    rfl
  exact ⟨d, h1, (h4 d _ hd h3).2.2.2.2.2.2.2 example_platform (1 / 5) (by norm_num)⟩

/-- The baseline after a cycle is the old baseline, the raw sample or the filtered
sample of that cycle. -/
theorem step_baseline (d : tp_dev_t) (raw f : Nat) :
    (touch_pad_read_cb_chan d raw f).1.baseline = d.baseline
      ∨ (touch_pad_read_cb_chan d raw f).1.baseline = raw
      ∨ (touch_pad_read_cb_chan d raw f).1.baseline = f := by
  unfold touch_pad_read_cb_chan
  simp only []
  split_ifs <;> simp

/-- The channel returned by `iot_tp_create` has the averaged reading as baseline. -/
theorem create_baseline (max : Nat) (env : tp_platform_t) (st : tp_driver_t) (id : Nat)
    (s : ℚ) (e : tp_dev_t) (h : (iot_tp_create max env st id s).1 = some e) :
    e.baseline = initial_value env id := by
  unfold iot_tp_create at h
  simp only [] at h
  cases hm : st.tp_group.getD id none with
  | some v =>
    rw [hm] at h
    split_ifs at h
  | none =>
    rw [hm] at h
    split_ifs at h
    all_goals first
      | (simp at h; done)
      | (simp only [Option.some.injEq] at h
         rw [← h]
         rfl)

/-- What a slot of the table after a pass comes from. -/
theorem read_cb_slot_inv (t : List (Option tp_dev_t)) (raw filt : List Nat) (i : Nat)
    (e : tp_dev_t) (h : (touch_pad_read_cb t raw filt).1[i]? = some (some e)) :
    ∃ d r f, t[i]? = some (some d) ∧ raw[i]? = some r ∧ filt[i]? = some f
      ∧ e = (touch_pad_read_cb_chan d r f).1 := by
  rw [read_cb_table, List.getElem?_map] at h
  cases hz : (t.zip (raw.zip filt))[i]? with
  | none => rw [hz] at h; exact absurd h (by simp)
  | some x =>
    rw [hz] at h
    obtain ⟨o, r, f⟩ := x
    rw [List.getElem?_zip_eq_some] at hz
    obtain ⟨h1, h2⟩ := hz
    rw [List.getElem?_zip_eq_some] at h2
    cases o with
    | none => simp at h
    | some d =>
      simp only [Option.map_some', Option.some.injEq] at h
      exact ⟨d, r, f, h1, h2.1, h2.2, h.symm⟩

/-- C15 (amended): the channel that `iot_tp_create` returns has the average of the
three initial readings as its baseline, so its baseline is positive exactly when
that average is; a cycle of `touch_pad_read_cb` on a channel with a positive
baseline divides by that baseline (the `diff_rate` is finite) and, when the raw and
the filtered sample of the cycle are positive, leaves a positive baseline; and so
for every registered channel of a table whose registered channels all have a
positive baseline and positive samples. -/
theorem C15_baseline_positive (d : tp_dev_t) (raw f : Nat) (hd : 0 < d.baseline)
    (hraw : 0 < raw) (hf : 0 < f) :
    0 < (touch_pad_read_cb_chan d raw f).1.baseline
      ∧ (∃ q, (touch_pad_read_cb_chan d raw f).1.diff_rate = FVal.num q)
      ∧ (∀ (max : Nat) (env : tp_platform_t) (st : tp_driver_t) (id : Nat) (s : ℚ)
          (e : tp_dev_t), (iot_tp_create max env st id s).1 = some e →
            e.baseline = initial_value env id
              ∧ (0 < e.baseline ↔ 0 < initial_value env id))
      ∧ (∀ (t : List (Option tp_dev_t)) (raws filts : List Nat),
          (∀ (i : Nat) (e : tp_dev_t), t[i]? = some (some e) → 0 < e.baseline) →
          (∀ (i : Nat) (e : tp_dev_t), t[i]? = some (some e) → ∀ r, raws[i]? = some r → 0 < r) →
          (∀ (i : Nat) (e : tp_dev_t), t[i]? = some (some e) → ∀ r, filts[i]? = some r → 0 < r) →
          ∀ (i : Nat) (e : tp_dev_t),
            (touch_pad_read_cb t raws filts).1[i]? = some (some e) → 0 < e.baseline) := by
  have key : ∀ (d : tp_dev_t) (raw f : Nat), 0 < d.baseline → 0 < raw → 0 < f →
      0 < (touch_pad_read_cb_chan d raw f).1.baseline := by
    intro d raw f hd hraw hf
    rcases step_baseline d raw f with h | h | h <;> rw [h] <;> assumption
  refine ⟨key d raw f hd hraw hf, ?_, ?_, ?_⟩
  · rw [chan_rate]
    unfold diff_rate_of
    rw [if_neg (by omega)]
    exact ⟨_, rfl⟩
  · intro max env st id s e h
    have hb := create_baseline max env st id s e h
    exact ⟨hb, by rw [hb]⟩
  · intro t raws filts h1 h2 h3 i e he
    obtain ⟨d0, r0, f0, g1, g2, g3, g4⟩ := read_cb_slot_inv t raws filts i e he
    rw [g4]
    exact key d0 r0 f0 (h1 i d0 g1) (h2 i d0 g1 r0 g2) (h3 i d0 g1 f0 g3)

/-- Witness of C15 (amended): the example channel (baseline 1000) with the samples
(1000, 1000). -/
theorem C15_baseline_positive_witness :
    0 < (touch_pad_read_cb_chan example_dev 1000 1000).1.baseline
      ∧ ∃ q, (touch_pad_read_cb_chan example_dev 1000 1000).1.diff_rate = FVal.num q :=
  let h := C15_baseline_positive example_dev 1000 1000 (by decide) (by decide) (by decide)
  ⟨h.1, h.2.1⟩

/-- Counterexample to C15 as stated: on a platform whose pad 3 reads 0,
`iot_tp_create` returns a channel with baseline 0, and the next cycle computes its
`diff_rate` by a division by that zero baseline, giving `NaN` for a raw sample of 0
and `-inf` for a raw sample of 1000; and the example channel, with baseline 1000
and its update count at the threshold, gets the baseline 0 from a cycle inside the
noise band whose filtered sample is 0. -/
theorem C15_counterexample :
    ((iot_tp_create 10 example_platform_zero example_driver 3 (1 / 10)).1.map
        (fun e => e.baseline) = some 0)
      ∧ ((iot_tp_create 10 example_platform_zero example_driver 3 (1 / 10)).1.map
        (fun e => (touch_pad_read_cb_chan e 0 0).1.diff_rate) = some FVal.nan)
      ∧ ((iot_tp_create 10 example_platform_zero example_driver 3 (1 / 10)).1.map
        (fun e => (touch_pad_read_cb_chan e 1000 1000).1.diff_rate) = some FVal.ninf)
      ∧ 0 < example_dev_due.baseline
      ∧ (touch_pad_read_cb_chan example_dev_due 1000 0).1.baseline = 0 := by
  have hc : iot_tp_create 10 example_platform_zero example_driver 3 (1 / 10)
      = (some (iot_tp_create_dev 3 (1 / 10) 0),
         { g_init_flag := true
           tp_group := example_driver.tp_group.set 3 (some (iot_tp_create_dev 3 (1 / 10) 0)) }) := by
    rw [create_eq 10 example_platform_zero example_driver 3 (1 / 10) (Or.inr ⟨rfl, rfl⟩)]
    rw [if_pos ⟨by decide, by norm_num, rfl⟩]
    rfl
  rw [hc]
  refine ⟨rfl, ?_, ?_, by decide, ?_⟩
  · simp only [Option.map_some', chan_rate]
    rfl
  · simp only [Option.map_some', chan_rate]
    have : diff_rate_of 0 1000 = FVal.ninf := by
      simp [diff_rate_of, diff_data_of, toInt16]
    rw [← this]
    rfl
  · have hq : (diff_rate_of example_dev_due.baseline 1000).absLeQ example_dev_due.noise_thr
        = true := by
      have hb : example_dev_due.baseline = 1000 := rfl
      rw [hb, example_rate_zero]
      simp [FVal.absLeQ, example_dev_due, example_dev, iot_tp_create_dev,
        TOUCHPAD_TOUCH_THRESHOLD_PERCENT, TOUCHPAD_NOISE_THRESHOLD_PERCENT]
      norm_num
    exact (step_quiet_update example_dev_due 1000 0 (Or.inl rfl) hq rfl (by decide)).1

theorem add_cb_num (h : Option tp_dev_t) (t : tp_cb_type_t) (cb arg : Nat) (ok : Bool) :
    (iot_tp_add_cb h t cb arg ok).2.map (fun d => d.touch_pad_num)
      = h.map (fun d => d.touch_pad_num) := by
  cases h with
  | none => rfl
  | some d =>
    by_cases hcb : cb = 0
    · simp [iot_tp_add_cb, hcb]
    · cases hg : d.cb_group t with
      | some c => simp [iot_tp_add_cb, hcb, hg]
      | none => cases ok <;> simp [iot_tp_add_cb, hcb, hg]

theorem matrix_hook_num (d : tp_dev_t) (arg : Nat) (ok : Bool) :
    (matrix_hook d arg ok).touch_pad_num = d.touch_pad_num := by
  unfold matrix_hook
  simp only [CONFIG_TOUCH_PAD_USE_CB_TAP, if_true]
  have h1 := add_cb_num (some d) TOUCHPAD_CB_PUSH FN_tp_matrix_push_cb arg ok
  have h2 := add_cb_num (iot_tp_add_cb (some d) TOUCHPAD_CB_PUSH FN_tp_matrix_push_cb arg ok).2
    TOUCHPAD_CB_RELEASE FN_tp_matrix_release_cb arg ok
  have h3 := add_cb_num
    (iot_tp_add_cb (iot_tp_add_cb (some d) TOUCHPAD_CB_PUSH FN_tp_matrix_push_cb arg ok).2
      TOUCHPAD_CB_RELEASE FN_tp_matrix_release_cb arg ok).2
    TOUCHPAD_CB_TAP FN_tp_matrix_tap_cb arg ok
  have h := h3.trans (h2.trans h1)
  cases hh : (iot_tp_add_cb
      (iot_tp_add_cb (iot_tp_add_cb (some d) TOUCHPAD_CB_PUSH FN_tp_matrix_push_cb arg ok).2
        TOUCHPAD_CB_RELEASE FN_tp_matrix_release_cb arg ok).2
      TOUCHPAD_CB_TAP FN_tp_matrix_tap_cb arg ok).2 with
  | none => rw [hh] at h; simp at h
  | some e =>
    rw [hh] at h
    simp only [Option.map_some', Option.some.injEq] at h
    exact h

/-- A successful `iot_tp_create`: the slot was empty, and the new table has the new
channel in it. -/
theorem create_some (max : Nat) (env : tp_platform_t) (st : tp_driver_t) (id : Nat) (s : ℚ)
    (e : tp_dev_t) (h : (iot_tp_create max env st id s).1 = some e) :
    e.touch_pad_num = id
      ∧ (iot_tp_create max env st id s).2.tp_group = st.tp_group.set id (some e)
      ∧ ¬ ∃ d, st.tp_group[id]? = some (some d) := by
  have hocc := getD_none_iff st.tp_group id
  unfold iot_tp_create at h ⊢
  simp only [] at h ⊢
  cases hm : st.tp_group.getD id none with
  | some v =>
    rw [hm] at h
    split_ifs at h
  | none =>
    rw [hm] at hocc h
    split_ifs at h ⊢
    all_goals first
      | (simp at h; done)
      | (simp only [Option.some.injEq] at h
         rw [← h]
         exact ⟨rfl, rfl, hocc.mp rfl⟩)

/-- A failing `iot_tp_create` leaves the table as it was. -/
theorem create_none (max : Nat) (env : tp_platform_t) (st : tp_driver_t) (id : Nat) (s : ℚ)
    (h : (iot_tp_create max env st id s).1 = none) :
    (iot_tp_create max env st id s).2.tp_group = st.tp_group := by
  unfold iot_tp_create at h ⊢
  simp only [] at h ⊢
  cases hm : st.tp_group.getD id none with
  | some v =>
    split_ifs <;> rfl
  | none =>
    rw [hm] at h
    split_ifs at h ⊢
    all_goals rfl

theorem empty_slot_eq (t : List (Option tp_dev_t)) (j : Nat)
    (h : ¬ ∃ d, t[j]? = some (some d)) :
    t[j]? = if j < t.length then some none else none := by
  split_ifs with hj
  · rw [List.getElem?_eq_getElem hj]
    cases hv : t[j] with
    | none => rfl
    | some d =>
      exact absurd ⟨d, by rw [List.getElem?_eq_getElem hj, hv]⟩ h
  · exact List.getElem?_eq_none (by omega)

/-- The table after the rollback loop: the slots of the handles are cleared. -/
theorem rollback_table (handles : List tp_dev_t) :
    ∀ st : tp_driver_t,
      (matrix_create_rollback st handles).tp_group.length = st.tp_group.length
        ∧ ∀ j, (matrix_create_rollback st handles).tp_group[j]?
            = if ∃ h ∈ handles, h.touch_pad_num = j then
                (if j < st.tp_group.length then some none else none)
              else st.tp_group[j]? := by
  induction handles with
  | nil =>
    intro st
    refine ⟨rfl, fun j => ?_⟩
    simp [matrix_create_rollback]
  | cons h rest ih =>
    intro st
    have hstep : matrix_create_rollback st (h :: rest)
        = matrix_create_rollback (iot_tp_delete st (some h)).2.1 rest := rfl
    obtain ⟨-, d2, -⟩ := delete_some st h
    rw [hstep, d2]
    obtain ⟨l1, l2⟩ := ih { st with tp_group := st.tp_group.set h.touch_pad_num none }
    refine ⟨by rw [l1]; exact List.length_set _ _ _, fun j => ?_⟩
    rw [l2 j]
    have hlen : ({ st with tp_group := st.tp_group.set h.touch_pad_num none } : tp_driver_t
        ).tp_group.length = st.tp_group.length := List.length_set _ _ _
    rw [hlen]
    by_cases c1 : ∃ x ∈ rest, x.touch_pad_num = j
    · have c2 : ∃ x ∈ h :: rest, x.touch_pad_num = j := by
        obtain ⟨x, hx, hxj⟩ := c1
        exact ⟨x, List.mem_cons_of_mem _ hx, hxj⟩
      rw [if_pos c1, if_pos c2]
    · rw [if_neg c1]
      by_cases c3 : h.touch_pad_num = j
      · have c2 : ∃ x ∈ h :: rest, x.touch_pad_num = j := ⟨h, List.mem_cons_self _ _, c3⟩
        rw [if_pos c2]
        show (st.tp_group.set h.touch_pad_num none)[j]? = _
        rw [c3, List.getElem?_set_self']
        split_ifs with hj
        · rw [List.getElem?_eq_getElem hj]; rfl
        · rw [List.getElem?_eq_none (by omega)]; rfl
      · have c2 : ¬ ∃ x ∈ h :: rest, x.touch_pad_num = j := by
          rintro ⟨x, hx, hxj⟩
          rcases List.mem_cons.mp hx with hx | hx
          · exact c3 (by rw [← hx]; exact hxj)
          · exact c1 ⟨x, hx, hxj⟩
        rw [if_neg c2]
        show (st.tp_group.set h.touch_pad_num none)[j]? = _
        rw [List.getElem?_set_ne c3]

/-- The table after a creation loop: the length is kept, the slots of the handles
created were empty before, and every other slot is as before. -/
theorem axis_table (max : Nat) (env : tp_platform_t) (al : tp_matrix_alloc_t)
    (pads : List (Nat × ℚ)) :
    ∀ (k : Nat) (st : tp_driver_t),
      (matrix_create_axis max env al pads k st).2.2.tp_group.length = st.tp_group.length
        ∧ (∀ h ∈ (matrix_create_axis max env al pads k st).1,
            ¬ ∃ d, st.tp_group[h.touch_pad_num]? = some (some d))
        ∧ (∀ j, (¬ ∃ h ∈ (matrix_create_axis max env al pads k st).1, h.touch_pad_num = j) →
            (matrix_create_axis max env al pads k st).2.2.tp_group[j]? = st.tp_group[j]?) := by
  induction pads with
  | nil =>
    intro k st
    exact ⟨rfl, fun h hh => absurd hh (List.not_mem_nil h), fun j _ => rfl⟩
  | cons p rest ih =>
    intro k st
    obtain ⟨pad, sens⟩ := p
    cases hc : iot_tp_create max env st pad sens with
    | mk o st1 =>
      cases o with
      | none =>
        have hn := create_none max env st pad sens (by rw [hc])
        rw [hc] at hn
        simp only [matrix_create_axis, hc]
        exact ⟨by rw [hn], fun h hh => absurd hh (List.not_mem_nil h), fun j _ => by rw [hn]⟩
      | some e =>
        obtain ⟨s1, s2, s3⟩ := create_some max env st pad sens e (by rw [hc])
        rw [hc] at s2
        simp only [matrix_create_axis, hc]
        have s2b : st1.tp_group = st.tp_group.set pad (some e) := s2
        obtain ⟨i1, i2, i3⟩ := ih (k + 1)
          { st1 with tp_group := (st1.tp_group.set e.touch_pad_num
              (some (matrix_hook e (al.matrix_args + k) al.cb_ok))) }
        have hnum := matrix_hook_num e (al.matrix_args + k) al.cb_ok
        have hslot : ∀ j, j ≠ pad →
            (st1.tp_group.set e.touch_pad_num
              (some (matrix_hook e (al.matrix_args + k) al.cb_ok)))[j]? = st.tp_group[j]? := by
          intro j hj
          rw [s1, List.getElem?_set_ne (Ne.symm hj), s2b, List.getElem?_set_ne (Ne.symm hj)]
        refine ⟨?_, ?_, ?_⟩
        · rw [i1]
          show (st1.tp_group.set _ _).length = _
          rw [List.length_set, s2b, List.length_set]
        · intro h hh
          rcases List.mem_cons.mp hh with hh | hh
          · rw [hh, hnum, s1]; exact s3
          · have := i2 h hh
            by_cases hp : h.touch_pad_num = pad
            · rw [hp]; exact s3
            · rintro ⟨d, hd⟩
              exact this ⟨d, by
                show (st1.tp_group.set _ _)[h.touch_pad_num]? = _
                rw [hslot _ hp]; exact hd⟩
        · intro j hj
          have hjp : j ≠ pad := by
            intro hjp
            exact hj ⟨_, List.mem_cons_self _ _, by rw [hnum, s1, hjp]⟩
          have hj2 : ¬ ∃ h ∈ (matrix_create_axis max env al rest (k + 1)
              { st1 with tp_group := (st1.tp_group.set e.touch_pad_num
                  (some (matrix_hook e (al.matrix_args + k) al.cb_ok))) }).1,
              h.touch_pad_num = j := by
            rintro ⟨h, hh, hhj⟩
            exact hj ⟨h, List.mem_cons_of_mem _ hh, hhj⟩
          rw [i3 j hj2]
          exact hslot j hjp

theorem rollback_append (st : tp_driver_t) (a b : List tp_dev_t) :
    matrix_create_rollback (matrix_create_rollback st a) b = matrix_create_rollback st (a ++ b) := by
  simp [matrix_create_rollback, List.foldl_append]

/-- Rolling back restores a table: if the handles stand in slots that were empty in
`st0` and every other slot of `st1` is as in `st0`, then `iot_tp_delete` on all
handles takes the table of `st1` back to that of `st0`. -/
theorem rollback_restores (st0 st1 : tp_driver_t) (handles : List tp_dev_t)
    (hlen : st1.tp_group.length = st0.tp_group.length)
    (hempty : ∀ h ∈ handles, ¬ ∃ d, st0.tp_group[h.touch_pad_num]? = some (some d))
    (hsame : ∀ j, (¬ ∃ h ∈ handles, h.touch_pad_num = j) → st1.tp_group[j]? = st0.tp_group[j]?) :
    (matrix_create_rollback st1 handles).tp_group = st0.tp_group := by
  obtain ⟨-, r2⟩ := rollback_table handles st1
  apply List.ext_getElem?
  intro j
  rw [r2 j]
  by_cases c : ∃ h ∈ handles, h.touch_pad_num = j
  · rw [if_pos c, hlen]
    obtain ⟨h, hh, hj⟩ := c
    have := hempty h hh
    rw [hj] at this
    rw [empty_slot_eq st0.tp_group j this]
  · rw [if_neg c]
    exact hsame j c

theorem after_columns_fail (x_num y_num : Nat) (xh : List tp_dev_t)
    (ry : List tp_dev_t × Bool × tp_driver_t)
    (h : (matrix_create_after_columns x_num y_num xh ry).1 = none) :
    (matrix_create_after_columns x_num y_num xh ry).2
      = matrix_create_rollback ry.2.2 (xh ++ ry.1) := by
  unfold matrix_create_after_columns at h ⊢
  by_cases c : ry.2.1 = false
  · rw [if_pos c, rollback_append]
  · rw [if_neg c] at h
    exact absurd h (by simp)

/-- The row and column loops of `iot_tp_matrix_create` and what follows them: if no
group is returned, the table is the one from before the loops. -/
theorem channels_rollback (max : Nat) (env : tp_platform_t) (al : tp_matrix_alloc_t)
    (st : tp_driver_t) (x_num y_num : Nat) (x_tps y_tps : List Nat) (sens : List ℚ)
    (h : (matrix_create_after_rows max env al x_num y_num y_tps sens
      (matrix_create_axis max env al
        ((List.range x_num).map (fun i => (x_tps.getD i 0, sens.getD i 0))) 0 st)).1 = none) :
    (matrix_create_after_rows max env al x_num y_num y_tps sens
      (matrix_create_axis max env al
        ((List.range x_num).map (fun i => (x_tps.getD i 0, sens.getD i 0))) 0 st)).2.tp_group
      = st.tp_group := by
  obtain ⟨x1, x2, x3⟩ := axis_table max env al
    ((List.range x_num).map (fun i => (x_tps.getD i 0, sens.getD i 0))) 0 st
  generalize matrix_create_axis max env al
    ((List.range x_num).map (fun i => (x_tps.getD i 0, sens.getD i 0))) 0 st = rx
    at h x1 x2 x3 ⊢
  unfold matrix_create_after_rows at h ⊢
  by_cases c : rx.2.1 = false
  · rw [if_pos c, rollback_append, List.append_nil]
    exact rollback_restores st _ _ x1 x2 x3
  · rw [if_neg c] at h ⊢
    obtain ⟨y1, y2, y3⟩ := axis_table max env al
      ((List.range y_num).map (fun i => (y_tps.getD i 0, sens.getD (x_num + i) 0))) x_num rx.2.2
    rw [after_columns_fail _ _ _ _ h]
    generalize matrix_create_axis max env al
      ((List.range y_num).map (fun i => (y_tps.getD i 0, sens.getD (x_num + i) 0))) x_num rx.2.2
      = ry at y1 y2 y3 ⊢
    apply rollback_restores st
    · rw [y1, x1]
    · intro g hg
      rcases List.mem_append.mp hg with hg | hg
      · exact x2 g hg
      · have hy := y2 g hg
        by_cases c2 : ∃ g2 ∈ rx.1, g2.touch_pad_num = g.touch_pad_num
        · obtain ⟨g2, hg2, hgj⟩ := c2
          rw [← hgj]
          exact x2 g2 hg2
        · rw [x3 _ c2] at hy
          exact hy
    · intro j hj
      have hjx : ¬ ∃ g ∈ rx.1, g.touch_pad_num = j := by
        rintro ⟨g, hg, hgj⟩
        exact hj ⟨g, List.mem_append_left _ hg, hgj⟩
      have hjy : ¬ ∃ g ∈ ry.1, g.touch_pad_num = j := by
        rintro ⟨g, hg, hgj⟩
        exact hj ⟨g, List.mem_append_right _ hg, hgj⟩
      rw [y3 j hjy, x3 j hjx]

/-- A creation loop that meets a registered pad number stops with an error. -/
theorem axis_occupied_fails (max : Nat) (env : tp_platform_t) (al : tp_matrix_alloc_t)
    (pads : List (Nat × ℚ)) :
    ∀ (k : Nat) (st : tp_driver_t),
      (∃ p ∈ pads, ∃ d, st.tp_group[p.1]? = some (some d)) →
      (matrix_create_axis max env al pads k st).2.1 = false := by
  induction pads with
  | nil =>
    rintro k st ⟨p, hp, -⟩
    exact absurd hp (List.not_mem_nil p)
  | cons q rest ih =>
    rintro k st ⟨p, hp, d, hd⟩
    obtain ⟨pad, sens⟩ := q
    cases hc : iot_tp_create max env st pad sens with
    | mk o st1 =>
      cases o with
      | none => simp only [matrix_create_axis, hc]
      | some e =>
        obtain ⟨s1, s2, s3⟩ := create_some max env st pad sens e (by rw [hc])
        rw [hc] at s2
        have s2b : st1.tp_group = st.tp_group.set pad (some e) := s2
        simp only [matrix_create_axis, hc]
        apply ih
        have hprest : p ∈ rest := by
          rcases List.mem_cons.mp hp with h | h
          · exact absurd ⟨d, by rw [h] at hd; exact hd⟩ s3
          · exact h
        refine ⟨p, hprest, ?_⟩
        by_cases hpp : p.1 = pad
        · exact absurd ⟨d, by rw [← hpp]; exact hd⟩ s3
        · refine ⟨d, ?_⟩
          show (st1.tp_group.set e.touch_pad_num _)[p.1]? = _
          rw [s1, List.getElem?_set_ne (Ne.symm hpp), s2b, List.getElem?_set_ne (Ne.symm hpp)]
          exact hd

/-- A call of `iot_tp_matrix_create` that asks for a column pad which is already
registered returns no group. -/
theorem matrix_create_registered_fails (max : Nat) (env : tp_platform_t)
    (al : tp_matrix_alloc_t) (st : tp_driver_t) (x_num y_num : Nat) (x_tps y_tps : List Nat)
    (p_sensitivity : Option (List ℚ)) (i : Nat) (hi : i < y_num) (d : tp_dev_t)
    (hd : st.tp_group[y_tps.getD i 0]? = some (some d)) :
    (iot_tp_matrix_create max env al st x_num y_num x_tps y_tps p_sensitivity).1 = none := by
  unfold iot_tp_matrix_create
  cases p_sensitivity with
  | none => split_ifs <;> rfl
  | some sens =>
    dsimp only
    obtain ⟨x1, x2, x3⟩ := axis_table max env al
      ((List.range x_num).map (fun i => (x_tps.getD i 0, sens.getD i 0))) 0 st
    generalize matrix_create_axis max env al
      ((List.range x_num).map (fun i => (x_tps.getD i 0, sens.getD i 0))) 0 st = rx
      at x1 x2 x3 ⊢
    have hkeep : rx.2.2.tp_group[y_tps.getD i 0]? = some (some d) := by
      rw [x3 _ ?_]
      · exact hd
      · rintro ⟨g, hg, hgj⟩
        exact x2 g hg ⟨d, by rw [hgj]; exact hd⟩
    have hy := axis_occupied_fails max env al
      ((List.range y_num).map (fun i => (y_tps.getD i 0, sens.getD (x_num + i) 0))) x_num rx.2.2
      ⟨(y_tps.getD i 0, sens.getD (x_num + i) 0),
        List.mem_map.mpr ⟨i, List.mem_range.mpr hi, rfl⟩, d, hkeep⟩
    unfold matrix_create_after_rows matrix_create_after_columns
    rw [hy]
    simp only [if_true]
    split_ifs <;> with_reducible rfl

/-- C20: whenever `iot_tp_matrix_create` returns no handle, the channel table after
the call equals the table before the call; in particular when it fails while
creating its row or column channels (a requested pad number is already
registered, or a sensitivity is not positive): every channel that the call had
created is unregistered again by the loops under `CREATE_ERR`, and no channel that
was registered before is removed. -/
theorem C20_matrix_create_rollback (max : Nat) (env : tp_platform_t) (al : tp_matrix_alloc_t)
    (st : tp_driver_t) (x_num y_num : Nat) (x_tps y_tps : List Nat)
    (p_sensitivity : Option (List ℚ))
    (hfail : (iot_tp_matrix_create max env al st x_num y_num x_tps y_tps p_sensitivity).1
      = none) :
    (iot_tp_matrix_create max env al st x_num y_num x_tps y_tps p_sensitivity).2.tp_group
      = st.tp_group := by
  unfold iot_tp_matrix_create at hfail ⊢
  cases p_sensitivity with
  | none => split_ifs <;> rfl
  | some sens =>
    dsimp only at hfail ⊢
    split_ifs at hfail ⊢
    all_goals first
      | exact channels_rollback max env al st x_num y_num x_tps y_tps sens hfail
      | with_reducible rfl

theorem example_driver_one_eq :
    example_driver_one
      = { g_init_flag := true
          tp_group := example_driver.tp_group.set 5
            (some (iot_tp_create_dev 5 (1 / 10) (initial_value example_platform 5))) } := by
  unfold example_driver_one
  rw [create_eq 10 example_platform example_driver 5 (1 / 10) (Or.inr ⟨rfl, rfl⟩)]
  rw [if_pos ⟨by decide, by norm_num, rfl⟩]

/-- Witness of C20: with pad 5 registered, a 2 x 2 group over the rows 3, 4 and the
columns 5, 6 is refused at column 5, after the rows 3 and 4 were created; the
table is the one from before the call. -/
theorem C20_matrix_create_rollback_witness :
    (iot_tp_matrix_create 10 example_platform example_alloc example_driver_one 2 2 [3, 4] [5, 6]
        (some [1 / 10, 1 / 10, 1 / 10, 1 / 10])).1 = none
      ∧ (iot_tp_matrix_create 10 example_platform example_alloc example_driver_one 2 2 [3, 4]
        [5, 6] (some [1 / 10, 1 / 10, 1 / 10, 1 / 10])).2.tp_group
          = example_driver_one.tp_group :=
  have hreg : example_driver_one.tp_group[([5, 6] : List Nat).getD 0 0]?
      = some (some (iot_tp_create_dev 5 (1 / 10) (initial_value example_platform 5))) := by
    rw [example_driver_one_eq]
    rfl
  have hfail := matrix_create_registered_fails 10 example_platform example_alloc
    example_driver_one 2 2 [3, 4] [5, 6] (some [1 / 10, 1 / 10, 1 / 10, 1 / 10]) 0 (by decide)
    _ hreg
  ⟨hfail, C20_matrix_create_rollback 10 example_platform example_alloc example_driver_one 2 2
    [3, 4] [5, 6] (some [1 / 10, 1 / 10, 1 / 10, 1 / 10]) hfail⟩

/-- Line 485 computes the difference of the two 16-bit values wrapped to `int16_t`. -/
theorem diff_data_wrap (baseline raw : Nat) :
    diff_data_of baseline raw = toInt16 ((baseline : Int) - (raw : Int)) := by
  unfold diff_data_of toInt16
  omega

theorem diff_data_exact (baseline raw : Nat)
    (hlo : (raw : Int) - 32768 ≤ (baseline : Int)) (hhi : (baseline : Int) - (raw : Int) ≤ 32767) :
    diff_data_of baseline raw = (baseline : Int) - (raw : Int) := by
  unfold diff_data_of toInt16
  omega

/-- C22 (amended): for every channel with a baseline > 0 and every raw sample whose
difference `baseline - raw` lies in the `int16_t` range
`[-32768, 32767]`, the `diff_rate` that the cycle computes is
`(baseline - raw) / baseline`, positive exactly when `raw < baseline`; for all
values the numerator is `baseline - raw` wrapped to `int16_t`. -/
theorem C22_diff_rate_value (d : tp_dev_t) (raw f : Nat) (hb0 : 0 < d.baseline)
    (hlo : (raw : Int) - 32768 ≤ (d.baseline : Int))
    (hhi : (d.baseline : Int) - (raw : Int) ≤ 32767) :
    (touch_pad_read_cb_chan d raw f).1.diff_rate
        = FVal.num ((((d.baseline : Int) - (raw : Int) : Int) : ℚ) / (d.baseline : ℚ))
      ∧ (0 < (((d.baseline : Int) - (raw : Int) : Int) : ℚ) / (d.baseline : ℚ)
          ↔ raw < d.baseline)
      ∧ diff_data_of d.baseline raw = toInt16 ((d.baseline : Int) - (raw : Int)) := by
  have hq : (0 : ℚ) < (d.baseline : ℚ) := by exact_mod_cast hb0
  refine ⟨?_, ?_, diff_data_wrap d.baseline raw⟩
  · rw [chan_rate]
    unfold diff_rate_of
    rw [if_neg (by omega), diff_data_exact d.baseline raw hlo hhi]
  · rw [div_pos_iff_of_pos_right hq]
    constructor
    · intro h
      have h2 : (0 : Int) < (d.baseline : Int) - (raw : Int) := by exact_mod_cast h
      omega
    · intro h
      have h2 : (0 : Int) < (d.baseline : Int) - (raw : Int) := by omega
      exact_mod_cast h2

/-- Witness of C22 (amended): the example channel (baseline 1000) and the raw sample
900. -/
theorem C22_diff_rate_value_witness :
    (touch_pad_read_cb_chan example_dev 900 1000).1.diff_rate
        = FVal.num ((((example_dev.baseline : Int) - ((900 : Nat) : Int) : Int) : ℚ)
            / (example_dev.baseline : ℚ)) :=
  (C22_diff_rate_value example_dev 900 1000 (by decide) (by decide) (by decide)).1

/-- Counterexample to C22 as stated: with the 16-bit baseline 40000 and the 16-bit
raw sample 0 (so `raw < baseline` and `(baseline - raw) / baseline = 1`) the cycle
computes the negative `diff_rate` -25536 / 40000; and with baseline 1000 and raw
sample 40000 (`raw > baseline`) it computes the positive `diff_rate`
26536 / 1000. -/
theorem C22_counterexample :
    example_dev_high.baseline = 40000
      ∧ (touch_pad_read_cb_chan example_dev_high 0 0).1.diff_rate
          = FVal.num (-25536 / 40000)
      ∧ example_dev.baseline = 1000
      ∧ (touch_pad_read_cb_chan example_dev 40000 40000).1.diff_rate
          = FVal.num (26536 / 1000) := by
  refine ⟨rfl, ?_, rfl, ?_⟩
  · rw [chan_rate]
    have hb : example_dev_high.baseline = 40000 := rfl
    rw [hb]
    norm_num [diff_rate_of, diff_data_of, toInt16]
  · rw [chan_rate]
    have hb : example_dev.baseline = 1000 := rfl
    rw [hb]
    norm_num [diff_rate_of, diff_data_of, toInt16]

theorem touched_ne_release {d : tp_dev_t} (ht : touched d) :
    d.state ≠ TOUCHPAD_STATE_RELEASE := by
  rcases ht with h | h <;> rw [h] <;> decide

theorem example_pushed_rate_zero :
    (touch_pad_read_cb_chan example_dev_pushed 1000 1000).1.diff_rate = FVal.num 0 := by
  rw [chan_rate]
  exact example_rate_zero

theorem user_calls_serial_stop (o : Option Nat) :
    user_calls (match o with
      | some tmr => [Effect.tmr_stop tmr]
      | none => []) = [] := by
  cases o <;> rfl

theorem user_calls_ite (c : Prop) [Decidable c] (a : List Effect) :
    user_calls (if c then a else []) = if c then user_calls a else [] := by
  split_ifs <;> rfl

/-- The calls into user code among the effects of a release (lines 557-572). -/
theorem user_calls_release (d : tp_dev_t) :
    user_calls ((if d.state = TOUCHPAD_STATE_PUSH then callback_exec d TOUCHPAD_CB_TAP else [])
        ++ callback_exec d TOUCHPAD_CB_RELEASE ++ tp_custom_stop_cb_tmrs d
        ++ (match d.serial_tmr with
            | some tmr => [Effect.tmr_stop tmr]
            | none => []))
      = (if d.state = TOUCHPAD_STATE_PUSH then callback_exec d TOUCHPAD_CB_TAP else [])
          ++ callback_exec d TOUCHPAD_CB_RELEASE := by
  simp only [user_calls_append, user_calls_ite, user_calls_callback_exec, user_calls_stop,
    user_calls_serial_stop, List.append_nil]

theorem step_release_state (d : tp_dev_t) (raw f : Nat) (ht : touched d)
    (hh : (diff_rate_of d.baseline raw).gtQ (d.touch_thr - d.hysteresis_thr) = false)
    (hc : d.debounce_th ≤ (d.debounce_count + 1) % 65536
      ∨ (diff_rate_of d.baseline raw).absLtQ d.noise_thr = true
      ∨ d.touchChange < TOUCHPAD_TOUCH_LOW_SENSE_THRESHOLD) :
    (touch_pad_read_cb_chan d raw f).1.state = TOUCHPAD_STATE_RELEASE := by
  rw [(step_release d raw f ht hh hc).1]

/-- C25: on every release that a cycle of `touch_pad_read_cb` performs on a touched
channel, the calls into user code are the Tap handler followed by the Release
handler when the state at the start of the cycle was `Push`, and the Release
handler alone when it was `Press`; with both handlers registered the events fired
are `[Tap, Release]` after `Push` and `[Release]` after `Press`.  `Press` is the
state that the repeat trigger of the pass and the custom-duration timer handler
`tp_custom_timer_cb` leave behind. -/
theorem C25_tap_only_after_push (d : tp_dev_t) (raw f : Nat) (ht : touched d)
    (hrel : (touch_pad_read_cb_chan d raw f).1.state = TOUCHPAD_STATE_RELEASE) :
    user_calls (touch_pad_read_cb_chan d raw f).2.1
        = (if d.state = TOUCHPAD_STATE_PUSH then callback_exec d TOUCHPAD_CB_TAP else [])
          ++ callback_exec d TOUCHPAD_CB_RELEASE
      ∧ (∀ ct cr, d.cb_group TOUCHPAD_CB_TAP = some ct →
          d.cb_group TOUCHPAD_CB_RELEASE = some cr →
          (d.state = TOUCHPAD_STATE_PUSH →
              user_calls (touch_pad_read_cb_chan d raw f).2.1
                = [Effect.callback TOUCHPAD_CB_TAP ct, Effect.callback TOUCHPAD_CB_RELEASE cr])
            ∧ (d.state = TOUCHPAD_STATE_PRESS →
              user_calls (touch_pad_read_cb_chan d raw f).2.1
                = [Effect.callback TOUCHPAD_CB_RELEASE cr])
            ∧ (TOUCHPAD_CB_TAP ∈ fired (touch_pad_read_cb_chan d raw f).2.1
                ↔ d.state = TOUCHPAD_STATE_PUSH))
      ∧ (∀ c, (tp_custom_timer_cb d c).1.state = TOUCHPAD_STATE_PRESS) := by
  have hgt : (diff_rate_of d.baseline raw).gtQ (d.touch_thr - d.hysteresis_thr) = false := by
    by_contra hc
    have hc2 : (diff_rate_of d.baseline raw).gtQ (d.touch_thr - d.hysteresis_thr) = true := by
      simpa using hc
    exact touched_ne_release (step_hold_gen d raw f ht hc2).1 hrel
  have hcond : d.debounce_th ≤ (d.debounce_count + 1) % 65536
      ∨ (diff_rate_of d.baseline raw).absLtQ d.noise_thr = true
      ∨ d.touchChange < TOUCHPAD_TOUCH_LOW_SENSE_THRESHOLD := by
    by_contra hc
    push_neg at hc
    obtain ⟨n1, n2, n3⟩ := hc
    obtain ⟨g1, -⟩ := step_release_wait d raw f ht hgt n1 (by simpa using n2) n3
    rw [g1] at hrel
    exact touched_ne_release ht hrel
  obtain ⟨-, g2⟩ := step_release d raw f ht hgt hcond
  have hu : user_calls (touch_pad_read_cb_chan d raw f).2.1
      = (if d.state = TOUCHPAD_STATE_PUSH then callback_exec d TOUCHPAD_CB_TAP else [])
        ++ callback_exec d TOUCHPAD_CB_RELEASE := by
    rw [g2]
    exact user_calls_release d
  refine ⟨hu, ?_, fun c => rfl⟩
  intro ct cr hct hcr
  have hf : fired (touch_pad_read_cb_chan d raw f).2.1
      = (if d.state = TOUCHPAD_STATE_PUSH then [TOUCHPAD_CB_TAP] else [])
        ++ [TOUCHPAD_CB_RELEASE] := by
    rw [g2]
    have e1 : fired (tp_custom_stop_cb_tmrs d) = [] := by
      simp [fired, tp_custom_stop_cb_tmrs, List.filterMap_map, Function.comp_def]
    cases d.serial_tmr <;> simp only [fired_append, e1] <;> split_ifs <;>
      simp [fired, callback_exec, hct, hcr]
  refine ⟨?_, ?_, ?_⟩
  · intro hs
    rw [hu, if_pos hs]
    simp [callback_exec, hct, hcr]
  · intro hs
    rw [hu, if_neg (by rw [hs]; decide)]
    simp [callback_exec, hcr]
  · rw [hf]
    split_ifs with hs
    · simp [hs]
    · simp [hs]

theorem example_pushed_release :
    (touch_pad_read_cb_chan example_dev_pushed 1000 1000).1.state = TOUCHPAD_STATE_RELEASE := by
  have hb : example_dev_pushed.baseline = 1000 := rfl
  apply step_release_state example_dev_pushed 1000 1000 (Or.inl rfl)
  · rw [hb, example_rate_zero]
    norm_num [FVal.gtQ, example_dev_pushed, example_dev, iot_tp_create_dev,
      TOUCHPAD_TOUCH_THRESHOLD_PERCENT, TOUCHPAD_HYSTERESIS_THRESHOLD_PERCENT]
  · refine Or.inr (Or.inl ?_)
    rw [hb, example_rate_zero]
    norm_num [FVal.absLtQ, example_dev_pushed, example_dev, iot_tp_create_dev,
      TOUCHPAD_TOUCH_THRESHOLD_PERCENT, TOUCHPAD_NOISE_THRESHOLD_PERCENT]

/-- Witness of C25: the pushed example channel is released by a sample at its
baseline and fires Tap, then Release. -/
theorem C25_tap_only_after_push_witness :
    user_calls (touch_pad_read_cb_chan example_dev_pushed 1000 1000).2.1
      = [Effect.callback TOUCHPAD_CB_TAP ⟨3, 0⟩, Effect.callback TOUCHPAD_CB_RELEASE ⟨2, 0⟩] :=
  ((C25_tap_only_after_push example_dev_pushed 1000 1000 (Or.inl rfl)
    example_pushed_release).2.1 ⟨3, 0⟩ ⟨2, 0⟩ rfl rfl).1 rfl

/-- Whether a cycle marks its channel as slide-trigger source (line 579). -/
theorem step_marked (d : tp_dev_t) (raw f : Nat) :
    (touch_pad_read_cb_chan d raw f).2.2
      = ((diff_rate_of d.baseline raw).gtQ d.slide_trigger_thr
          && decide (tp_type_t.TOUCHPAD_LINEAR_SLIDER.toNat ≤ d.button_type.toNat)) := by
  unfold touch_pad_read_cb_chan
  simp only [CONFIG_TOUCH_PAD_USE_SLIDER, Bool.true_and]
  split_ifs <;> rfl

theorem not_mem_callback_exec (d : tp_dev_t) (t : tp_cb_type_t) (c : tp_cb_t)
    (ht : t ≠ TOUCHPAD_CB_SLIDE) :
    Effect.callback TOUCHPAD_CB_SLIDE c ∉ callback_exec d t := by
  unfold callback_exec
  cases d.cb_group t with
  | none => simp
  | some b =>
    simp only [List.mem_singleton, Effect.callback.injEq, not_and]
    intro h
    exact absurd h.symm ht

theorem not_mem_reset_tmrs (d : tp_dev_t) (c : tp_cb_t) :
    Effect.callback TOUCHPAD_CB_SLIDE c ∉ tp_custom_reset_cb_tmrs d := by
  simp [tp_custom_reset_cb_tmrs]

theorem not_mem_stop_tmrs (d : tp_dev_t) (c : tp_cb_t) :
    Effect.callback TOUCHPAD_CB_SLIDE c ∉ tp_custom_stop_cb_tmrs d := by
  simp [tp_custom_stop_cb_tmrs]

/-- The calls that one cycle can make: none, those of a push, those of a repeat
trigger, or those of a release (with or without the tap). -/
theorem step_effects_shape (d : tp_dev_t) (raw f : Nat) :
    (touch_pad_read_cb_chan d raw f).2.1 = []
      ∨ (touch_pad_read_cb_chan d raw f).2.1
          = callback_exec d TOUCHPAD_CB_PUSH ++ tp_custom_reset_cb_tmrs d
      ∨ (touch_pad_read_cb_chan d raw f).2.1
          = [Effect.serial_callback d.serial_cb, Effect.tmr_start d.serial_tmr]
      ∨ (touch_pad_read_cb_chan d raw f).2.1
          = callback_exec d TOUCHPAD_CB_TAP ++ callback_exec d TOUCHPAD_CB_RELEASE
            ++ tp_custom_stop_cb_tmrs d
            ++ (match d.serial_tmr with
                | some tmr => [Effect.tmr_stop tmr]
                | none => [])
      ∨ (touch_pad_read_cb_chan d raw f).2.1
          = [] ++ callback_exec d TOUCHPAD_CB_RELEASE ++ tp_custom_stop_cb_tmrs d
            ++ (match d.serial_tmr with
                | some tmr => [Effect.tmr_stop tmr]
                | none => []) := by
  unfold touch_pad_read_cb_chan
  simp only [CONFIG_TOUCH_PAD_USE_CB_SERIAL, CONFIG_TOUCH_PAD_USE_CB_CUSTOM,
    CONFIG_TOUCH_PAD_USE_CB_TAP_EVENT, if_true, true_and]
  split_ifs
  all_goals first
    | exact Or.inl rfl
    | exact Or.inr (Or.inl rfl)
    | exact Or.inr (Or.inr (Or.inl rfl))
    | exact Or.inr (Or.inr (Or.inr (Or.inl rfl)))
    | exact Or.inr (Or.inr (Or.inr (Or.inr rfl)))

/-- The main loop of a pass never runs a Slide handler. -/
theorem step_no_slide (d : tp_dev_t) (raw f : Nat) (c : tp_cb_t) :
    Effect.callback TOUCHPAD_CB_SLIDE c ∉ (touch_pad_read_cb_chan d raw f).2.1 := by
  have h1 := not_mem_callback_exec d TOUCHPAD_CB_PUSH c (by decide)
  have h2 := not_mem_callback_exec d TOUCHPAD_CB_TAP c (by decide)
  have h3 := not_mem_callback_exec d TOUCHPAD_CB_RELEASE c (by decide)
  have h4 := not_mem_reset_tmrs d c
  have h5 := not_mem_stop_tmrs d c
  have h6 : Effect.callback TOUCHPAD_CB_SLIDE c ∉ (match d.serial_tmr with
      | some tmr => [Effect.tmr_stop tmr]
      | none => []) := by
    cases d.serial_tmr <;> simp
  rcases step_effects_shape d raw f with h | h | h | h | h <;> rw [h]
  · exact List.not_mem_nil _
  · simp only [List.mem_append, not_or]
    exact ⟨h1, h4⟩
  · intro h
    rcases List.mem_cons.mp h with h | h
    · exact absurd h (by simp)
    · exact absurd (List.mem_singleton.mp h) (by simp)
  · simp only [List.mem_append, not_or]
    exact ⟨⟨⟨h2, h3⟩, h5⟩, h6⟩
  · simp only [List.mem_append, not_or]
    exact ⟨⟨⟨List.not_mem_nil _, h3⟩, h5⟩, h6⟩

theorem pass_fold_effects
    (step : List (Option tp_dev_t) × List Effect × Option tp_dev_t
      → Option tp_dev_t × Nat × Nat → List (Option tp_dev_t) × List Effect × Option tp_dev_t)
    (h : ∀ acc x, (step acc x).2.1 = acc.2.1 ++ chan_effects x)
    (l : List (Option tp_dev_t × Nat × Nat)) :
    ∀ acc, (l.foldl step acc).2.1
          = acc.2.1 ++ (l.map chan_effects).foldr (fun a b => a ++ b) [] := by
  induction l with
  | nil => intro acc; simp
  | cons x rest ih =>
    intro acc
    rw [List.foldl_cons, ih, h]
    simp [List.append_assoc]

theorem pass_fold_marked
    (step : List (Option tp_dev_t) × List Effect × Option tp_dev_t
      → Option tp_dev_t × Nat × Nat → List (Option tp_dev_t) × List Effect × Option tp_dev_t)
    (h : ∀ acc x, (step acc x).2.2 = (match chan_marked x with
          | some d => some d
          | none => acc.2.2))
    (l : List (Option tp_dev_t × Nat × Nat)) :
    ∀ acc, (l.foldl step acc).2.2
          = (match (l.filterMap chan_marked).getLast? with
              | some d => some d
              | none => acc.2.2) := by
  induction l with
  | nil => intro acc; simp
  | cons x rest ih =>
    intro acc
    rw [List.foldl_cons, ih, h]
    cases hm : chan_marked x with
    | none => simp [List.filterMap_cons, hm]
    | some d =>
      simp only [List.filterMap_cons, hm]
      cases hr : rest.filterMap chan_marked with
      | nil => simp
      | cons b m =>
        rw [List.getLast?_cons_cons]
        cases hg : (b :: m).getLast? with
        | some y => rfl
        | none => exact absurd (List.getLast?_eq_none_iff.mp hg) (by simp)

/-- The calls of a pass: those of the main loop, then the Slide handler of the last
channel marked, if any channel was marked. -/
theorem read_cb_effects (t : List (Option tp_dev_t)) (raw filt : List Nat) :
    (touch_pad_read_cb t raw filt).2
      = loop_effects t raw filt
        ++ (match (slide_marked t raw filt).getLast? with
            | some d => callback_exec d TOUCHPAD_CB_SLIDE
            | none => []) := by
  unfold touch_pad_read_cb loop_effects slide_marked
  simp only []
  rw [pass_fold_effects, pass_fold_marked]
  · cases (List.filterMap chan_marked (t.zip (raw.zip filt))).getLast? <;> simp
  · intro acc x
    rcases x with ⟨_ | d, r, f⟩
    · simp [chan_marked]
    · simp only [chan_marked]
      split_ifs <;> rfl
  · intro acc x
    rcases x with ⟨_ | d, r, f⟩
    · simp [chan_effects]
    · rfl

theorem loop_no_slide (l : List (Option tp_dev_t × Nat × Nat)) (c : tp_cb_t) :
    Effect.callback TOUCHPAD_CB_SLIDE c
      ∉ (l.map chan_effects).foldr (fun a b => a ++ b) [] := by
  induction l with
  | nil => simp
  | cons x rest ih =>
    simp only [List.map_cons, List.foldr_cons, List.mem_append, not_or]
    refine ⟨?_, ih⟩
    rcases x with ⟨_ | d, r, f⟩
    · simp [chan_effects]
    · exact step_no_slide d r f c

/-- What marks a channel: after its cycle its `diff_rate` is above its
`slide_trigger_thr` and its button type is a slider type. -/
theorem marked_cond (x : Option tp_dev_t × Nat × Nat) (e : tp_dev_t)
    (h : chan_marked x = some e) :
    e.diff_rate.gtQ e.slide_trigger_thr = true
      ∧ tp_type_t.TOUCHPAD_LINEAR_SLIDER.toNat ≤ e.button_type.toNat := by
  rcases x with ⟨_ | d, r, f⟩
  · simp [chan_marked] at h
  · simp only [chan_marked] at h
    split_ifs at h with hm
    simp only [Option.some.injEq] at h
    rw [step_marked, Bool.and_eq_true, decide_eq_true_eq] at hm
    obtain ⟨-, s2, -, -, -, -, -, s8, -⟩ := step_static d r f
    rw [← h, chan_rate, s8, s2]
    exact hm

/-- C28 (amended): the calls of a pass of `touch_pad_read_cb` are those of its main
loop, which never runs a Slide handler, followed by the Slide handler of the last
(highest-index) channel that the pass marked as slide-trigger source, when at
least one registered channel was marked and that last one has a Slide handler; so
a Slide handler is run if and only if that is the case, however many channels were
marked.  A marked channel has a slider button type and
`diff_rate > slide_trigger_thr`. -/
theorem C28_slide_of_last_marked (t : List (Option tp_dev_t)) (raw filt : List Nat) :
    (touch_pad_read_cb t raw filt).2
        = loop_effects t raw filt
          ++ (match (slide_marked t raw filt).getLast? with
              | some d => callback_exec d TOUCHPAD_CB_SLIDE
              | none => [])
      ∧ (∀ c, Effect.callback TOUCHPAD_CB_SLIDE c ∉ loop_effects t raw filt)
      ∧ (∀ c, Effect.callback TOUCHPAD_CB_SLIDE c ∈ (touch_pad_read_cb t raw filt).2
          ↔ ∃ d, (slide_marked t raw filt).getLast? = some d
              ∧ d.cb_group TOUCHPAD_CB_SLIDE = some c)
      ∧ (∀ e ∈ slide_marked t raw filt, e.diff_rate.gtQ e.slide_trigger_thr = true
          ∧ tp_type_t.TOUCHPAD_LINEAR_SLIDER.toNat ≤ e.button_type.toNat) := by
  have hl : ∀ c, Effect.callback TOUCHPAD_CB_SLIDE c ∉ loop_effects t raw filt :=
    fun c => loop_no_slide _ c
  refine ⟨read_cb_effects t raw filt, hl, ?_, ?_⟩
  · intro c
    rw [read_cb_effects, List.mem_append]
    constructor
    · rintro (h | h)
      · exact absurd h (hl c)
      · cases hg : (slide_marked t raw filt).getLast? with
        | none => rw [hg] at h; simp at h
        | some d =>
          rw [hg] at h
          refine ⟨d, rfl, ?_⟩
          have h2 : Effect.callback TOUCHPAD_CB_SLIDE c ∈ callback_exec d TOUCHPAD_CB_SLIDE := h
          unfold callback_exec at h2
          cases hc : d.cb_group TOUCHPAD_CB_SLIDE with
          | none => rw [hc] at h2; simp at h2
          | some b =>
            rw [hc] at h2
            simp only [List.mem_singleton, Effect.callback.injEq, true_and] at h2
            rw [h2]
    · rintro ⟨d, hd, hc⟩
      refine Or.inr ?_
      rw [hd]
      simp [callback_exec, hc]
  · intro e he
    obtain ⟨x, -, hx⟩ := List.mem_filterMap.mp he
    exact marked_cond x e hx

theorem example_slide_chan_step (a : Nat) :
    (touch_pad_read_cb_chan (example_slide_chan a) 900 1000).2.1 = []
      ∧ (touch_pad_read_cb_chan (example_slide_chan a) 900 1000).2.2 = true
      ∧ (touch_pad_read_cb_chan (example_slide_chan a) 900 1000).1.cb_group
          = (example_slide_chan a).cb_group := by
  have hb : (example_slide_chan a).baseline = 1000 := rfl
  have hr : diff_rate_of (example_slide_chan a).baseline 900 = FVal.num (1 / 10) := by
    rw [hb]; exact example_rate_high
  refine ⟨?_, ?_, ?_⟩
  · refine (step_high_count (example_slide_chan a) 900 1000 (Or.inl rfl) ?_ ?_ ?_ ?_ ?_).2
    · norm_num [example_slide_chan, example_dev, iot_tp_create_dev,
        TOUCHPAD_TOUCH_THRESHOLD_PERCENT, TOUCHPAD_NOISE_THRESHOLD_PERCENT,
        TOUCHPAD_HYSTERESIS_THRESHOLD_PERCENT]
    · rw [hr]
      norm_num [FVal.geQ, example_slide_chan, example_dev, iot_tp_create_dev,
        TOUCHPAD_TOUCH_THRESHOLD_PERCENT, TOUCHPAD_HYSTERESIS_THRESHOLD_PERCENT]
    · norm_num [example_slide_chan, example_dev, iot_tp_create_dev,
        TOUCHPAD_TOUCH_LOW_SENSE_THRESHOLD]
    · show 0 + 1 < 4
      decide
    · show 4 ≤ 65535
      decide
  · rw [step_marked, hr]
    norm_num [FVal.gtQ, example_slide_chan, tp_type_t.toNat]
  · exact (step_static (example_slide_chan a) 900 1000).2.2.2.2.2.2.2.2.2.2.2.2.1

/-- Counterexample to C28 as stated: in a pass over two registered slider channels
that are both above their slide trigger threshold, both are marked as
slide-trigger source, and the pass still runs a Slide handler, that of the second
channel. -/
theorem C28_counterexample :
    (slide_marked [some (example_slide_chan 1), some (example_slide_chan 2)]
        [900, 900] [1000, 1000]).length = 2
      ∧ (touch_pad_read_cb [some (example_slide_chan 1), some (example_slide_chan 2)]
        [900, 900] [1000, 1000]).2 = [Effect.callback TOUCHPAD_CB_SLIDE ⟨7, 2⟩] := by
  obtain ⟨a1, a2, a3⟩ := example_slide_chan_step 1
  obtain ⟨b1, b2, b3⟩ := example_slide_chan_step 2
  have hm : slide_marked [some (example_slide_chan 1), some (example_slide_chan 2)]
      [900, 900] [1000, 1000]
      = [(touch_pad_read_cb_chan (example_slide_chan 1) 900 1000).1,
         (touch_pad_read_cb_chan (example_slide_chan 2) 900 1000).1] := by
    simp only [slide_marked, List.zip_cons_cons, List.zip_nil_right, List.filterMap_cons,
      List.filterMap_nil, chan_marked, a2, b2, if_true]
  have hl : loop_effects [some (example_slide_chan 1), some (example_slide_chan 2)]
      [900, 900] [1000, 1000] = [] := by
    simp only [loop_effects, List.zip_cons_cons, List.zip_nil_right, List.map_cons,
      List.map_nil, List.foldr_cons, List.foldr_nil, chan_effects, a1, b1, List.append_nil]
  refine ⟨by rw [hm]; rfl, ?_⟩
  rw [read_cb_effects, hm, hl]
  simp only [List.getLast?_cons_cons, List.getLast?_singleton, List.nil_append]
  simp only [callback_exec, b3]
  rfl

theorem mem_loop_indices (n : Nat) (x : Int) (h : x ∈ loop_indices n) :
    0 ≤ x ∧ x < n := by
  unfold loop_indices at h
  rw [List.mem_map] at h
  obtain ⟨i, hi, rfl⟩ := h
  rw [List.mem_range] at hi
  omega

theorem mem_foldr_append {α β : Type} (f : α → List β) (l : List α) (x : β)
    (h : x ∈ (l.map f).foldr (fun a b => a ++ b) []) : ∃ a ∈ l, x ∈ f a := by
  induction l with
  | nil => simp at h
  | cons a l ih =>
    simp only [List.map_cons, List.foldr_cons, List.mem_append] at h
    rcases h with h | h
    · exact ⟨a, List.mem_cons_self a l, h⟩
    · obtain ⟨b, hb, hx⟩ := ih h
      exact ⟨b, List.mem_cons_of_mem a hb, hx⟩

theorem mem_scan_accesses (cv : List ℚ) (n : Nat) (x : Int) (h : x ∈ scan_accesses cv n) :
    0 ≤ x ∧ x < n := by
  unfold scan_accesses at h
  obtain ⟨i, hi, hx⟩ := mem_foldr_append _ _ _ h
  rw [List.mem_range] at hi
  by_cases h2 : 2 ≤ i
  · rw [if_pos h2] at hx
    split_ifs at hx <;> simp at hx <;> omega
  · rw [if_neg h2] at hx
    simp at hx

theorem scan_selected (cv : List ℚ) (n : Nat) (h : (slide_scan cv n).non0_cnt ≠ 0) :
    1 ≤ (slide_scan cv n).max_idx ∧ (slide_scan cv n).max_idx + 1 < n := by
  rcases (slide_scan_inv cv n).2 with ⟨-, -, h0⟩ | ⟨-, h1, h2, -⟩
  · exact absurd h0 h
  · exact ⟨h1, h2⟩

theorem mem_resolve_accesses (cv : List ℚ) (n : Nat) (x : Int)
    (h : x ∈ resolve_accesses n cv (slide_scan cv n)) : 0 ≤ x ∧ x < n := by
  unfold resolve_accesses at h
  by_cases h0 : (slide_scan cv n).non0_cnt = 0
  · simp [h0] at h
  · obtain ⟨h1, h2⟩ := scan_selected cv n h0
    simp only [h0, if_false] at h
    split_ifs at h <;>
      simp only [List.mem_append, List.mem_cons, List.mem_singleton, List.not_mem_nil,
        or_false] at h
    all_goals first
      | omega
      | exact mem_loop_indices n x h
      | (rcases h with h | h
         · exact mem_loop_indices n x h
         · omega)

/-- C30: for every slider (every combination of diff rates and thresholds of its
channels), every index at which `tp_slide_pos_cb` reads or writes the buffer of
excess values lies in `[0, tp_num)`; in particular, whenever the scan ends with
`non0_cnt > 0`, `max_idx ≥ 1` and `max_idx + 1 ≤ tp_num - 1`. -/
theorem C30_accesses_in_bounds (tp_slide : tp_slide_t) :
    (∀ x ∈ slide_accesses tp_slide, 0 ≤ x ∧ x < (tp_slide.tp_num : Int))
      ∧ (0 < (slide_scan (slide_calc_val tp_slide.tp_handles) tp_slide.tp_num).non0_cnt →
          1 ≤ (slide_scan (slide_calc_val tp_slide.tp_handles) tp_slide.tp_num).max_idx
            ∧ (slide_scan (slide_calc_val tp_slide.tp_handles) tp_slide.tp_num).max_idx + 1
                ≤ tp_slide.tp_num - 1) := by
  constructor
  · intro x hx
    unfold slide_accesses at hx
    simp only [List.mem_append] at hx
    rcases hx with ((hx | hx) | hx) | hx
    · exact mem_loop_indices _ x hx
    · exact mem_loop_indices _ x hx
    · exact mem_scan_accesses _ _ x hx
    · exact mem_resolve_accesses _ _ x hx
  · intro hpos
    obtain ⟨h1, h2⟩ := scan_selected (slide_calc_val tp_slide.tp_handles) tp_slide.tp_num
      (by omega)
    exact ⟨h1, by omega⟩

theorem slide_hook_thr (d : tp_dev_t) (arg : Nat) (ok : Bool) :
    (slide_hook d arg ok).slide_trigger_thr
      = TOUCHPAD_SLIDER_TRIGGER_THRESHOLD_PERCENT * (slide_hook d arg ok).touch_thr := by
  unfold slide_hook iot_tp_add_cb
  simp only []
  split_ifs <;> (try split) <;> simp [mul_comm]

/-- The slot `q` of the table is empty or holds a channel whose slide trigger
threshold is the slider percentage of its touch threshold. -/
theorem slide_create_hook_thr (al : tp_slide_alloc_t) (pads : List Nat) :
    ∀ (st st2 : tp_driver_t), slide_create_hook al pads st = some st2 →
      ∀ q, ((∀ d, st.tp_group.getD q none = some d →
              d.slide_trigger_thr = TOUCHPAD_SLIDER_TRIGGER_THRESHOLD_PERCENT * d.touch_thr)
            ∨ q ∈ pads) →
        ∀ d, st2.tp_group.getD q none = some d →
          d.slide_trigger_thr = TOUCHPAD_SLIDER_TRIGGER_THRESHOLD_PERCENT * d.touch_thr := by
  induction pads with
  | nil =>
    intro st st2 h q hq d hd
    simp only [slide_create_hook, Option.some.injEq] at h
    subst h
    rcases hq with hq | hq
    · exact hq d hd
    · exact absurd hq (List.not_mem_nil q)
  | cons p rest ih =>
    intro st st2 h q hq d hd
    simp only [slide_create_hook] at h
    cases hp : st.tp_group.getD p none with
    | none => rw [hp] at h; exact absurd h (by simp)
    | some e =>
      rw [hp] at h
      simp only [] at h
      refine ih _ st2 h q ?_ d hd
      by_cases hqp : q = p
      · left
        intro d1 hd1
        subst hqp
        have hlt : q < st.tp_group.length := by
          by_contra hge
          rw [List.getD_eq_getElem?_getD, List.getElem?_eq_none (by omega)] at hp
          exact absurd hp (by simp)
        simp only [List.getD_eq_getElem?_getD, List.getElem?_set_self hlt, Option.getD_some,
          Option.some.injEq] at hd1
        subst hd1
        exact slide_hook_thr e _ _
      · rcases hq with hq | hq
        · left
          intro d1 hd1
          simp only [List.getD_eq_getElem?_getD, List.getElem?_set_ne (Ne.symm hqp)] at hd1
          exact hq d1 (by rw [List.getD_eq_getElem?_getD]; exact hd1)
        · right
          rcases List.mem_cons.mp hq with hq | hq
          · exact absurd hq hqp
          · exact hq

theorem slide_create_handles (max : Nat) (env : tp_platform_t) (al : tp_slide_alloc_t)
    (st : tp_driver_t) (num : Nat) (tps : Option (List Nat)) (pos_range : Nat)
    (p_sensitivity : Option (List ℚ)) (sl : tp_slide_t) (st2 : tp_driver_t)
    (h : iot_tp_slide_create max env al st num tps pos_range p_sensitivity
      = some (some sl, st2)) :
    ∀ e ∈ sl.tp_handles,
      e.slide_trigger_thr = TOUCHPAD_SLIDER_TRIGGER_THRESHOLD_PERCENT * e.touch_thr := by
  unfold iot_tp_slide_create at h
  cases tps with
  | none => simp at h
  | some tps =>
    cases p_sensitivity with
    | none =>
      simp only [] at h
      split_ifs at h <;> simp at h
    | some sens =>
      simp only [] at h
      split_ifs at h
      all_goals first
        | (simp at h; done)
        | (cases ha : slide_create_attach max env
              ((List.range num).map (fun i => (tps.getD i 0, sens.getD i 0))) st with
           | none => rw [ha] at h; simp at h
           | some st1 =>
             rw [ha] at h
             simp only [] at h
             cases hh : slide_create_hook al
                 ((List.range num).map (fun i => tps.getD i 0)) st1 with
             | none => rw [hh] at h; simp at h
             | some st3 =>
               rw [hh] at h
               simp only [Option.some.injEq, Prod.mk.injEq] at h
               obtain ⟨hsl, hst⟩ := h
               subst hsl
               intro e he
               simp only [List.mem_filterMap] at he
               obtain ⟨pad, hpad, hget⟩ := he
               exact slide_create_hook_thr al _ st1 st3 hh pad (Or.inr hpad) e hget)

theorem create_thresholds (max : Nat) (env : tp_platform_t) (st : tp_driver_t)
    (pad : Nat) (s : ℚ) (d : tp_dev_t) (st1 : tp_driver_t)
    (h : iot_tp_create max env st pad s = (some d, st1)) :
    d = iot_tp_create_dev pad s (initial_value env pad) := by
  unfold iot_tp_create at h
  split_ifs at h
  all_goals first
    | (simp at h; done)
    | (simp only [] at h
       cases hg : st.tp_group.getD pad none with
       | some x =>
         rw [hg] at h
         simp at h
       | none =>
         rw [hg] at h
         simp only [Prod.mk.injEq, Option.some.injEq] at h
         exact h.1.symm)

/-- C21: every channel that `iot_tp_create` returns for the sensitivity `s` has
`touch_thr = 0.75 · s`, `noise_thr = 0.20 · touch_thr`,
`hysteresis_thr = 0.10 · touch_thr` and `baseline_reset_thr = 0.20 · touch_thr` (for
`s = 0.10`: 0.075, 0.015 and 0.0075), and every channel of a slider that
`iot_tp_slide_create` returns has `slide_trigger_thr = 0.50 · touch_thr`. -/
theorem C21_thresholds (max : Nat) (env : tp_platform_t) (al : tp_slide_alloc_t)
    (st st0 : tp_driver_t) (pad : Nat) (s : ℚ) (d : tp_dev_t) (st1 : tp_driver_t)
    (num : Nat) (tps : Option (List Nat)) (pos_range : Nat) (p_sensitivity : Option (List ℚ))
    (sl : tp_slide_t) (st2 : tp_driver_t)
    (hc : iot_tp_create max env st pad s = (some d, st1))
    (hs : iot_tp_slide_create max env al st0 num tps pos_range p_sensitivity
      = some (some sl, st2)) :
    (d.touch_thr = (75 / 100) * s ∧ d.noise_thr = (20 / 100) * d.touch_thr
        ∧ d.hysteresis_thr = (10 / 100) * d.touch_thr
        ∧ d.baseline_reset_thr = (20 / 100) * d.touch_thr)
      ∧ (s = 10 / 100 →
          d.touch_thr = 75 / 1000 ∧ d.noise_thr = 15 / 1000 ∧ d.hysteresis_thr = 75 / 10000)
      ∧ (∀ e ∈ sl.tp_handles, e.slide_trigger_thr = (50 / 100) * e.touch_thr) := by
  have hd := create_thresholds max env st pad s d st1 hc
  have ht : d.touch_thr = (75 / 100) * s := by
    rw [hd]; simp only [iot_tp_create_dev, TOUCHPAD_TOUCH_THRESHOLD_PERCENT]; ring
  have hn : d.noise_thr = (20 / 100) * d.touch_thr := by
    rw [hd]; simp only [iot_tp_create_dev, TOUCHPAD_NOISE_THRESHOLD_PERCENT]; ring
  have hh : d.hysteresis_thr = (10 / 100) * d.touch_thr := by
    rw [hd]; simp only [iot_tp_create_dev, TOUCHPAD_HYSTERESIS_THRESHOLD_PERCENT]; ring
  have hb : d.baseline_reset_thr = (20 / 100) * d.touch_thr := by
    rw [hd]; simp only [iot_tp_create_dev, TOUCHPAD_BASELINE_RESET_THRESHOLD_PERCENT]; ring
  refine ⟨⟨ht, hn, hh, hb⟩, ?_, ?_⟩
  · intro hs10
    rw [hn, hh, ht, hs10]
    norm_num
  · intro e he
    have := slide_create_handles max env al st0 num tps pos_range p_sensitivity sl st2 hs e he
    rw [this, TOUCHPAD_SLIDER_TRIGGER_THRESHOLD_PERCENT]

theorem example_slide_attach :
    slide_create_attach 10 example_platform [(3, 1 / 10), (4, 1 / 10)] example_driver
      = some { g_init_flag := true
               tp_group := (example_driver.tp_group.set 3
                 (some (iot_tp_create_dev 3 (1 / 10) (initial_value example_platform 3)))).set 4
                 (some (iot_tp_create_dev 4 (1 / 10) (initial_value example_platform 4))) } := by
  have h3 : example_driver.tp_group.getD 3 none = none := rfl
  have c3 := create_eq 10 example_platform example_driver 3 (1 / 10) (Or.inr ⟨rfl, rfl⟩)
  rw [if_pos ⟨by decide, by norm_num, rfl⟩] at c3
  have h4 : (example_driver.tp_group.set 3
      (some (iot_tp_create_dev 3 (1 / 10) (initial_value example_platform 3)))).getD 4 none
        = none := rfl
  have c4 := create_eq 10 example_platform
    { g_init_flag := true
      tp_group := example_driver.tp_group.set 3
        (some (iot_tp_create_dev 3 (1 / 10) (initial_value example_platform 3))) }
    4 (1 / 10) (Or.inl rfl)
  rw [if_pos ⟨by decide, by norm_num, rfl⟩] at c4
  simp only [slide_create_attach, h3, c3, h4, c4]

theorem example_slide_hooked :
    slide_create_hook example_slide_alloc [3, 4]
        { g_init_flag := true
          tp_group := (example_driver.tp_group.set 3
            (some (iot_tp_create_dev 3 (1 / 10) (initial_value example_platform 3)))).set 4
            (some (iot_tp_create_dev 4 (1 / 10) (initial_value example_platform 4))) }
      = some example_driver_slide :=
  rfl

theorem example_slide_created :
    iot_tp_slide_create 10 example_platform example_slide_alloc example_driver 2
      (some [3, 4]) 20 (some [1 / 10, 1 / 10])
        = some (some example_slide_new, example_driver_slide) := by
  have hr : (List.range 2).map (fun i => (([3, 4] : List Nat).getD i 0,
      ([1 / 10, 1 / 10] : List ℚ).getD i 0)) = [(3, 1 / 10), (4, 1 / 10)] := rfl
  have hp : (List.range 2).map (fun i => ([3, 4] : List Nat).getD i 0) = [3, 4] := rfl
  unfold iot_tp_slide_create
  simp only [hr, hp, example_slide_attach, example_slide_hooked]
  rw [if_neg (by decide), if_neg (by simp [example_slide_alloc]),
    if_neg (by simp [example_slide_alloc])]
  rfl

theorem example_create_three :
    iot_tp_create 10 example_platform example_driver 3 (10 / 100)
      = (some (iot_tp_create_dev 3 (10 / 100) 1000),
         { g_init_flag := true
           tp_group := example_driver.tp_group.set 3
             (some (iot_tp_create_dev 3 (10 / 100) 1000)) }) := by
  rw [create_eq 10 example_platform example_driver 3 (10 / 100) (Or.inr ⟨rfl, rfl⟩)]
  rw [if_pos ⟨by decide, by norm_num, rfl⟩]
  rfl

/-- Witness for C21: pad 3 created with sensitivity 0.10, and the slider of the pads
3 and 4 created on the empty table. -/
theorem C21_thresholds_witness :
    iot_tp_create 10 example_platform example_driver 3 (10 / 100)
        = (some (iot_tp_create_dev 3 (10 / 100) 1000),
           { g_init_flag := true
             tp_group := example_driver.tp_group.set 3
               (some (iot_tp_create_dev 3 (10 / 100) 1000)) })
      ∧ iot_tp_slide_create 10 example_platform example_slide_alloc example_driver 2
          (some [3, 4]) 20 (some [1 / 10, 1 / 10])
            = some (some example_slide_new, example_driver_slide)
      ∧ ((iot_tp_create_dev 3 (10 / 100) 1000).touch_thr = 75 / 1000
          ∧ (iot_tp_create_dev 3 (10 / 100) 1000).noise_thr = 15 / 1000
          ∧ (iot_tp_create_dev 3 (10 / 100) 1000).hysteresis_thr = 75 / 10000)
      ∧ ∀ e ∈ example_slide_new.tp_handles, e.slide_trigger_thr = (50 / 100) * e.touch_thr :=
  ⟨example_create_three, example_slide_created,
    (C21_thresholds 10 example_platform example_slide_alloc example_driver example_driver 3
      (10 / 100) _ _ 2 (some [3, 4]) 20 (some [1 / 10, 1 / 10]) example_slide_new
      example_driver_slide example_create_three example_slide_created).2.1 rfl,
    (C21_thresholds 10 example_platform example_slide_alloc example_driver example_driver 3
      (10 / 100) _ _ 2 (some [3, 4]) 20 (some [1 / 10, 1 / 10]) example_slide_new
      example_driver_slide example_create_three example_slide_created).2.2⟩

/-- C32: for every channel whose entry of `filtered_temp` is 0 and every 16-bit raw
sample `r`, the filter step of the processing task seeds the entry to `r << 4`
before filtering: the new entry is `r << 4` and the filtered value handed to
`touch_pad_read_cb` on that cycle is `r`. -/
theorem C32_filter_seed (r : Nat) (hr : r < 65536) :
    Thread_filter_chan r 0 = (r * 2 ^ 4, r) := by
  obtain ⟨h1, h2, -⟩ := filter_step_val r 0 hr (by omega)
  rw [if_pos rfl] at h1
  have e2 : (Thread_filter_chan r 0).2 = r := by
    rw [h2, h1]
    omega
  have e1 : (Thread_filter_chan r 0).1 = r * 2 ^ 4 := by
    rw [h1]
    omega
  exact Prod.ext e1 e2

/-- Witness for C32: the raw sample 1000 on a fresh entry. -/
theorem C32_filter_seed_witness :
    (1000 < 65536) ∧ Thread_filter_chan 1000 0 = (16000, 1000) :=
  ⟨by decide, C32_filter_seed 1000 (by decide)⟩

/-- C33: for every matrix group with an active cell `(r, c)` (the state is not Idle
and `active_idx = r * y_num + c` with `c < y_num`), a call of `tp_matrix_release_cb`
that comes from a row, whatever its index, sets `active_state` to Idle, changes
nothing else in the group and runs the Release handler (if one is registered) with
`(r, c)`; and when no cell is active, `tp_matrix_release_cb` leaves the group as
it is and calls nothing, from a row or a column alike. -/
theorem C33_row_release (m : tp_matrix_t) (arg : tp_matrix_arg_t) (r c : Nat)
    (hrow : arg.type = tp_matrix_type_t.TOUCHPAD_MATRIX_ROW)
    (hact : m.active_state ≠ TOUCHPAD_STATE_IDLE)
    (hidx : m.active_idx = r * m.y_num + c) (hc : c < m.y_num) :
    (tp_matrix_release_cb m arg).1 = { m with active_state := TOUCHPAD_STATE_IDLE }
      ∧ matrix_calls (tp_matrix_release_cb m arg).2
          = (match m.cb_group TOUCHPAD_CB_RELEASE with
             | some cb_info => [MatrixEffect.callback TOUCHPAD_CB_RELEASE cb_info r c]
             | none => [])
      ∧ (∀ (m0 : tp_matrix_t) (arg0 : tp_matrix_arg_t),
          m0.active_state = TOUCHPAD_STATE_IDLE → tp_matrix_release_cb m0 arg0 = (m0, [])) := by
  have hy : 0 < m.y_num := by omega
  have hdiv : m.active_idx / m.y_num = r := by
    rw [hidx, Nat.add_comm, Nat.add_mul_div_right _ _ hy, Nat.div_eq_of_lt hc, Nat.zero_add]
  have hmod : m.active_idx % m.y_num = c := by
    rw [hidx, Nat.add_comm, Nat.add_mul_mod_self_right, Nat.mod_eq_of_lt hc]
  refine ⟨?_, ?_, ?_⟩
  · simp [tp_matrix_release_cb, hrow, hact]
  · simp only [tp_matrix_release_cb, hrow, ne_eq, not_true_eq_false, false_and, if_false, hact,
      not_false_eq_true, if_true, hdiv, hmod, matrix_calls_append, matrix_calls_stop,
      CONFIG_TOUCH_PAD_USE_CB_CUSTOM, CONFIG_TOUCH_PAD_USE_CB_SERIAL, List.append_nil]
    cases m.serial_tmr <;> cases m.cb_group TOUCHPAD_CB_RELEASE <;> simp [matrix_calls]
  · intro m0 arg0 h0
    unfold tp_matrix_release_cb
    rw [if_neg (not_not.mpr h0)]
    split_ifs <;> rfl

/-- Witness for C33: cell (1, 1) of the 2 x 2 example group is active and the release
comes from row 0. -/
theorem C33_row_release_witness :
    (tp_matrix_release_cb example_matrix_active
        ⟨0, tp_matrix_type_t.TOUCHPAD_MATRIX_ROW⟩).1.active_state = TOUCHPAD_STATE_IDLE
      ∧ matrix_calls (tp_matrix_release_cb example_matrix_active
          ⟨0, tp_matrix_type_t.TOUCHPAD_MATRIX_ROW⟩).2
        = [MatrixEffect.callback TOUCHPAD_CB_RELEASE ⟨12, 7⟩ 1 1]
      ∧ tp_matrix_release_cb example_matrix_idle ⟨1, tp_matrix_type_t.TOUCHPAD_MATRIX_ROW⟩
        = (example_matrix_idle, []) :=
  have h := C33_row_release example_matrix_active ⟨0, tp_matrix_type_t.TOUCHPAD_MATRIX_ROW⟩ 1 1
    rfl (by decide) rfl (by decide)
  ⟨by rw [h.1], h.2.1, h.2.2 example_matrix_idle _ rfl⟩

theorem iir_between (f : Nat → Nat → Nat → Nat)
    (hf : ∀ a b k, f a b k = if k = 0 then a else ((a + (k - 1) * b) % 2 ^ 32) / k)
    (in_now out_last k : Nat) (hk : 1 ≤ k) (hsum : in_now + (k - 1) * out_last < 2 ^ 32) :
    f in_now out_last k = (in_now + (k - 1) * out_last) / k
      ∧ min in_now out_last ≤ f in_now out_last k
      ∧ f in_now out_last k ≤ max in_now out_last := by
  have hv : f in_now out_last k = (in_now + (k - 1) * out_last) / k := by
    rw [hf, if_neg (by omega), Nat.mod_eq_of_lt hsum]
  obtain ⟨j, rfl⟩ : ∃ j, k = j + 1 := ⟨k - 1, by omega⟩
  have hj : j + 1 - 1 = j := by omega
  rw [hj] at hv hsum
  refine ⟨by rw [hj]; exact hv, ?_, ?_⟩
  · rw [hv, Nat.le_div_iff_mul_le (by omega)]
    rcases le_total in_now out_last with h | h
    · rw [min_eq_left h]
      have := Nat.mul_le_mul_left j h
      nlinarith
    · rw [min_eq_right h]
      nlinarith
  · rw [hv]
    apply Nat.div_le_of_le_mul
    rcases le_total in_now out_last with h | h
    · rw [max_eq_right h]
      nlinarith
    · rw [max_eq_left h]
      have := Nat.mul_le_mul_left j h
      nlinarith

/-- C35: for every `k ≥ 1` and all `in_now`, `out_last` with
`in_now + (k - 1) * out_last < 2^32`, the result of `touch_filter_iir` (and of
`_slider_filter_iir`) is `(in_now + (k - 1) * out_last) / k`, lies between
`min in_now out_last` and `max in_now out_last`, and is `in_now` when the two
inputs are equal. -/
theorem C35_filter_between (in_now out_last k : Nat) (hk : 1 ≤ k)
    (hsum : in_now + (k - 1) * out_last < 2 ^ 32) :
    (min in_now out_last ≤ touch_filter_iir in_now out_last k
        ∧ touch_filter_iir in_now out_last k ≤ max in_now out_last)
      ∧ (min in_now out_last ≤ _slider_filter_iir in_now out_last k
        ∧ _slider_filter_iir in_now out_last k ≤ max in_now out_last)
      ∧ (in_now = out_last →
          touch_filter_iir in_now out_last k = in_now
            ∧ _slider_filter_iir in_now out_last k = in_now) := by
  have ht := iir_between touch_filter_iir filter_iir_eq in_now out_last k hk hsum
  have hs := iir_between _slider_filter_iir slider_filter_iir_eq in_now out_last k hk hsum
  refine ⟨ht.2, hs.2, ?_⟩
  intro heq
  have h1 := ht.2
  have h2 := hs.2
  rw [heq, min_self, max_self] at h1 h2
  rw [heq]
  exact ⟨le_antisymm h1.2 h1.1, le_antisymm h2.2 h2.1⟩

/-- Witness for C35: the inputs 160 and 100 with the factor 4 give 115. -/
theorem C35_filter_between_witness :
    touch_filter_iir 160 100 4 = 115
      ∧ min 160 100 ≤ touch_filter_iir 160 100 4 ∧ touch_filter_iir 160 100 4 ≤ max 160 100 :=
  ⟨by decide, (C35_filter_between 160 100 4 (by decide) (by decide)).1⟩

theorem step_counters (d : tp_dev_t) (raw f : Nat) (h : CountersInv d) :
    CountersInv (touch_pad_read_cb_chan d raw f).1 := by
  obtain ⟨h1, h2, h3⟩ := h
  unfold touch_pad_read_cb_chan CountersInv
  simp only [CONFIG_TOUCH_PAD_USE_CB_SERIAL, CONFIG_TOUCH_PAD_USE_CB_CUSTOM,
    CONFIG_TOUCH_PAD_USE_CB_TAP_EVENT, if_true, true_and]
  split_ifs <;> simp only [] <;> (refine ⟨?_, ?_, ?_⟩ <;> omega)

theorem step_debounce_cleared (d : tp_dev_t) (raw f : Nat) :
    (touch_pad_read_cb_chan d raw f).1.debounce_count = 0
      ∨ (touch_pad_read_cb_chan d raw f).1.state = d.state
      ∨ (d.state = TOUCHPAD_STATE_RELEASE
          ∧ (touch_pad_read_cb_chan d raw f).1.state = TOUCHPAD_STATE_IDLE) := by
  unfold touch_pad_read_cb_chan
  simp only [CONFIG_TOUCH_PAD_USE_CB_SERIAL, CONFIG_TOUCH_PAD_USE_CB_CUSTOM,
    CONFIG_TOUCH_PAD_USE_CB_TAP_EVENT, if_true, true_and]
  split_ifs with h1 <;>
    first
      | exact Or.inl rfl
      | exact Or.inr (Or.inl rfl)
      | (rcases h1 with h1 | h1
         · exact Or.inr (Or.inl h1.symm)
         · exact Or.inr (Or.inr ⟨h1, rfl⟩))

theorem create_counters (max : Nat) (env : tp_platform_t) (st : tp_driver_t) (id : Nat)
    (s : ℚ) (e : tp_dev_t) (h : (iot_tp_create max env st id s).1 = some e) :
    CountersInv e ∧ 1 ≤ e.debounce_th := by
  cases hr : iot_tp_create max env st id s with
  | mk a st1 =>
    rw [hr] at h
    simp only [] at h
    subst h
    rw [create_thresholds max env st id s e st1 hr]
    exact ⟨⟨show 0 < 80 / 20 by decide, Nat.zero_le _, Nat.zero_le _⟩,
      show 1 ≤ 80 / 20 by decide⟩

/-- C34: for every channel whose counters are within their thresholds
(`debounce_count < debounce_th`, hence `debounce_th ≥ 1`, `bl_reset_count ≤
bl_reset_count_th` and `bl_update_count ≤ bl_update_count_th`), they still are after
one cycle of `touch_pad_read_cb`, for the channel alone and for every channel of a
table after a pass; the channel that `iot_tp_create` returns has them so; and after a
cycle in which the state changed, other than from Release to Idle, `debounce_count`
is 0. -/
theorem C34_counters_within_thresholds (d : tp_dev_t) (raw f : Nat) (h : CountersInv d) :
    CountersInv (touch_pad_read_cb_chan d raw f).1
      ∧ ((touch_pad_read_cb_chan d raw f).1.state ≠ d.state →
          ¬ (d.state = TOUCHPAD_STATE_RELEASE
              ∧ (touch_pad_read_cb_chan d raw f).1.state = TOUCHPAD_STATE_IDLE) →
          (touch_pad_read_cb_chan d raw f).1.debounce_count = 0)
      ∧ (∀ (max : Nat) (env : tp_platform_t) (st : tp_driver_t) (id : Nat) (s : ℚ)
          (e : tp_dev_t), (iot_tp_create max env st id s).1 = some e →
            CountersInv e ∧ 1 ≤ e.debounce_th)
      ∧ (∀ (t : List (Option tp_dev_t)) (raws filts : List Nat),
          (∀ (i : Nat) (e : tp_dev_t), t[i]? = some (some e) → CountersInv e) →
          ∀ (i : Nat) (e : tp_dev_t),
            (touch_pad_read_cb t raws filts).1[i]? = some (some e) → CountersInv e) := by
  refine ⟨step_counters d raw f h, ?_, create_counters, ?_⟩
  · intro hne hex
    rcases step_debounce_cleared d raw f with h0 | h0 | h0
    · exact h0
    · exact absurd h0 hne
    · exact absurd h0 hex
  · intro t raws filts ht i e he
    obtain ⟨d0, r0, f0, hd0, -, -, rfl⟩ := read_cb_slot_inv t raws filts i e he
    exact step_counters d0 r0 f0 (ht i d0 hd0)

/-- Witness for C34: one cycle of the example channel above its push level. -/
theorem C34_counters_within_thresholds_witness :
    CountersInv example_dev ∧ CountersInv (touch_pad_read_cb_chan example_dev 900 1000).1 :=
  ⟨⟨by decide, by decide, by decide⟩,
    (C34_counters_within_thresholds example_dev 900 1000
      ⟨by decide, by decide, by decide⟩).1⟩

/-- Counterexample to C34 as stated: the example channel in state Release, with
`debounce_count = 0`, goes to Idle on a cycle with `diff_rate = 0.10` (above
`touch_thr + hysteresis_thr`) and has `debounce_count = 1` afterwards. -/
theorem C34_counterexample :
    CountersInv example_dev_released
      ∧ example_dev_released.state = TOUCHPAD_STATE_RELEASE
      ∧ (touch_pad_read_cb_chan example_dev_released 900 1000).1.state = TOUCHPAD_STATE_IDLE
      ∧ (touch_pad_read_cb_chan example_dev_released 900 1000).1.debounce_count = 1 := by
  have hb : example_dev_released.baseline = 1000 := rfl
  have hs := step_high_count example_dev_released 900 1000 (Or.inr rfl)
    (by norm_num [example_dev_released, example_dev, iot_tp_create_dev,
      TOUCHPAD_TOUCH_THRESHOLD_PERCENT, TOUCHPAD_NOISE_THRESHOLD_PERCENT,
      TOUCHPAD_HYSTERESIS_THRESHOLD_PERCENT])
    (by rw [hb, example_rate_high]
        norm_num [FVal.geQ, example_dev_released, example_dev, iot_tp_create_dev,
          TOUCHPAD_TOUCH_THRESHOLD_PERCENT, TOUCHPAD_HYSTERESIS_THRESHOLD_PERCENT])
    (by norm_num [example_dev_released, example_dev, iot_tp_create_dev,
      TOUCHPAD_TOUCH_LOW_SENSE_THRESHOLD])
    (by decide) (by decide)
  refine ⟨⟨by decide, by decide, by decide⟩, rfl, ?_, ?_⟩
  · rw [hs.1]
  · rw [hs.1]
    rfl

theorem scan_small (cv : List ℚ) (n : Nat) (hn : n < 3) : slide_scan cv n = ⟨0, 0, 0⟩ := by
  interval_cases n <;> simp [slide_scan, List.range_succ, slide_scan_step]

/-- C38: for every slider of fewer than 3 channels and every vector of excess
values, the window loop of `tp_slide_pos_cb` selects nothing (`val_sum`, `max_idx`
and `non0_cnt` stay 0) and reads no window, so the resolved raw position is the
previous `slide_pos`. -/
theorem C38_small_slider (s : tp_slide_t) (hn : s.tp_num < 3) :
    (∀ cv : List ℚ, slide_scan cv s.tp_num = ⟨0, 0, 0⟩)
      ∧ (∀ cv : List ℚ, scan_accesses cv s.tp_num = [])
      ∧ (∀ cv : List ℚ, slide_resolve s cv (slide_scan cv s.tp_num) = some s.slide_pos)
      ∧ (slide_modelled s = true → slide_pos_temp s = some s.slide_pos) := by
  have h1 : ∀ cv : List ℚ, slide_scan cv s.tp_num = ⟨0, 0, 0⟩ :=
    fun cv => scan_small cv s.tp_num hn
  have h3 : ∀ cv : List ℚ, slide_resolve s cv (slide_scan cv s.tp_num) = some s.slide_pos := by
    intro cv
    rw [h1 cv]
    simp [slide_resolve]
  refine ⟨h1, ?_, h3, ?_⟩
  · intro cv
    unfold scan_accesses
    have hn2 : s.tp_num = 0 ∨ s.tp_num = 1 ∨ s.tp_num = 2 := by omega
    rcases hn2 with h | h | h <;> rw [h] <;> simp [List.range_succ]
  · intro hmod
    unfold slide_pos_temp
    rw [if_pos hmod]
    exact h3 _

theorem example_pair_modelled : slide_modelled example_slide_pair = true := by
  simp [slide_modelled, example_slide_pair, example_slide_dev]

/-- Witness for C38: two channels, both far above their trigger threshold. -/
theorem C38_small_slider_witness :
    example_slide_pair.tp_num < 3 ∧ slide_pos_temp example_slide_pair = some 255 :=
  ⟨by decide, (C38_small_slider example_slide_pair (by decide)).2.2.2 example_pair_modelled⟩

theorem floor_toNat_le (q : ℚ) (h0 : 0 ≤ q) : ((Int.toNat ⌊q⌋ : Nat) : ℚ) ≤ q := by
  have h1 : (0 : Int) ≤ ⌊q⌋ := Int.floor_nonneg.mpr h0
  have h2 : ((Int.toNat ⌊q⌋ : Nat) : Int) = ⌊q⌋ := Int.toNat_of_nonneg h1
  have h3 : ((Int.toNat ⌊q⌋ : Nat) : ℚ) = ((⌊q⌋ : Int) : ℚ) := by
    rw [← Int.cast_natCast, h2]
  rw [h3]
  exact Int.floor_le q

theorem convert_in_range (q R : ℚ) (h0 : 0 ≤ q) (h1 : q ≤ R) (hR : R < 2 ^ 32) :
    ∃ P : Nat, float_to_uint32 q = some P ∧ (P : ℚ) ≤ R :=
  ⟨Int.toNat ⌊q⌋, float_to_uint32_nonneg q h0 (lt_of_le_of_lt h1 hR),
    le_trans (floor_toNat_le q h0) h1⟩

theorem centroid_in_range (a b c R : ℚ) (m n : Nat) (ha : 0 ≤ a) (hb : 0 ≤ b) (hc : 0 ≤ c)
    (hs : 0 < a + b + c) (hm : 1 ≤ m) (hmn : m + 1 < n) (hR : 0 ≤ R) :
    0 ≤ (((m - 1 : Nat) : ℚ) * a + (m : ℚ) * b + ((m + 1 : Nat) : ℚ) * c)
          * (R / ((n : ℚ) - 1)) / (a + b + c)
      ∧ (((m - 1 : Nat) : ℚ) * a + (m : ℚ) * b + ((m + 1 : Nat) : ℚ) * c)
          * (R / ((n : ℚ) - 1)) / (a + b + c) ≤ R := by
  have hn1 : (0 : ℚ) < (n : ℚ) - 1 := by
    have : ((m + 1 : Nat) : ℚ) < (n : ℚ) := by exact_mod_cast hmn
    have h0 : (0 : ℚ) ≤ (m : ℚ) := Nat.cast_nonneg m
    push_cast at this
    linarith
  have hm1 : (0 : ℚ) ≤ ((m - 1 : Nat) : ℚ) := Nat.cast_nonneg _
  have hm0 : (0 : ℚ) ≤ (m : ℚ) := Nat.cast_nonneg _
  have hm2 : (0 : ℚ) ≤ ((m + 1 : Nat) : ℚ) := Nat.cast_nonneg _
  have hu1 : ((m - 1 : Nat) : ℚ) ≤ (n : ℚ) - 1 := by
    have : ((m - 1 : Nat) : ℚ) ≤ ((n - 1 : Nat) : ℚ) := by exact_mod_cast (by omega : m - 1 ≤ n - 1)
    rw [Nat.cast_sub (by omega : 1 ≤ n)] at this
    simpa using this
  have hu0 : (m : ℚ) ≤ (n : ℚ) - 1 := by
    have : (m : ℚ) ≤ ((n - 1 : Nat) : ℚ) := by exact_mod_cast (by omega : m ≤ n - 1)
    rw [Nat.cast_sub (by omega : 1 ≤ n)] at this
    simpa using this
  have hu2 : ((m + 1 : Nat) : ℚ) ≤ (n : ℚ) - 1 := by
    have : ((m + 1 : Nat) : ℚ) ≤ ((n - 1 : Nat) : ℚ) := by exact_mod_cast (by omega : m + 1 ≤ n - 1)
    rw [Nat.cast_sub (by omega : 1 ≤ n)] at this
    simpa using this
  have hW0 : 0 ≤ ((m - 1 : Nat) : ℚ) * a + (m : ℚ) * b + ((m + 1 : Nat) : ℚ) * c := by
    positivity
  have hW1 : ((m - 1 : Nat) : ℚ) * a + (m : ℚ) * b + ((m + 1 : Nat) : ℚ) * c
      ≤ ((n : ℚ) - 1) * (a + b + c) := by
    have e1 := mul_le_mul_of_nonneg_right hu1 ha
    have e2 := mul_le_mul_of_nonneg_right hu0 hb
    have e3 := mul_le_mul_of_nonneg_right hu2 hc
    linarith
  constructor
  · exact div_nonneg (mul_nonneg hW0 (div_nonneg hR (le_of_lt hn1))) (le_of_lt hs)
  · rw [div_le_iff₀ hs, mul_div_assoc', div_le_iff₀ hn1]
    have := mul_le_mul_of_nonneg_right hW1 hR
    linarith

theorem index_in_range (i n : Nat) (R : ℚ) (hi : i + 1 ≤ n) (hn : 2 ≤ n) (hR : 0 ≤ R) :
    0 ≤ (i : ℚ) * (R / ((n : ℚ) - 1)) ∧ (i : ℚ) * (R / ((n : ℚ) - 1)) ≤ R := by
  have hn1 : (0 : ℚ) < (n : ℚ) - 1 := by
    have : ((2 : Nat) : ℚ) ≤ (n : ℚ) := by exact_mod_cast hn
    push_cast at this
    linarith
  have hi0 : (0 : ℚ) ≤ (i : ℚ) := Nat.cast_nonneg i
  have hi1 : (i : ℚ) ≤ (n : ℚ) - 1 := by
    have : ((i + 1 : Nat) : ℚ) ≤ (n : ℚ) := by exact_mod_cast hi
    push_cast at this
    linarith
  constructor
  · exact mul_nonneg hi0 (div_nonneg hR (le_of_lt hn1))
  · rw [mul_div_assoc', div_le_iff₀ hn1]
    have := mul_le_mul_of_nonneg_right hi1 hR
    linarith

theorem resolve_assigned (s : tp_slide_t) (cv : List ℚ)
    (hnn : ∀ i, 0 ≤ cv.getD i 0) (hn : 3 ≤ s.tp_num)
    (hscale : s.pos_scale = s.pos_range / ((s.tp_num : ℚ) - 1))
    (hr0 : 0 ≤ s.pos_range) (hr1 : s.pos_range < 2 ^ 32)
    (hassign : slide_assigns s cv (slide_scan cv s.tp_num) = true) :
    ∃ P : Nat, slide_resolve s cv (slide_scan cv s.tp_num) = some P
      ∧ (P : ℚ) ≤ s.pos_range := by
  have hne : (slide_scan cv s.tp_num).non0_cnt ≠ 0 := by
    intro h0
    simp [slide_assigns, h0] at hassign
  rcases (slide_scan_inv cv s.tp_num).2 with ⟨-, -, h0⟩ | ⟨hv, hm, hmn, hsum, -, -⟩
  · exact absurd h0 hne
  generalize slide_scan cv s.tp_num = sc at *
  have ha := hnn (sc.max_idx - 1)
  have hb := hnn sc.max_idx
  have hc := hnn (sc.max_idx + 1)
  have hsum2 : sc.val_sum = cv.getD (sc.max_idx - 1) 0 + cv.getD sc.max_idx 0
      + cv.getD (sc.max_idx + 1) 0 := by
    rw [hsum]
    unfold neb_sum
    rw [show sc.max_idx + 1 - 2 = sc.max_idx - 1 by omega,
      show sc.max_idx + 1 - 1 = sc.max_idx by omega]
  have hS : 0 < cv.getD (sc.max_idx - 1) 0 + cv.getD sc.max_idx 0
      + cv.getD (sc.max_idx + 1) 0 := by
    rw [← hsum2]
    exact hv
  have key := centroid_in_range _ _ _ s.pos_range sc.max_idx s.tp_num ha hb hc hS hm hmn hr0
  unfold slide_assigns at hassign
  unfold slide_resolve
  simp only [] at hassign ⊢
  rw [if_neg hne] at hassign ⊢
  by_cases h1 : sc.non0_cnt = 1
  · rw [if_pos h1] at hassign ⊢
    by_cases hz : (cv.take s.tp_num).countP (fun v => decide (0 < v)) % 256 ≤ sc.non0_cnt
    · rw [if_pos hz] at hassign ⊢
      cases hf : [sc.max_idx - 1, sc.max_idx, sc.max_idx + 1].find?
          (fun i => decide (cv.getD i 0 ≠ 0)) with
      | none =>
        rw [hf] at hassign
        exact absurd hassign (by simp)
      | some i =>
        simp only []
        have hi : i ∈ [sc.max_idx - 1, sc.max_idx, sc.max_idx + 1] :=
          List.mem_of_find?_eq_some hf
        have hile : i + 1 ≤ s.tp_num := by
          simp only [List.mem_cons, List.mem_singleton, List.not_mem_nil, or_false] at hi
          omega
        by_cases hlast : (i : Int) = (s.tp_num : Int) - 1
        · rw [if_pos hlast]
          exact convert_in_range _ _ hr0 le_rfl hr1
        · rw [if_neg hlast, hscale]
          have hr := index_in_range i s.tp_num s.pos_range hile (by omega) hr0
          exact convert_in_range _ _ hr.1 hr.2 hr1
    · rw [if_neg hz] at hassign
      exact absurd hassign (by simp)
  · rw [if_neg h1] at hassign ⊢
    by_cases h2 : sc.non0_cnt = 2
    · rw [if_pos h2] at hassign ⊢
      by_cases ha0 : 0 = cv.getD (sc.max_idx - 1) 0
      · rw [if_pos ha0]
        have e : (((sc.max_idx + 1 : Nat) : ℚ) * cv.getD (sc.max_idx + 1) 0
              + (sc.max_idx : ℚ) * cv.getD sc.max_idx 0) * s.pos_scale / sc.val_sum
            = (((sc.max_idx - 1 : Nat) : ℚ) * cv.getD (sc.max_idx - 1) 0
                + (sc.max_idx : ℚ) * cv.getD sc.max_idx 0
                + ((sc.max_idx + 1 : Nat) : ℚ) * cv.getD (sc.max_idx + 1) 0)
              * (s.pos_range / ((s.tp_num : ℚ) - 1))
              / (cv.getD (sc.max_idx - 1) 0 + cv.getD sc.max_idx 0
                  + cv.getD (sc.max_idx + 1) 0) := by
          rw [hsum2, hscale, ← ha0]
          ring
        rw [e]
        exact convert_in_range _ _ key.1 key.2 hr1
      · rw [if_neg ha0] at hassign ⊢
        by_cases hc0 : 0 = cv.getD (sc.max_idx + 1) 0
        · rw [if_pos hc0]
          have e : (((sc.max_idx - 1 : Nat) : ℚ) * cv.getD (sc.max_idx - 1) 0
                + (sc.max_idx : ℚ) * cv.getD sc.max_idx 0) * s.pos_scale / sc.val_sum
              = (((sc.max_idx - 1 : Nat) : ℚ) * cv.getD (sc.max_idx - 1) 0
                  + (sc.max_idx : ℚ) * cv.getD sc.max_idx 0
                  + ((sc.max_idx + 1 : Nat) : ℚ) * cv.getD (sc.max_idx + 1) 0)
                * (s.pos_range / ((s.tp_num : ℚ) - 1))
                / (cv.getD (sc.max_idx - 1) 0 + cv.getD sc.max_idx 0
                    + cv.getD (sc.max_idx + 1) 0) := by
            rw [hsum2, hscale, ← hc0]
            ring
          rw [e]
          exact convert_in_range _ _ key.1 key.2 hr1
        · rw [if_neg hc0] at hassign
          exact absurd hassign (by simp)
    · rw [if_neg h2]
      rw [hsum2, hscale]
      exact convert_in_range _ _ key.1 key.2 hr1

theorem resolve_unassigned (s : tp_slide_t) (cv : List ℚ) (sc : slide_scan_t)
    (h : slide_assigns s cv sc = false) : slide_resolve s cv sc = some s.slide_pos := by
  unfold slide_assigns at h
  unfold slide_resolve
  simp only [] at h ⊢
  split_ifs at h ⊢
  all_goals first
    | rfl
    | (exact absurd h (by decide))
    | (cases hf : [sc.max_idx - 1, sc.max_idx, sc.max_idx + 1].find?
          (fun i => decide (cv.getD i 0 ≠ 0)) with
       | none => rfl
       | some i =>
         rw [hf] at h
         exact absurd h (by simp))

/-- C36: for every slider with `n ≥ 3` channels, `pos_scale = pos_range / (n - 1)`,
positive slide trigger thresholds and finite diff rates (and a `pos_range` that is
not negative and below `2^32`), whenever `tp_slide_pos_cb` assigns a new raw
position, the conversion to `uint32_t` is defined and the raw position `P`
satisfies `0 ≤ P ≤ pos_range`; in every other case the raw position is the
previous `slide_pos`. -/
theorem C36_position_in_range (s : tp_slide_t) (hmod : slide_modelled s = true)
    (hpos : ∀ d ∈ s.tp_handles, 0 < d.slide_trigger_thr) (hn : 3 ≤ s.tp_num)
    (hscale : s.pos_scale = s.pos_range / ((s.tp_num : ℚ) - 1))
    (hr0 : 0 ≤ s.pos_range) (hr1 : s.pos_range < 2 ^ 32) :
    (slide_assigns s (slide_calc_val s.tp_handles)
        (slide_scan (slide_calc_val s.tp_handles) s.tp_num) = true →
        ∃ P : Nat, slide_pos_temp s = some P ∧ (0 : ℚ) ≤ (P : ℚ) ∧ (P : ℚ) ≤ s.pos_range)
      ∧ (slide_assigns s (slide_calc_val s.tp_handles)
        (slide_scan (slide_calc_val s.tp_handles) s.tp_num) = false →
        slide_pos_temp s = some s.slide_pos) := by
  constructor
  · intro hassign
    obtain ⟨P, h1, h2⟩ := resolve_assigned s (slide_calc_val s.tp_handles)
      (calc_val_nonneg s.tp_handles hpos) hn hscale hr0 hr1 hassign
    refine ⟨P, ?_, Nat.cast_nonneg P, h2⟩
    unfold slide_pos_temp
    rw [if_pos hmod]
    exact h1
  · intro hno
    unfold slide_pos_temp
    rw [if_pos hmod]
    exact resolve_unassigned s _ _ hno

/-- Witness for C36: the three-channel example slider with its middle and last
channel touched, over the range 20. -/
theorem C36_position_in_range_witness :
    slide_assigns example_slide_two (slide_calc_val example_slide_two.tp_handles)
        (slide_scan (slide_calc_val example_slide_two.tp_handles) example_slide_two.tp_num)
        = true
      ∧ ∃ P : Nat, slide_pos_temp example_slide_two = some P ∧ (0 : ℚ) ≤ (P : ℚ)
          ∧ (P : ℚ) ≤ example_slide_two.pos_range :=
  have ha : slide_assigns example_slide_two (slide_calc_val example_slide_two.tp_handles)
      (slide_scan (slide_calc_val example_slide_two.tp_handles) example_slide_two.tp_num)
      = true := by
    rw [example_two_cv, show example_slide_two.tp_num = 3 from rfl, example_two_scan]
    simp [slide_assigns]
  ⟨ha,
    (C36_position_in_range example_slide_two example_two_modelled
      (by
        intro d hd
        simp only [example_slide_two, List.mem_cons, List.mem_singleton, List.not_mem_nil,
          or_false] at hd
        rcases hd with rfl | rfl | rfl <;> norm_num [example_slide_dev])
      (by decide) (by norm_num [example_slide_two]) (by norm_num [example_slide_two])
      (by norm_num [example_slide_two])).1 ha⟩

/-- A channel that a pass of `touch_pad_read_cb` takes as `slide_trigger_dev` (lines
579-581) has, in the record the pass leaves, its `diff_rate` above its
`slide_trigger_thr`: the Slide handler of line 601 is run only on behalf of a
channel that is above its threshold. -/
theorem marked_exceeds (x : Option tp_dev_t × Nat × Nat) (d : tp_dev_t)
    (h : chan_marked x = some d) : d.diff_rate.gtQ d.slide_trigger_thr = true := by
  obtain ⟨o, raw, f⟩ := x
  cases o with
  | none => simp [chan_marked] at h
  | some tp_dev =>
    simp only [chan_marked] at h
    split at h
    · rename_i hm
      simp only [Option.some.injEq] at h
      subst h
      revert hm
      unfold touch_pad_read_cb_chan
      simp only []
      split_ifs <;> simp only [Bool.and_eq_true] <;> intro hm <;> exact hm.1.2
    · simp at h

end Touchpad
